import Mathlib

/-!
A shallow embedding of the AES-128 implementation in `AESencode.cpp`
(george-galvin/AES-Encryption), together with proofs about it.

Bytes are modelled as `Nat` values below 256; the C++ `short int`
accumulator of `rijndael_multiply` is modelled as a plain `Nat` (all
intermediate values fit in 15 bits, so the signed 16-bit type never
overflows), and the narrowing conversion to `unsigned char` at a return
statement is modelled as `% 256`.  The process-wide C++ globals
(`sbox`, `inverse_sbox`, `key_schedule`) are passed to each operation as
explicit arguments; the claims instantiate them with the values produced
by `make_sbox_array` / `make_key_schedule`, exactly as `main` does.
Fixed-count `for` loops are modelled as folds over `List.range`.
-/

/-- `l[i]`, reading a C array: out-of-range reads never occur in the
modelled code paths, the default 0 is arbitrary. -/
def nth (l : List Nat) (i : Nat) : Nat := l.getD i 0

/-- All entries of the list are bytes (fit in `unsigned char`). -/
def AllBytes (l : List Nat) : Prop := ∀ x ∈ l, x < 256

instance : DecidablePred AllBytes := fun l =>
  inferInstanceAs (Decidable (∀ x ∈ l, x < 256))

/-- The carry-less product phase of `rijndael_multiply` (first loop,
lines 36-42): for each set bit `i` of `b` (the test
`(b & (1 << i)) == (1 << i)`), XOR `a << i` into the accumulator. -/
def clmul (a b : Nat) : Nat :=
  (List.range 8).foldl (fun result i =>
    cond (b.testBit i) (result ^^^ (a <<< i)) result) 0

/-- The reduction phase of `rijndael_multiply` (second loop, lines
44-50): for `i` from 15 down to 8, if bit `i` of the accumulator is
set, XOR in `0x11b << (i - 8)`. -/
def rijndael_reduce (r : Nat) : Nat :=
  [15, 14, 13, 12, 11, 10, 9, 8].foldl (fun result i =>
    cond (result.testBit i) (result ^^^ (0x11b <<< (i - 8))) result) r

/-- The full 16-bit accumulator of `rijndael_multiply` just before the
`return` statement (line 51). -/
def rijndael_multiply_acc (a b : Nat) : Nat := rijndael_reduce (clmul a b)

/-- `rijndael_multiply` (lines 32-52); the `% 256` models the
conversion of the `short int` accumulator to the `u8` return type. -/
def rijndael_multiply (a b : Nat) : Nat := rijndael_multiply_acc a b % 256

/-- `rijndael_inverse` (lines 56-64): multiply 1 by `x` 254 times. -/
def rijndael_inverse (x : Nat) : Nat :=
  (List.range 254).foldl (fun result _ => rijndael_multiply result x) 1

/-- `lcs_8bit` (lines 67-70): 8-bit left circular shift. -/
def lcs_8bit (x y : Nat) : Nat := ((x <<< y) % 0x100) + (x >>> (8 - y))

/-- One step of `lcs_4byte`'s loop: `x = { x[1], x[2], x[3], x[0] }`. -/
def rot_word_once (x : List Nat) : List Nat := [nth x 1, nth x 2, nth x 3, nth x 0]

/-- `lcs_4byte` (lines 73-80): rotate a 4-byte word left `y` times. -/
def lcs_4byte (x : List Nat) : Nat → List Nat
  | 0 => x
  | y + 1 => lcs_4byte (rot_word_once x) y

/-- `sbox_value` (lines 84-89). -/
def sbox_value (input : Nat) : Nat :=
  let inv := rijndael_inverse input
  inv ^^^ lcs_8bit inv 1 ^^^ lcs_8bit inv 2 ^^^ lcs_8bit inv 3 ^^^ lcs_8bit inv 4 ^^^ 0x63

/-- `make_sbox_array` (lines 94-103): returns the pair of the global
arrays `(sbox, inverse_sbox)` (zero-initialised, as C++ globals are)
after the loop `sbox[i] = sbox_value(i); inverse_sbox[sbox[i]] = i`. -/
def make_sbox_array : List Nat × List Nat :=
  (List.range 256).foldl
    (fun t i =>
      let s := sbox_value i
      (t.1.set i s, t.2.set s i))
    (List.replicate 256 0, List.replicate 256 0)

/-- `round_constant` (lines 107-125).  The C++ recursion decreases `i`
by 1 and only stops at `i == 1`, so it does not terminate when called
with `i = 0`; that argument is never used by `make_key_schedule`
(which calls it with `i / 4 ≥ 1`), and the model returns 0 there. -/
def round_constant : Nat → Nat
  | 0 => 0
  | 1 => 1
  | n + 2 =>
    let previous_rc := round_constant (n + 1)
    if previous_rc < 128 then 2 * previous_rc
    else (2 * previous_rc - 256) ^^^ 0x1b

/-- One iteration of `make_key_schedule`'s loop (lines 136-165),
appending the 4 bytes of word `i` to the schedule built so far.
`sbt` is the global `sbox` array. -/
def ks_step (sbt key : List Nat) (ks : List Nat) (i : Nat) : List Nat :=
  if i < 4 then
    ks ++ [nth key (4 * i), nth key (4 * i + 1), nth key (4 * i + 2), nth key (4 * i + 3)]
  else
    let o1 := [nth ks (4 * (i - 1)), nth ks (4 * (i - 1) + 1),
               nth ks (4 * (i - 1) + 2), nth ks (4 * (i - 1) + 3)]
    let o4 := [nth ks (4 * (i - 4)), nth ks (4 * (i - 4) + 1),
               nth ks (4 * (i - 4) + 2), nth ks (4 * (i - 4) + 3)]
    if i % 4 = 0 then
      let rot := lcs_4byte o1 1
      let s := rot.map (fun x => nth sbt x)
      let rc := [round_constant (i / 4), 0x00, 0x00, 0x00]
      ks ++ [nth o4 0 ^^^ nth s 0 ^^^ nth rc 0, nth o4 1 ^^^ nth s 1 ^^^ nth rc 1,
             nth o4 2 ^^^ nth s 2 ^^^ nth rc 2, nth o4 3 ^^^ nth s 3 ^^^ nth rc 3]
    else
      ks ++ [nth o1 0 ^^^ nth o4 0, nth o1 1 ^^^ nth o4 1,
             nth o1 2 ^^^ nth o4 2, nth o1 3 ^^^ nth o4 3]

/-- `make_key_schedule` (lines 131-166): the 176-byte global
`key_schedule` after the loop over `i = 0..43`.  Every byte of the
array is written before being read, so the array's previous contents
are irrelevant and the schedule is built here from an empty list. -/
def make_key_schedule (sbt key : List Nat) : List Nat :=
  (List.range 44).foldl (ks_step sbt key) []

/-- The AddRoundKey loop (`block[i] ^= round_key[i]`, e.g. lines
174-177) where `round_key` was `memcpy`ed from `key_schedule[off]`. -/
def add_round_key (ks : List Nat) (off : Nat) (b : List Nat) : List Nat :=
  (List.range 16).map (fun i => nth b i ^^^ nth ks (off + i))

/-- The SubBytes loop (lines 183-186); `sbt` is the global `sbox`. -/
def sub_bytes (sbt b : List Nat) : List Nat := b.map (fun x => nth sbt x)

/-- The InverseSubBytes loop (lines 271-274); `isbt` is the global
`inverse_sbox`. -/
def inv_sub_bytes (isbt b : List Nat) : List Nat := b.map (fun x => nth isbt x)

/-- Row `i` of the block viewed as a column-major 4x4 matrix:
`{ block[i], block[i + 4], block[i + 8], block[i + 12] }`. -/
def get_row (b : List Nat) (i : Nat) : List Nat :=
  [nth b i, nth b (i + 4), nth b (i + 8), nth b (i + 12)]

/-- Writing a 4-byte row back into the block (lines 193-196). -/
def set_row (b : List Nat) (i : Nat) (r : List Nat) : List Nat :=
  ((((b.set i (nth r 0)).set (i + 4) (nth r 1)).set (i + 8) (nth r 2)).set (i + 12) (nth r 3))

/-- The ShiftRows loop (lines 190-197). -/
def shift_rows (b : List Nat) : List Nat :=
  (List.range 4).foldl (fun bl i => set_row bl i (lcs_4byte (get_row bl i) i)) b

/-- The inverse ShiftRows loop of `decrypt_block` (lines 261-268). -/
def inv_shift_rows (b : List Nat) : List Nat :=
  (List.range 4).foldl (fun bl i => set_row bl i (lcs_4byte (get_row bl i) (4 - i))) b

/-- Column `i` of the block: `block[4i], .., block[4i + 3]`. -/
def get_col (b : List Nat) (i : Nat) : List Nat :=
  [nth b (4 * i), nth b (4 * i + 1), nth b (4 * i + 2), nth b (4 * i + 3)]

/-- `memcpy(&block[4 * i], &mix, 4)` (line 208). -/
def set_col (b : List Nat) (i : Nat) (c : List Nat) : List Nat :=
  (((b.set (4 * i) (nth c 0)).set (4 * i + 1) (nth c 1)).set (4 * i + 2) (nth c 2)).set
    (4 * i + 3) (nth c 3)

/-- The `mix` array computed for one column during encryption
(lines 204-207). -/
def mix_column (c : List Nat) : List Nat :=
  [rijndael_multiply 2 (nth c 0) ^^^ rijndael_multiply 3 (nth c 1) ^^^ nth c 2 ^^^ nth c 3,
   nth c 0 ^^^ rijndael_multiply 2 (nth c 1) ^^^ rijndael_multiply 3 (nth c 2) ^^^ nth c 3,
   nth c 0 ^^^ nth c 1 ^^^ rijndael_multiply 2 (nth c 2) ^^^ rijndael_multiply 3 (nth c 3),
   rijndael_multiply 3 (nth c 0) ^^^ nth c 1 ^^^ nth c 2 ^^^ rijndael_multiply 2 (nth c 3)]

/-- The MixColumns loop (lines 201-209). -/
def mix_columns (b : List Nat) : List Nat :=
  (List.range 4).foldl (fun bl i => set_col bl i (mix_column (get_col bl i))) b

/-- The `mix` array computed for one column during decryption
(lines 248-255). -/
def inv_mix_column (c : List Nat) : List Nat :=
  [rijndael_multiply 14 (nth c 0) ^^^ rijndael_multiply 11 (nth c 1) ^^^
     rijndael_multiply 13 (nth c 2) ^^^ rijndael_multiply 9 (nth c 3),
   rijndael_multiply 9 (nth c 0) ^^^ rijndael_multiply 14 (nth c 1) ^^^
     rijndael_multiply 11 (nth c 2) ^^^ rijndael_multiply 13 (nth c 3),
   rijndael_multiply 13 (nth c 0) ^^^ rijndael_multiply 9 (nth c 1) ^^^
     rijndael_multiply 14 (nth c 2) ^^^ rijndael_multiply 11 (nth c 3),
   rijndael_multiply 11 (nth c 0) ^^^ rijndael_multiply 13 (nth c 1) ^^^
     rijndael_multiply 9 (nth c 2) ^^^ rijndael_multiply 14 (nth c 3)]

/-- The inverse MixColumns loop of `decrypt_block` (lines 245-257). -/
def inv_mix_columns (b : List Nat) : List Nat :=
  (List.range 4).foldl (fun bl i => set_col bl i (inv_mix_column (get_col bl i))) b

/-- One iteration (`round = i + 1`) of the round loop of
`encrypt_block` (lines 180-218): SubBytes, ShiftRows, MixColumns
(skipped when `round == 10`), AddRoundKey with
`key_schedule[round * 16]`. -/
def enc_round (sbt ks : List Nat) (bl : List Nat) (i : Nat) : List Nat :=
  let round := i + 1
  let bl := sub_bytes sbt bl
  let bl := shift_rows bl
  let bl := if round ≠ 10 then mix_columns bl else bl
  add_round_key ks (round * 16) bl

/-- `encrypt_block` (lines 168-227): AddRoundKey with round key 0,
then the round loop for `round = 1..10`.  `sbt` is the global `sbox`,
`ks` the global `key_schedule`.  Its return value; the bytes it also
prints are `encrypt_block_stdout`. -/
def encrypt_block (sbt ks block : List Nat) : List Nat :=
  (List.range 10).foldl (enc_round sbt ks) (add_round_key ks 0 block)

/-- The bytes `encrypt_block` writes to standard output in the `cout`
loop at lines 220-224: exactly the 16 bytes of the block it is about
to return. -/
def encrypt_block_stdout (sbt ks block : List Nat) : List Nat :=
  encrypt_block sbt ks block

/-- One iteration (`round = i + 1`) of the round loop of
`decrypt_block` (lines 233-275): AddRoundKey with
`key_schedule[160 - 16 * (round - 1)]`, inverse MixColumns (skipped
when `round == 1`), inverse ShiftRows, inverse SubBytes. -/
def dec_round (isbt ks : List Nat) (bl : List Nat) (i : Nat) : List Nat :=
  let round := i + 1
  let bl := add_round_key ks (160 - 16 * (round - 1)) bl
  let bl := if round ≠ 1 then inv_mix_columns bl else bl
  inv_sub_bytes isbt (inv_shift_rows bl)

/-- `decrypt_block` (lines 229-283): the round loop for
`round = 1..10`, then a final AddRoundKey with `key_schedule[0]`.
The `memcpy` at line 232 is dead (the loop overwrites `round_key`
before it is read).  `isbt` is the global `inverse_sbox`, `ks` the
global `key_schedule`. -/
def decrypt_block (isbt ks block : List Nat) : List Nat :=
  add_round_key ks 0 ((List.range 10).foldl (dec_round isbt ks) block)

/-- The bytes `decrypt_block` writes to standard output: none (it
contains no output statement). -/
def decrypt_block_stdout (_isbt _ks _block : List Nat) : List Nat := []

/-- One round of the decryption sequence asserted by the
specification: AddRoundKey with round key `10 - round`, inverse
MixColumns for every round except round 10, inverse ShiftRows,
inverse SubBytes. -/
def dec_round_claimed (isbt ks : List Nat) (bl : List Nat) (i : Nat) : List Nat :=
  let round := i + 1
  let bl := add_round_key ks ((10 - round) * 16) bl
  let bl := if round ≠ 10 then inv_mix_columns bl else bl
  inv_sub_bytes isbt (inv_shift_rows bl)

/-- The decryption sequence as the specification words it: first
AddRoundKey with round key 10, then for `round = 1..10` the rounds of
`dec_round_claimed`, finishing with a final AddRoundKey using round
key 0.  Stated from the specification, for comparison with
`decrypt_block`. -/
def decrypt_block_claimed (isbt ks block : List Nat) : List Nat :=
  add_round_key ks 0
    ((List.range 10).foldl (dec_round_claimed isbt ks) (add_round_key ks (10 * 16) block))

/-- The FIPS-197 appendix C.1 example key. -/
def fipsKey : List Nat :=
  [0x00, 0x01, 0x02, 0x03, 0x04, 0x05, 0x06, 0x07,
   0x08, 0x09, 0x0a, 0x0b, 0x0c, 0x0d, 0x0e, 0x0f]

/-- The FIPS-197 appendix C.1 example plaintext block. -/
def fipsPlain : List Nat :=
  [0x00, 0x11, 0x22, 0x33, 0x44, 0x55, 0x66, 0x77,
   0x88, 0x99, 0xaa, 0xbb, 0xcc, 0xdd, 0xee, 0xff]

/-- The FIPS-197 appendix C.1 example ciphertext block. -/
def fipsCipher : List Nat :=
  [0x69, 0xc4, 0xe0, 0xd8, 0x6a, 0x7b, 0x04, 0x30,
   0xd8, 0xcd, 0xb7, 0x80, 0x70, 0xb4, 0xc5, 0x5a]

/-- The all-zero 16-byte key, used for concrete counterexamples. -/
def zeroKey : List Nat := List.replicate 16 0

/-- The all-zero 16-byte block. -/
def zeroBlock : List Nat := List.replicate 16 0

/-! ### Proof-layer definitions

The remaining definitions are devices for the proofs: one loop
iteration of the multiplier as a named function, an arithmetic
(branch-free) reformulation of `rijndael_multiply` proved equal to it
and used only to make kernel evaluation cheaper, the 254-fold
multiplication loop of `rijndael_inverse` as a recursion, and concrete
test vectors. -/

/-- One iteration of `rijndael_multiply`'s first loop. -/
def clstep (a b i result : Nat) : Nat :=
  cond (b.testBit i) (result ^^^ (a <<< i)) result

/-- One iteration of `rijndael_multiply`'s second loop. -/
def redstep (i result : Nat) : Nat :=
  cond (result.testBit i) (result ^^^ (0x11b <<< (i - 8))) result

/-- Branch-free form of `clstep`: XOR in `(a << i)` times bit `i` of
`b`. -/
def clstepA (a b i result : Nat) : Nat :=
  result ^^^ ((a <<< i) * ((b >>> i) &&& 1))

/-- Branch-free form of `redstep`. -/
def redstepA (i result : Nat) : Nat :=
  result ^^^ ((0x11b <<< (i - 8)) * ((result >>> i) &&& 1))

/-- Branch-free reformulation of `rijndael_multiply` (the loops
unrolled, each `cond` replaced by its arithmetic form); proved equal
to `rijndael_multiply` in `rijndael_multiply_eq_arith` and used to
evaluate it efficiently. -/
def rijndael_multiply_arith (a b : Nat) : Nat :=
  redstepA 8 (redstepA 9 (redstepA 10 (redstepA 11 (redstepA 12 (redstepA 13 (redstepA 14
    (redstepA 15 (clstepA a b 7 (clstepA a b 6 (clstepA a b 5 (clstepA a b 4 (clstepA a b 3
      (clstepA a b 2 (clstepA a b 1 (clstepA a b 0 0))))))))))))))) % 256

/-- `n` iterations of `result = rijndael_multiply(result, x)`, the
loop body of `rijndael_inverse`. -/
def inv_iter (x : Nat) : Nat → Nat → Nat
  | acc, 0 => acc
  | acc, n + 1 => inv_iter x (rijndael_multiply acc x) n

/-- `inv_iter` with the branch-free multiplier. -/
def inv_iterA (x : Nat) : Nat → Nat → Nat
  | acc, 0 => acc
  | acc, n + 1 => inv_iterA x (rijndael_multiply_arith acc x) n

/-- Reading entry `x` of a byte table packed little-endian into one
natural number. -/
def tbl (n x : Nat) : Nat := (n >>> (8 * x)) &&& 255

/-- Packed table of `x^2` (Rijndael field powers) for bytes `x`. -/
def pw2N : Nat := 2407448394402357120700620576208738221108896729058190461344895937168175941560161783030417279356920747870683555106447408997228276853621007459103109308364932559346578548535934804734747805354339392715269271498974215218814402422600790739562963929259146861263618288394578685080222862648514352924749845752665691090308930923455242372275079749229294675730345627751843168998905094613093349219941848791110355124623686195065502885174250771503399480892957856742214746054318369831692198111087358370858074716836209961469018270679558915235894607321706796537625324678498480746055102421003461322992443992381543782234259698836192887040

/-- Packed table of `x^4` (Rijndael field powers) for bytes `x`. -/
def pw4N : Nat := 3802462899148350818283981579175302727744740573097248351389446104247549079692380393553725246962205407407577751085195952829109271185291348361695088698182811812309472524750825248213536898999483814531760996508052670494033867852086781808316022492511758705701535318249207051983088121324895138357904439653244714531182419354418427339953500884005964826379875233974390884038807914993742681221467553622440449842393321064875691581914548531986873297349108825468542614301892046075335588033772399894764181750469757539394604304496806869932513951539295380706065230670225949600490910963070738846816580528626379593160067710061022019840

/-- Packed table of `x^8` (Rijndael field powers) for bytes `x`. -/
def pw8N : Nat := 10011451770405612835274248795225464571445833568854530646148276357162038598540638131121587742710644327912420774266701897707895634401422934143624384430886903255613613732540272404463670499541791360183303155525881702278882785779027351634067094367130114763566490792196956706397544065103617943363032812183718481270363135414291486335655002036136318761093190181488981853589284752765863035354423000886152290300574264413106476856426730425356568663882187960700393219511816730998583246390846876129813783202022888424718329155546817953785524044196010172901612445783679072661334106117982427447498175433780652130530297539379869712640

/-- Packed table of `x^16` (Rijndael field powers) for bytes `x`. -/
def pw16N : Nat := 32190584059146916167863796943902493669625173961372867862905962740247667348104601763447991491423675502198573285826646716159904741992273677373025358772415130158658130421064533772607684474637787667478822783995041419236734287030739052560680079926578747290698434880120856863233748944912345756144628208776211129721138905369679613371185395647083941014004740231787300433242840536674621285274929226878285628665235886633908140389327401436846306368649850434371599873243956089343952874409481673391077659993119241242008117392863985269269618436441273181323700335508623140463287432571281098817640520738751848524402390090050002878720

/-- Packed table of `x^32` (Rijndael field powers) for bytes `x`. -/
def pw32N : Nat := 2282134455855151320799352301917388655253106633933366698573750953041915873539296584310422723876359809283686642784197844613159320738571001539441490658877723287690708728370878881592925475233307515587123475966585735451904361462619443890157320673806934510866145752291322974467655255888101043790742934331820916169313408293195388053458852893733472098388427705223411158786050451522411707400271226772083828367276254735597117180309627026801220506969671123057932370572274914868406796052972977581132922142154931355882389613195584098026296889339689597165330952232814817838587898492479062377395839626428898097987740914178368733440

/-- Packed table of `x^64` (Rijndael field powers) for bytes `x`. -/
def pw64N : Nat := 3928339588573096573324433936939039579039474209400730844799915614706164716825653278474779295774819072581546020283030245974951692177007013739587392013217219635813832290471560737858613644783582994439763359892331227234115573362277564364234104759766900003898570972924569940312915116487506997110816475181153046000318647628071691770289012560606145524255673772611173235155493549478726439979201435562109857581699890484088655134125314587367997614796773401899199298841192983312352713144519012178534204159076136196183546359672861922156295388876406454202689573717750496840326318498142041657960115633485371470678196248446623351040

/-- Packed table of `x^128` (Rijndael field powers) for bytes `x`. -/
def pw128N : Nat := 9885892227292960801289550737988049225283691281106316496547194087686977190377304873937991799740351460244305755979055563762267657871127139466479882177035366554086767766017672344437788921614095916532938807474477764383650505425398783455695522616829427213048004211195973023004907382232927547537180995993411475707325687023945831145205932711877665419599246658336915036739405435814238438655538853635513828258435794339852944349708797315374408677670120351144884321549357109170542759617869706179960623524272663757463864643521971591297043686788143946325274457162496713841832651631322846117001859903790794663039788197906428330240

/-- Packed table of `x^254` (Rijndael field powers) for bytes `x`. -/
def inv254N : Nat := 3566776863222250792575350504665046155069508327501453217101429430621730038043584053371660509702620055860081156466022285956586373576971909210171343659649552507176508005971567067637526818336653057460235767741581454534757369738530565771380035673162616129401273381134793422969875859516904113580246491480877823305346558232134899738800022074717406919707935282309554844169982325935665249148669134080917255765422589041374844979786301241750162074905253618853420688398165348773793897399659421930346683507413494886767272566548764049417490863269423193139537759588741825434151586758978267398985919305201935175793127681620251050240

/-! ### Literal tables

Literal values used by the evaluation lemmas: the powers
`x ^ (6 + 8k)` in the Rijndael field for each byte `x` (intermediate
states of `rijndael_inverse`'s loop), the S-box tables, intermediate
states of `make_sbox_array`'s loop, the expanded FIPS-197 and all-zero
key schedules, and the intermediate round states of the concrete
encryptions and decryptions used by the claims.  Each is proved equal
to the corresponding computation of the model. -/

/-- The 256 S-box values (`sbox` after `make_sbox_array`). -/
def sbox_list : List Nat := [99, 124, 119, 123, 242, 107, 111, 197, 48, 1, 103, 43, 254, 215, 171, 118, 202, 130, 201, 125, 250, 89, 71, 240, 173, 212, 162, 175, 156, 164, 114, 192, 183, 253, 147, 38, 54, 63, 247, 204, 52, 165, 229, 241, 113, 216, 49, 21, 4, 199, 35, 195, 24, 150, 5, 154, 7, 18, 128, 226, 235, 39, 178, 117, 9, 131, 44, 26, 27, 110, 90, 160, 82, 59, 214, 179, 41, 227, 47, 132, 83, 209, 0, 237, 32, 252, 177, 91, 106, 203, 190, 57, 74, 76, 88, 207, 208, 239, 170, 251, 67, 77, 51, 133, 69, 249, 2, 127, 80, 60, 159, 168, 81, 163, 64, 143, 146, 157, 56, 245, 188, 182, 218, 33, 16, 255, 243, 210, 205, 12, 19, 236, 95, 151, 68, 23, 196, 167, 126, 61, 100, 93, 25, 115, 96, 129, 79, 220, 34, 42, 144, 136, 70, 238, 184, 20, 222, 94, 11, 219, 224, 50, 58, 10, 73, 6, 36, 92, 194, 211, 172, 98, 145, 149, 228, 121, 231, 200, 55, 109, 141, 213, 78, 169, 108, 86, 244, 234, 101, 122, 174, 8, 186, 120, 37, 46, 28, 166, 180, 198, 232, 221, 116, 31, 75, 189, 139, 138, 112, 62, 181, 102, 72, 3, 246, 14, 97, 53, 87, 185, 134, 193, 29, 158, 225, 248, 152, 17, 105, 217, 142, 148, 155, 30, 135, 233, 206, 85, 40, 223, 140, 161, 137, 13, 191, 230, 66, 104, 65, 153, 45, 15, 176, 84, 187, 22]

/-- The 256 inverse S-box values (`inverse_sbox` after `make_sbox_array`). -/
def inverse_sbox_list : List Nat := [82, 9, 106, 213, 48, 54, 165, 56, 191, 64, 163, 158, 129, 243, 215, 251, 124, 227, 57, 130, 155, 47, 255, 135, 52, 142, 67, 68, 196, 222, 233, 203, 84, 123, 148, 50, 166, 194, 35, 61, 238, 76, 149, 11, 66, 250, 195, 78, 8, 46, 161, 102, 40, 217, 36, 178, 118, 91, 162, 73, 109, 139, 209, 37, 114, 248, 246, 100, 134, 104, 152, 22, 212, 164, 92, 204, 93, 101, 182, 146, 108, 112, 72, 80, 253, 237, 185, 218, 94, 21, 70, 87, 167, 141, 157, 132, 144, 216, 171, 0, 140, 188, 211, 10, 247, 228, 88, 5, 184, 179, 69, 6, 208, 44, 30, 143, 202, 63, 15, 2, 193, 175, 189, 3, 1, 19, 138, 107, 58, 145, 17, 65, 79, 103, 220, 234, 151, 242, 207, 206, 240, 180, 230, 115, 150, 172, 116, 34, 231, 173, 53, 133, 226, 249, 55, 232, 28, 117, 223, 110, 71, 241, 26, 113, 29, 41, 197, 137, 111, 183, 98, 14, 170, 24, 190, 27, 252, 86, 62, 75, 198, 210, 121, 32, 154, 219, 192, 254, 120, 205, 90, 244, 31, 221, 168, 51, 136, 7, 199, 49, 177, 18, 16, 89, 39, 128, 236, 95, 96, 81, 127, 169, 25, 181, 74, 13, 45, 229, 122, 159, 147, 201, 156, 239, 160, 224, 59, 77, 174, 42, 245, 176, 200, 235, 187, 60, 131, 83, 153, 97, 23, 43, 4, 126, 186, 119, 214, 38, 225, 105, 20, 99, 85, 33, 12, 125]

/-- `make_sbox_array`'s loop step with the S-box value read from the
literal table; proved pointwise equal to the real step. -/
def sbox_stepL (t : List Nat × List Nat) (i : Nat) : List Nat × List Nat :=
  (t.1.set i (nth sbox_list i), t.2.set (nth sbox_list i) i)

/-- The state of `make_sbox_array`'s loop after 32 iterations. -/
def sbox_build_32 : List Nat × List Nat := ([99, 124, 119, 123, 242, 107, 111, 197, 48, 1, 103, 43, 254, 215, 171, 118, 202, 130, 201, 125, 250, 89, 71, 240, 173, 212, 162, 175, 156, 164, 114, 192, 0, 0, 0, 0, 0, 0, 0, 0, 0, 0, 0, 0, 0, 0, 0, 0, 0, 0, 0, 0, 0, 0, 0, 0, 0, 0, 0, 0, 0, 0, 0, 0, 0, 0, 0, 0, 0, 0, 0, 0, 0, 0, 0, 0, 0, 0, 0, 0, 0, 0, 0, 0, 0, 0, 0, 0, 0, 0, 0, 0, 0, 0, 0, 0, 0, 0, 0, 0, 0, 0, 0, 0, 0, 0, 0, 0, 0, 0, 0, 0, 0, 0, 0, 0, 0, 0, 0, 0, 0, 0, 0, 0, 0, 0, 0, 0, 0, 0, 0, 0, 0, 0, 0, 0, 0, 0, 0, 0, 0, 0, 0, 0, 0, 0, 0, 0, 0, 0, 0, 0, 0, 0, 0, 0, 0, 0, 0, 0, 0, 0, 0, 0, 0, 0, 0, 0, 0, 0, 0, 0, 0, 0, 0, 0, 0, 0, 0, 0, 0, 0, 0, 0, 0, 0, 0, 0, 0, 0, 0, 0, 0, 0, 0, 0, 0, 0, 0, 0, 0, 0, 0, 0, 0, 0, 0, 0, 0, 0, 0, 0, 0, 0, 0, 0, 0, 0, 0, 0, 0, 0, 0, 0, 0, 0, 0, 0, 0, 0, 0, 0, 0, 0, 0, 0, 0, 0, 0, 0, 0, 0, 0, 0, 0, 0, 0, 0, 0, 0, 0, 0, 0, 0, 0, 0], [0, 9, 0, 0, 0, 0, 0, 0, 0, 0, 0, 0, 0, 0, 0, 0, 0, 0, 0, 0, 0, 0, 0, 0, 0, 0, 0, 0, 0, 0, 0, 0, 0, 0, 0, 0, 0, 0, 0, 0, 0, 0, 0, 11, 0, 0, 0, 0, 8, 0, 0, 0, 0, 0, 0, 0, 0, 0, 0, 0, 0, 0, 0, 0, 0, 0, 0, 0, 0, 0, 0, 22, 0, 0, 0, 0, 0, 0, 0, 0, 0, 0, 0, 0, 0, 0, 0, 0, 0, 21, 0, 0, 0, 0, 0, 0, 0, 0, 0, 0, 0, 0, 0, 10, 0, 0, 0, 5, 0, 0, 0, 6, 0, 0, 30, 0, 0, 0, 15, 2, 0, 0, 0, 3, 1, 19, 0, 0, 0, 0, 17, 0, 0, 0, 0, 0, 0, 0, 0, 0, 0, 0, 0, 0, 0, 0, 0, 0, 0, 0, 0, 0, 0, 0, 0, 0, 28, 0, 0, 0, 0, 0, 26, 0, 29, 0, 0, 0, 0, 0, 0, 14, 0, 24, 0, 27, 0, 0, 0, 0, 0, 0, 0, 0, 0, 0, 0, 0, 0, 0, 0, 0, 31, 0, 0, 0, 0, 7, 0, 0, 0, 18, 16, 0, 0, 0, 0, 0, 0, 0, 0, 0, 25, 0, 0, 13, 0, 0, 0, 0, 0, 0, 0, 0, 0, 0, 0, 0, 0, 0, 0, 0, 0, 0, 0, 0, 0, 0, 0, 0, 23, 0, 4, 0, 0, 0, 0, 0, 0, 0, 20, 0, 0, 0, 12, 0])

/-- The state of `make_sbox_array`'s loop after 64 iterations. -/
def sbox_build_64 : List Nat × List Nat := ([99, 124, 119, 123, 242, 107, 111, 197, 48, 1, 103, 43, 254, 215, 171, 118, 202, 130, 201, 125, 250, 89, 71, 240, 173, 212, 162, 175, 156, 164, 114, 192, 183, 253, 147, 38, 54, 63, 247, 204, 52, 165, 229, 241, 113, 216, 49, 21, 4, 199, 35, 195, 24, 150, 5, 154, 7, 18, 128, 226, 235, 39, 178, 117, 0, 0, 0, 0, 0, 0, 0, 0, 0, 0, 0, 0, 0, 0, 0, 0, 0, 0, 0, 0, 0, 0, 0, 0, 0, 0, 0, 0, 0, 0, 0, 0, 0, 0, 0, 0, 0, 0, 0, 0, 0, 0, 0, 0, 0, 0, 0, 0, 0, 0, 0, 0, 0, 0, 0, 0, 0, 0, 0, 0, 0, 0, 0, 0, 0, 0, 0, 0, 0, 0, 0, 0, 0, 0, 0, 0, 0, 0, 0, 0, 0, 0, 0, 0, 0, 0, 0, 0, 0, 0, 0, 0, 0, 0, 0, 0, 0, 0, 0, 0, 0, 0, 0, 0, 0, 0, 0, 0, 0, 0, 0, 0, 0, 0, 0, 0, 0, 0, 0, 0, 0, 0, 0, 0, 0, 0, 0, 0, 0, 0, 0, 0, 0, 0, 0, 0, 0, 0, 0, 0, 0, 0, 0, 0, 0, 0, 0, 0, 0, 0, 0, 0, 0, 0, 0, 0, 0, 0, 0, 0, 0, 0, 0, 0, 0, 0, 0, 0, 0, 0, 0, 0, 0, 0, 0, 0, 0, 0, 0, 0, 0, 0, 0, 0, 0, 0, 0, 0, 0, 0, 0, 0], [0, 9, 0, 0, 48, 54, 0, 56, 0, 0, 0, 0, 0, 0, 0, 0, 0, 0, 57, 0, 0, 47, 0, 0, 52, 0, 0, 0, 0, 0, 0, 0, 0, 0, 0, 50, 0, 0, 35, 61, 0, 0, 0, 11, 0, 0, 0, 0, 8, 46, 0, 0, 40, 0, 36, 0, 0, 0, 0, 0, 0, 0, 0, 37, 0, 0, 0, 0, 0, 0, 0, 22, 0, 0, 0, 0, 0, 0, 0, 0, 0, 0, 0, 0, 0, 0, 0, 0, 0, 21, 0, 0, 0, 0, 0, 0, 0, 0, 0, 0, 0, 0, 0, 10, 0, 0, 0, 5, 0, 0, 0, 6, 0, 44, 30, 0, 0, 63, 15, 2, 0, 0, 0, 3, 1, 19, 0, 0, 58, 0, 17, 0, 0, 0, 0, 0, 0, 0, 0, 0, 0, 0, 0, 0, 0, 0, 0, 34, 0, 0, 53, 0, 0, 0, 55, 0, 28, 0, 0, 0, 0, 0, 26, 0, 29, 41, 0, 0, 0, 0, 0, 14, 0, 24, 0, 27, 0, 0, 62, 0, 0, 0, 0, 32, 0, 0, 0, 0, 0, 0, 0, 0, 31, 0, 0, 51, 0, 7, 0, 49, 0, 18, 16, 0, 39, 0, 0, 0, 0, 0, 0, 0, 25, 0, 0, 13, 45, 0, 0, 0, 0, 0, 0, 0, 0, 0, 59, 0, 0, 42, 0, 0, 0, 0, 0, 60, 0, 0, 0, 0, 23, 43, 4, 0, 0, 0, 0, 38, 0, 0, 20, 0, 0, 33, 12, 0])

/-- The state of `make_sbox_array`'s loop after 96 iterations. -/
def sbox_build_96 : List Nat × List Nat := ([99, 124, 119, 123, 242, 107, 111, 197, 48, 1, 103, 43, 254, 215, 171, 118, 202, 130, 201, 125, 250, 89, 71, 240, 173, 212, 162, 175, 156, 164, 114, 192, 183, 253, 147, 38, 54, 63, 247, 204, 52, 165, 229, 241, 113, 216, 49, 21, 4, 199, 35, 195, 24, 150, 5, 154, 7, 18, 128, 226, 235, 39, 178, 117, 9, 131, 44, 26, 27, 110, 90, 160, 82, 59, 214, 179, 41, 227, 47, 132, 83, 209, 0, 237, 32, 252, 177, 91, 106, 203, 190, 57, 74, 76, 88, 207, 0, 0, 0, 0, 0, 0, 0, 0, 0, 0, 0, 0, 0, 0, 0, 0, 0, 0, 0, 0, 0, 0, 0, 0, 0, 0, 0, 0, 0, 0, 0, 0, 0, 0, 0, 0, 0, 0, 0, 0, 0, 0, 0, 0, 0, 0, 0, 0, 0, 0, 0, 0, 0, 0, 0, 0, 0, 0, 0, 0, 0, 0, 0, 0, 0, 0, 0, 0, 0, 0, 0, 0, 0, 0, 0, 0, 0, 0, 0, 0, 0, 0, 0, 0, 0, 0, 0, 0, 0, 0, 0, 0, 0, 0, 0, 0, 0, 0, 0, 0, 0, 0, 0, 0, 0, 0, 0, 0, 0, 0, 0, 0, 0, 0, 0, 0, 0, 0, 0, 0, 0, 0, 0, 0, 0, 0, 0, 0, 0, 0, 0, 0, 0, 0, 0, 0, 0, 0, 0, 0, 0, 0, 0, 0, 0, 0, 0, 0, 0, 0, 0, 0, 0, 0, 0, 0, 0, 0, 0, 0], [82, 9, 0, 0, 48, 54, 0, 56, 0, 64, 0, 0, 0, 0, 0, 0, 0, 0, 57, 0, 0, 47, 0, 0, 52, 0, 67, 68, 0, 0, 0, 0, 84, 0, 0, 50, 0, 0, 35, 61, 0, 76, 0, 11, 66, 0, 0, 78, 8, 46, 0, 0, 40, 0, 36, 0, 0, 91, 0, 73, 0, 0, 0, 37, 0, 0, 0, 0, 0, 0, 0, 22, 0, 0, 92, 0, 93, 0, 0, 0, 0, 0, 72, 80, 0, 0, 0, 0, 94, 21, 70, 87, 0, 0, 0, 0, 0, 0, 0, 0, 0, 0, 0, 10, 0, 0, 88, 5, 0, 0, 69, 6, 0, 44, 30, 0, 0, 63, 15, 2, 0, 0, 0, 3, 1, 19, 0, 0, 58, 0, 17, 65, 79, 0, 0, 0, 0, 0, 0, 0, 0, 0, 0, 0, 0, 0, 0, 34, 0, 0, 53, 0, 0, 0, 55, 0, 28, 0, 0, 0, 71, 0, 26, 0, 29, 41, 0, 0, 0, 0, 0, 14, 0, 24, 0, 27, 0, 86, 62, 75, 0, 0, 0, 32, 0, 0, 0, 0, 0, 0, 90, 0, 31, 0, 0, 51, 0, 7, 0, 49, 0, 18, 16, 89, 39, 0, 0, 95, 0, 81, 0, 0, 25, 0, 74, 13, 45, 0, 0, 0, 0, 0, 0, 0, 0, 0, 59, 77, 0, 42, 0, 0, 0, 0, 0, 60, 0, 83, 0, 0, 23, 43, 4, 0, 0, 0, 0, 38, 0, 0, 20, 0, 85, 33, 12, 0])

/-- The state of `make_sbox_array`'s loop after 128 iterations. -/
def sbox_build_128 : List Nat × List Nat := ([99, 124, 119, 123, 242, 107, 111, 197, 48, 1, 103, 43, 254, 215, 171, 118, 202, 130, 201, 125, 250, 89, 71, 240, 173, 212, 162, 175, 156, 164, 114, 192, 183, 253, 147, 38, 54, 63, 247, 204, 52, 165, 229, 241, 113, 216, 49, 21, 4, 199, 35, 195, 24, 150, 5, 154, 7, 18, 128, 226, 235, 39, 178, 117, 9, 131, 44, 26, 27, 110, 90, 160, 82, 59, 214, 179, 41, 227, 47, 132, 83, 209, 0, 237, 32, 252, 177, 91, 106, 203, 190, 57, 74, 76, 88, 207, 208, 239, 170, 251, 67, 77, 51, 133, 69, 249, 2, 127, 80, 60, 159, 168, 81, 163, 64, 143, 146, 157, 56, 245, 188, 182, 218, 33, 16, 255, 243, 210, 0, 0, 0, 0, 0, 0, 0, 0, 0, 0, 0, 0, 0, 0, 0, 0, 0, 0, 0, 0, 0, 0, 0, 0, 0, 0, 0, 0, 0, 0, 0, 0, 0, 0, 0, 0, 0, 0, 0, 0, 0, 0, 0, 0, 0, 0, 0, 0, 0, 0, 0, 0, 0, 0, 0, 0, 0, 0, 0, 0, 0, 0, 0, 0, 0, 0, 0, 0, 0, 0, 0, 0, 0, 0, 0, 0, 0, 0, 0, 0, 0, 0, 0, 0, 0, 0, 0, 0, 0, 0, 0, 0, 0, 0, 0, 0, 0, 0, 0, 0, 0, 0, 0, 0, 0, 0, 0, 0, 0, 0, 0, 0, 0, 0, 0, 0, 0, 0, 0, 0, 0, 0, 0, 0, 0, 0, 0, 0], [82, 9, 106, 0, 48, 54, 0, 56, 0, 64, 0, 0, 0, 0, 0, 0, 124, 0, 57, 0, 0, 47, 0, 0, 52, 0, 67, 68, 0, 0, 0, 0, 84, 123, 0, 50, 0, 0, 35, 61, 0, 76, 0, 11, 66, 0, 0, 78, 8, 46, 0, 102, 40, 0, 36, 0, 118, 91, 0, 73, 109, 0, 0, 37, 114, 0, 0, 100, 0, 104, 0, 22, 0, 0, 92, 0, 93, 101, 0, 0, 108, 112, 72, 80, 0, 0, 0, 0, 94, 21, 70, 87, 0, 0, 0, 0, 0, 0, 0, 0, 0, 0, 0, 10, 0, 0, 88, 5, 0, 0, 69, 6, 0, 44, 30, 0, 0, 63, 15, 2, 0, 0, 0, 3, 1, 19, 0, 107, 58, 0, 17, 65, 79, 103, 0, 0, 0, 0, 0, 0, 0, 0, 0, 115, 0, 0, 116, 34, 0, 0, 53, 0, 0, 0, 55, 0, 28, 117, 0, 110, 71, 0, 26, 113, 29, 41, 0, 0, 111, 0, 98, 14, 0, 24, 0, 27, 0, 86, 62, 75, 0, 0, 121, 32, 0, 0, 0, 0, 120, 0, 90, 0, 31, 0, 0, 51, 0, 7, 0, 49, 0, 18, 16, 89, 39, 0, 0, 95, 96, 81, 127, 0, 25, 0, 74, 13, 45, 0, 122, 0, 0, 0, 0, 0, 0, 0, 59, 77, 0, 42, 0, 0, 0, 0, 0, 60, 0, 83, 0, 97, 23, 43, 4, 126, 0, 119, 0, 38, 0, 105, 20, 99, 85, 33, 12, 125])

/-- The state of `make_sbox_array`'s loop after 160 iterations. -/
def sbox_build_160 : List Nat × List Nat := ([99, 124, 119, 123, 242, 107, 111, 197, 48, 1, 103, 43, 254, 215, 171, 118, 202, 130, 201, 125, 250, 89, 71, 240, 173, 212, 162, 175, 156, 164, 114, 192, 183, 253, 147, 38, 54, 63, 247, 204, 52, 165, 229, 241, 113, 216, 49, 21, 4, 199, 35, 195, 24, 150, 5, 154, 7, 18, 128, 226, 235, 39, 178, 117, 9, 131, 44, 26, 27, 110, 90, 160, 82, 59, 214, 179, 41, 227, 47, 132, 83, 209, 0, 237, 32, 252, 177, 91, 106, 203, 190, 57, 74, 76, 88, 207, 208, 239, 170, 251, 67, 77, 51, 133, 69, 249, 2, 127, 80, 60, 159, 168, 81, 163, 64, 143, 146, 157, 56, 245, 188, 182, 218, 33, 16, 255, 243, 210, 205, 12, 19, 236, 95, 151, 68, 23, 196, 167, 126, 61, 100, 93, 25, 115, 96, 129, 79, 220, 34, 42, 144, 136, 70, 238, 184, 20, 222, 94, 11, 219, 0, 0, 0, 0, 0, 0, 0, 0, 0, 0, 0, 0, 0, 0, 0, 0, 0, 0, 0, 0, 0, 0, 0, 0, 0, 0, 0, 0, 0, 0, 0, 0, 0, 0, 0, 0, 0, 0, 0, 0, 0, 0, 0, 0, 0, 0, 0, 0, 0, 0, 0, 0, 0, 0, 0, 0, 0, 0, 0, 0, 0, 0, 0, 0, 0, 0, 0, 0, 0, 0, 0, 0, 0, 0, 0, 0, 0, 0, 0, 0, 0, 0, 0, 0, 0, 0, 0, 0, 0, 0, 0, 0, 0, 0, 0, 0], [82, 9, 106, 0, 48, 54, 0, 56, 0, 64, 0, 158, 129, 0, 0, 0, 124, 0, 57, 130, 155, 47, 0, 135, 52, 142, 67, 68, 0, 0, 0, 0, 84, 123, 148, 50, 0, 0, 35, 61, 0, 76, 149, 11, 66, 0, 0, 78, 8, 46, 0, 102, 40, 0, 36, 0, 118, 91, 0, 73, 109, 139, 0, 37, 114, 0, 0, 100, 134, 104, 152, 22, 0, 0, 92, 0, 93, 101, 0, 146, 108, 112, 72, 80, 0, 0, 0, 0, 94, 21, 70, 87, 0, 141, 157, 132, 144, 0, 0, 0, 140, 0, 0, 10, 0, 0, 88, 5, 0, 0, 69, 6, 0, 44, 30, 143, 0, 63, 15, 2, 0, 0, 0, 3, 1, 19, 138, 107, 58, 145, 17, 65, 79, 103, 0, 0, 151, 0, 0, 0, 0, 0, 0, 115, 150, 0, 116, 34, 0, 0, 53, 133, 0, 0, 55, 0, 28, 117, 0, 110, 71, 0, 26, 113, 29, 41, 0, 137, 111, 0, 98, 14, 0, 24, 0, 27, 0, 86, 62, 75, 0, 0, 121, 32, 154, 0, 0, 0, 120, 0, 90, 0, 31, 0, 0, 51, 136, 7, 0, 49, 0, 18, 16, 89, 39, 128, 0, 95, 96, 81, 127, 0, 25, 0, 74, 13, 45, 0, 122, 159, 147, 0, 156, 0, 0, 0, 59, 77, 0, 42, 0, 0, 0, 0, 0, 60, 131, 83, 153, 97, 23, 43, 4, 126, 0, 119, 0, 38, 0, 105, 20, 99, 85, 33, 12, 125])

/-- The state of `make_sbox_array`'s loop after 192 iterations. -/
def sbox_build_192 : List Nat × List Nat := ([99, 124, 119, 123, 242, 107, 111, 197, 48, 1, 103, 43, 254, 215, 171, 118, 202, 130, 201, 125, 250, 89, 71, 240, 173, 212, 162, 175, 156, 164, 114, 192, 183, 253, 147, 38, 54, 63, 247, 204, 52, 165, 229, 241, 113, 216, 49, 21, 4, 199, 35, 195, 24, 150, 5, 154, 7, 18, 128, 226, 235, 39, 178, 117, 9, 131, 44, 26, 27, 110, 90, 160, 82, 59, 214, 179, 41, 227, 47, 132, 83, 209, 0, 237, 32, 252, 177, 91, 106, 203, 190, 57, 74, 76, 88, 207, 208, 239, 170, 251, 67, 77, 51, 133, 69, 249, 2, 127, 80, 60, 159, 168, 81, 163, 64, 143, 146, 157, 56, 245, 188, 182, 218, 33, 16, 255, 243, 210, 205, 12, 19, 236, 95, 151, 68, 23, 196, 167, 126, 61, 100, 93, 25, 115, 96, 129, 79, 220, 34, 42, 144, 136, 70, 238, 184, 20, 222, 94, 11, 219, 224, 50, 58, 10, 73, 6, 36, 92, 194, 211, 172, 98, 145, 149, 228, 121, 231, 200, 55, 109, 141, 213, 78, 169, 108, 86, 244, 234, 101, 122, 174, 8, 0, 0, 0, 0, 0, 0, 0, 0, 0, 0, 0, 0, 0, 0, 0, 0, 0, 0, 0, 0, 0, 0, 0, 0, 0, 0, 0, 0, 0, 0, 0, 0, 0, 0, 0, 0, 0, 0, 0, 0, 0, 0, 0, 0, 0, 0, 0, 0, 0, 0, 0, 0, 0, 0, 0, 0, 0, 0, 0, 0, 0, 0, 0, 0], [82, 9, 106, 0, 48, 54, 165, 56, 191, 64, 163, 158, 129, 0, 0, 0, 124, 0, 57, 130, 155, 47, 0, 135, 52, 142, 67, 68, 0, 0, 0, 0, 84, 123, 148, 50, 166, 0, 35, 61, 0, 76, 149, 11, 66, 0, 0, 78, 8, 46, 161, 102, 40, 0, 36, 178, 118, 91, 162, 73, 109, 139, 0, 37, 114, 0, 0, 100, 134, 104, 152, 22, 0, 164, 92, 0, 93, 101, 182, 146, 108, 112, 72, 80, 0, 0, 185, 0, 94, 21, 70, 87, 167, 141, 157, 132, 144, 0, 171, 0, 140, 188, 0, 10, 0, 0, 88, 5, 184, 179, 69, 6, 0, 44, 30, 143, 0, 63, 15, 2, 0, 175, 189, 3, 1, 19, 138, 107, 58, 145, 17, 65, 79, 103, 0, 0, 151, 0, 0, 0, 0, 180, 0, 115, 150, 172, 116, 34, 0, 173, 53, 133, 0, 0, 55, 0, 28, 117, 0, 110, 71, 0, 26, 113, 29, 41, 0, 137, 111, 183, 98, 14, 170, 24, 190, 27, 0, 86, 62, 75, 0, 0, 121, 32, 154, 0, 0, 0, 120, 0, 90, 0, 31, 0, 168, 51, 136, 7, 0, 49, 177, 18, 16, 89, 39, 128, 0, 95, 96, 81, 127, 169, 25, 181, 74, 13, 45, 0, 122, 159, 147, 0, 156, 0, 160, 0, 59, 77, 174, 42, 0, 176, 0, 0, 187, 60, 131, 83, 153, 97, 23, 43, 4, 126, 186, 119, 0, 38, 0, 105, 20, 99, 85, 33, 12, 125])

/-- The state of `make_sbox_array`'s loop after 224 iterations. -/
def sbox_build_224 : List Nat × List Nat := ([99, 124, 119, 123, 242, 107, 111, 197, 48, 1, 103, 43, 254, 215, 171, 118, 202, 130, 201, 125, 250, 89, 71, 240, 173, 212, 162, 175, 156, 164, 114, 192, 183, 253, 147, 38, 54, 63, 247, 204, 52, 165, 229, 241, 113, 216, 49, 21, 4, 199, 35, 195, 24, 150, 5, 154, 7, 18, 128, 226, 235, 39, 178, 117, 9, 131, 44, 26, 27, 110, 90, 160, 82, 59, 214, 179, 41, 227, 47, 132, 83, 209, 0, 237, 32, 252, 177, 91, 106, 203, 190, 57, 74, 76, 88, 207, 208, 239, 170, 251, 67, 77, 51, 133, 69, 249, 2, 127, 80, 60, 159, 168, 81, 163, 64, 143, 146, 157, 56, 245, 188, 182, 218, 33, 16, 255, 243, 210, 205, 12, 19, 236, 95, 151, 68, 23, 196, 167, 126, 61, 100, 93, 25, 115, 96, 129, 79, 220, 34, 42, 144, 136, 70, 238, 184, 20, 222, 94, 11, 219, 224, 50, 58, 10, 73, 6, 36, 92, 194, 211, 172, 98, 145, 149, 228, 121, 231, 200, 55, 109, 141, 213, 78, 169, 108, 86, 244, 234, 101, 122, 174, 8, 186, 120, 37, 46, 28, 166, 180, 198, 232, 221, 116, 31, 75, 189, 139, 138, 112, 62, 181, 102, 72, 3, 246, 14, 97, 53, 87, 185, 134, 193, 29, 158, 0, 0, 0, 0, 0, 0, 0, 0, 0, 0, 0, 0, 0, 0, 0, 0, 0, 0, 0, 0, 0, 0, 0, 0, 0, 0, 0, 0, 0, 0, 0, 0], [82, 9, 106, 213, 48, 54, 165, 56, 191, 64, 163, 158, 129, 0, 215, 0, 124, 0, 57, 130, 155, 47, 0, 135, 52, 142, 67, 68, 196, 222, 0, 203, 84, 123, 148, 50, 166, 194, 35, 61, 0, 76, 149, 11, 66, 0, 195, 78, 8, 46, 161, 102, 40, 217, 36, 178, 118, 91, 162, 73, 109, 139, 209, 37, 114, 0, 0, 100, 134, 104, 152, 22, 212, 164, 92, 204, 93, 101, 182, 146, 108, 112, 72, 80, 0, 0, 185, 218, 94, 21, 70, 87, 167, 141, 157, 132, 144, 216, 171, 0, 140, 188, 211, 10, 0, 0, 88, 5, 184, 179, 69, 6, 208, 44, 30, 143, 202, 63, 15, 2, 193, 175, 189, 3, 1, 19, 138, 107, 58, 145, 17, 65, 79, 103, 220, 0, 151, 0, 207, 206, 0, 180, 0, 115, 150, 172, 116, 34, 0, 173, 53, 133, 0, 0, 55, 0, 28, 117, 223, 110, 71, 0, 26, 113, 29, 41, 197, 137, 111, 183, 98, 14, 170, 24, 190, 27, 0, 86, 62, 75, 198, 210, 121, 32, 154, 219, 192, 0, 120, 205, 90, 0, 31, 221, 168, 51, 136, 7, 199, 49, 177, 18, 16, 89, 39, 128, 0, 95, 96, 81, 127, 169, 25, 181, 74, 13, 45, 0, 122, 159, 147, 201, 156, 0, 160, 0, 59, 77, 174, 42, 0, 176, 200, 0, 187, 60, 131, 83, 153, 97, 23, 43, 4, 126, 186, 119, 214, 38, 0, 105, 20, 99, 85, 33, 12, 125])

/-- The key schedule expanded from `fipsKey`. -/
def fips_ks : List Nat := [0, 1, 2, 3, 4, 5, 6, 7, 8, 9, 10, 11, 12, 13, 14, 15, 214, 170, 116, 253, 210, 175, 114, 250, 218, 166, 120, 241, 214, 171, 118, 254, 182, 146, 207, 11, 100, 61, 189, 241, 190, 155, 197, 0, 104, 48, 179, 254, 182, 255, 116, 78, 210, 194, 201, 191, 108, 89, 12, 191, 4, 105, 191, 65, 71, 247, 247, 188, 149, 53, 62, 3, 249, 108, 50, 188, 253, 5, 141, 253, 60, 170, 163, 232, 169, 159, 157, 235, 80, 243, 175, 87, 173, 246, 34, 170, 94, 57, 15, 125, 247, 166, 146, 150, 167, 85, 61, 193, 10, 163, 31, 107, 20, 249, 112, 26, 227, 95, 226, 140, 68, 10, 223, 77, 78, 169, 192, 38, 71, 67, 135, 53, 164, 28, 101, 185, 224, 22, 186, 244, 174, 191, 122, 210, 84, 153, 50, 209, 240, 133, 87, 104, 16, 147, 237, 156, 190, 44, 151, 78, 19, 17, 29, 127, 227, 148, 74, 23, 243, 7, 167, 139, 77, 43, 48, 197]

/-- The key schedule expanded from `zeroKey`. -/
def zero_ks : List Nat := [0, 0, 0, 0, 0, 0, 0, 0, 0, 0, 0, 0, 0, 0, 0, 0, 98, 99, 99, 99, 98, 99, 99, 99, 98, 99, 99, 99, 98, 99, 99, 99, 155, 152, 152, 201, 249, 251, 251, 170, 155, 152, 152, 201, 249, 251, 251, 170, 144, 151, 52, 80, 105, 108, 207, 250, 242, 244, 87, 51, 11, 15, 172, 153, 238, 6, 218, 123, 135, 106, 21, 129, 117, 158, 66, 178, 126, 145, 238, 43, 127, 46, 43, 136, 248, 68, 62, 9, 141, 218, 124, 187, 243, 75, 146, 144, 236, 97, 75, 133, 20, 37, 117, 140, 153, 255, 9, 55, 106, 180, 155, 167, 33, 117, 23, 135, 53, 80, 98, 11, 172, 175, 107, 60, 198, 27, 240, 155, 14, 249, 3, 51, 59, 169, 97, 56, 151, 6, 10, 4, 81, 29, 250, 159, 177, 212, 216, 226, 138, 125, 185, 218, 29, 123, 179, 222, 76, 102, 73, 65, 180, 239, 91, 203, 62, 146, 226, 17, 35, 233, 81, 207, 111, 143, 24, 142]

/-- Encryption of `fipsPlain`: state after AddRoundKey 0. -/
def fips_enc_s0 : List Nat := [0, 16, 32, 48, 64, 80, 96, 112, 128, 144, 160, 176, 192, 208, 224, 240]

/-- Encryption of `fipsPlain`: state after round 1. -/
def fips_enc_s1 : List Nat := [137, 216, 16, 232, 133, 90, 206, 104, 45, 24, 67, 216, 203, 18, 143, 228]

/-- Encryption of `fipsPlain`: state after round 2. -/
def fips_enc_s2 : List Nat := [73, 21, 89, 143, 85, 229, 215, 160, 218, 202, 148, 250, 31, 10, 99, 247]

/-- Encryption of `fipsPlain`: state after round 3. -/
def fips_enc_s3 : List Nat := [250, 99, 106, 40, 37, 179, 57, 201, 64, 102, 138, 49, 87, 36, 77, 23]

/-- Encryption of `fipsPlain`: state after round 4. -/
def fips_enc_s4 : List Nat := [36, 114, 64, 35, 105, 102, 179, 250, 110, 210, 117, 50, 136, 66, 91, 108]

/-- Encryption of `fipsPlain`: state after round 5. -/
def fips_enc_s5 : List Nat := [200, 22, 119, 188, 155, 122, 201, 59, 37, 2, 121, 146, 176, 38, 25, 150]

/-- Encryption of `fipsPlain`: state after round 6. -/
def fips_enc_s6 : List Nat := [198, 47, 225, 9, 247, 94, 237, 195, 204, 121, 57, 93, 132, 249, 207, 93]

/-- Encryption of `fipsPlain`: state after round 7. -/
def fips_enc_s7 : List Nat := [209, 135, 108, 15, 121, 196, 48, 10, 180, 85, 148, 173, 214, 111, 244, 31]

/-- Encryption of `fipsPlain`: state after round 8. -/
def fips_enc_s8 : List Nat := [253, 227, 186, 210, 5, 229, 208, 215, 53, 71, 150, 78, 241, 254, 55, 241]

/-- Encryption of `fipsPlain`: state after round 9. -/
def fips_enc_s9 : List Nat := [189, 110, 124, 61, 242, 181, 119, 158, 11, 97, 33, 110, 139, 16, 182, 137]

/-- Decryption of `fipsCipher`: state after round 1. -/
def fips_dec_s1 : List Nat := [189, 110, 124, 61, 242, 181, 119, 158, 11, 97, 33, 110, 139, 16, 182, 137]

/-- Decryption of `fipsCipher`: state after round 2. -/
def fips_dec_s2 : List Nat := [253, 227, 186, 210, 5, 229, 208, 215, 53, 71, 150, 78, 241, 254, 55, 241]

/-- Decryption of `fipsCipher`: state after round 3. -/
def fips_dec_s3 : List Nat := [209, 135, 108, 15, 121, 196, 48, 10, 180, 85, 148, 173, 214, 111, 244, 31]

/-- Decryption of `fipsCipher`: state after round 4. -/
def fips_dec_s4 : List Nat := [198, 47, 225, 9, 247, 94, 237, 195, 204, 121, 57, 93, 132, 249, 207, 93]

/-- Decryption of `fipsCipher`: state after round 5. -/
def fips_dec_s5 : List Nat := [200, 22, 119, 188, 155, 122, 201, 59, 37, 2, 121, 146, 176, 38, 25, 150]

/-- Decryption of `fipsCipher`: state after round 6. -/
def fips_dec_s6 : List Nat := [36, 114, 64, 35, 105, 102, 179, 250, 110, 210, 117, 50, 136, 66, 91, 108]

/-- Decryption of `fipsCipher`: state after round 7. -/
def fips_dec_s7 : List Nat := [250, 99, 106, 40, 37, 179, 57, 201, 64, 102, 138, 49, 87, 36, 77, 23]

/-- Decryption of `fipsCipher`: state after round 8. -/
def fips_dec_s8 : List Nat := [73, 21, 89, 143, 85, 229, 215, 160, 218, 202, 148, 250, 31, 10, 99, 247]

/-- Decryption of `fipsCipher`: state after round 9. -/
def fips_dec_s9 : List Nat := [137, 216, 16, 232, 133, 90, 206, 104, 45, 24, 67, 216, 203, 18, 143, 228]

/-- Decryption of `fipsCipher`: state after round 10. -/
def fips_dec_s10 : List Nat := [0, 16, 32, 48, 64, 80, 96, 112, 128, 144, 160, 176, 192, 208, 224, 240]

/-- `decrypt_block` on the zero schedule and zero block: state after round 1. -/
def zero_dec_s1 : List Nat := [198, 115, 112, 227, 209, 97, 52, 95, 50, 116, 87, 230, 6, 235, 59, 89]

/-- `decrypt_block` on the zero schedule and zero block: state after round 2. -/
def zero_dec_s2 : List Nat := [9, 154, 68, 44, 241, 206, 186, 133, 102, 15, 66, 184, 180, 100, 235, 239]

/-- `decrypt_block` on the zero schedule and zero block: state after round 3. -/
def zero_dec_s3 : List Nat := [130, 229, 54, 239, 165, 56, 189, 111, 29, 151, 11, 46, 6, 54, 55, 213]

/-- `decrypt_block` on the zero schedule and zero block: state after round 4. -/
def zero_dec_s4 : List Nat := [1, 196, 115, 16, 46, 113, 254, 103, 75, 114, 163, 32, 202, 246, 225, 27]

/-- `decrypt_block` on the zero schedule and zero block: state after round 5. -/
def zero_dec_s5 : List Nat := [151, 225, 65, 245, 88, 177, 32, 5, 166, 104, 240, 182, 194, 195, 49, 76]

/-- `decrypt_block` on the zero schedule and zero block: state after round 6. -/
def zero_dec_s6 : List Nat := [102, 91, 176, 95, 180, 89, 115, 80, 208, 154, 81, 20, 207, 147, 205, 142]

/-- `decrypt_block` on the zero schedule and zero block: state after round 7. -/
def zero_dec_s7 : List Nat := [75, 184, 118, 169, 48, 77, 39, 98, 197, 134, 1, 241, 40, 84, 166, 32]

/-- `decrypt_block` on the zero schedule and zero block: state after round 8. -/
def zero_dec_s8 : List Nat := [3, 173, 105, 232, 130, 145, 67, 199, 123, 161, 1, 20, 90, 95, 62, 18]

/-- `decrypt_block` on the zero schedule and zero block: state after round 9. -/
def zero_dec_s9 : List Nat := [156, 172, 38, 77, 199, 182, 73, 213, 27, 2, 101, 175, 183, 199, 53, 71]

/-- `decrypt_block` on the zero schedule and zero block: state after round 10. -/
def zero_dec_s10 : List Nat := [20, 15, 15, 16, 17, 181, 34, 61, 121, 88, 119, 23, 255, 217, 236, 58]

/-- `decrypt_block` on the zero schedule and zero block: result. -/
def zero_dec_res : List Nat := [20, 15, 15, 16, 17, 181, 34, 61, 121, 88, 119, 23, 255, 217, 236, 58]

/-- `decrypt_block_claimed` on the zero schedule and zero block: state after the initial AddRoundKey. -/
def zero_clm_s0 : List Nat := [180, 239, 91, 203, 62, 146, 226, 17, 35, 233, 81, 207, 111, 143, 24, 142]

/-- `decrypt_block_claimed` on the zero schedule and zero block: state after round 1. -/
def zero_clm_s1 : List Nat := [251, 45, 169, 184, 70, 114, 10, 174, 86, 7, 192, 185, 205, 229, 118, 216]

/-- `decrypt_block_claimed` on the zero schedule and zero block: state after round 2. -/
def zero_clm_s2 : List Nat := [96, 189, 208, 221, 49, 146, 224, 99, 215, 162, 115, 58, 198, 161, 10, 124]

/-- `decrypt_block_claimed` on the zero schedule and zero block: state after round 3. -/
def zero_clm_s3 : List Nat := [127, 205, 121, 175, 187, 196, 83, 181, 54, 206, 1, 210, 246, 215, 40, 197]

/-- `decrypt_block_claimed` on the zero schedule and zero block: state after round 4. -/
def zero_clm_s4 : List Nat := [87, 249, 41, 170, 236, 241, 126, 16, 174, 74, 198, 136, 58, 225, 42, 228]

/-- `decrypt_block_claimed` on the zero schedule and zero block: state after round 5. -/
def zero_clm_s5 : List Nat := [52, 3, 124, 85, 107, 59, 134, 94, 33, 254, 133, 160, 208, 115, 31, 62]

/-- `decrypt_block_claimed` on the zero schedule and zero block: state after round 6. -/
def zero_clm_s6 : List Nat := [101, 98, 29, 115, 72, 250, 122, 42, 153, 225, 110, 255, 236, 182, 25, 111]

/-- `decrypt_block_claimed` on the zero schedule and zero block: state after round 7. -/
def zero_clm_s7 : List Nat := [4, 143, 166, 161, 149, 175, 173, 6, 3, 89, 162, 165, 33, 254, 9, 254]

/-- `decrypt_block_claimed` on the zero schedule and zero block: state after round 8. -/
def zero_clm_s8 : List Nat := [72, 123, 132, 30, 1, 74, 65, 88, 77, 47, 253, 220, 132, 229, 229, 215]

/-- `decrypt_block_claimed` on the zero schedule and zero block: state after round 9. -/
def zero_clm_s9 : List Nat := [177, 192, 92, 209, 47, 83, 180, 9, 107, 207, 182, 66, 164, 15, 4, 51]

/-- `decrypt_block_claimed` on the zero schedule and zero block: state after round 10. -/
def zero_clm_s10 : List Nat := [86, 251, 121, 64, 78, 31, 48, 246, 5, 80, 167, 102, 29, 95, 198, 81]

/-- `decrypt_block_claimed` on the zero schedule and zero block: result. -/
def zero_clm_res : List Nat := [86, 251, 121, 64, 78, 31, 48, 246, 5, 80, 167, 102, 29, 95, 198, 81]

/-! ## Basic equivalences for the multiplier -/

/-! ### Definitions to merge (key-schedule words, round-constant iteration,
decrypt sequence, bit bounds) -/

/-- Word `i` of a key schedule: bytes `4*i .. 4*i+3`. -/
def ksWord (ks : List Nat) (i : Nat) : List Nat :=
  [nth ks (4 * i), nth ks (4 * i + 1), nth ks (4 * i + 2), nth ks (4 * i + 3)]

/-- Bytewise XOR of two 4-byte words. -/
def wordXor (u v : List Nat) : List Nat :=
  [nth u 0 ^^^ nth v 0, nth u 1 ^^^ nth v 1, nth u 2 ^^^ nth v 2, nth u 3 ^^^ nth v 3]

/-- Apply an S-box table to each byte of a word. -/
def subWord (sbt w : List Nat) : List Nat := w.map (fun x => nth sbt x)

/-- The key schedule after the first `n` iterations of the
`make_key_schedule` loop. -/
def ksUpTo (sbt key : List Nat) (n : Nat) : List Nat :=
  (List.range n).foldl (ks_step sbt key) []

/-- The forward iteration for round constants described by the
specification: start at 1 and double `r - 1` times, reducing with
`XOR 0x1b` after a byte overflow. -/
def rc_forward (r : Nat) : Nat :=
  (List.range (r - 1)).foldl
    (fun rc _ => if rc < 0x80 then 2 * rc else (2 * rc) % 256 ^^^ 0x1b) 1

/-- The sequence of operations `decrypt_block` actually performs, written
out round by round: for `round = 1..10`, AddRoundKey with round key
`11 - round`, inverse MixColumns for every round except round 1, inverse
ShiftRows, inverse SubBytes; finishing with AddRoundKey with round key 0. -/
def decrypt_block_sequence (isbt ks block : List Nat) : List Nat :=
  add_round_key ks 0 ((List.range 10).foldl (fun bl i =>
    let round := i + 1
    let bl := add_round_key ks ((11 - round) * 16) bl
    let bl := if round ≠ 1 then inv_mix_columns bl else bl
    inv_sub_bytes isbt (inv_shift_rows bl)) block)

set_option maxRecDepth 8000

theorem clstep_eq_arith (a b i r : Nat) : clstep a b i r = clstepA a b i r := by
  unfold clstep clstepA
  have hdm : (b >>> i) &&& 1 = (b.testBit i).toNat := by
    rw [Nat.and_one_is_mod, Nat.shiftRight_eq_div_pow, ← Nat.toNat_testBit]
  cases h : b.testBit i
  · rw [hdm, h]; simp
  · rw [hdm, h]; simp

theorem redstep_eq_arith (i r : Nat) : redstep i r = redstepA i r := by
  unfold redstep redstepA
  have hdm : (r >>> i) &&& 1 = (r.testBit i).toNat := by
    rw [Nat.and_one_is_mod, Nat.shiftRight_eq_div_pow, ← Nat.toNat_testBit]
  cases h : r.testBit i
  · rw [hdm, h]; simp
  · rw [hdm, h]; simp

theorem rijndael_multiply_unfold (a b : Nat) :
    rijndael_multiply a b =
      redstep 8 (redstep 9 (redstep 10 (redstep 11 (redstep 12 (redstep 13 (redstep 14
        (redstep 15 (clstep a b 7 (clstep a b 6 (clstep a b 5 (clstep a b 4 (clstep a b 3
          (clstep a b 2 (clstep a b 1 (clstep a b 0 0))))))))))))))) % 256 := rfl

theorem rijndael_multiply_eq_arith (a b : Nat) :
    rijndael_multiply a b = rijndael_multiply_arith a b := by
  rw [rijndael_multiply_unfold]
  simp only [clstep_eq_arith, redstep_eq_arith]
  rfl

theorem inv_iter_succ_out (x : Nat) (n : Nat) : ∀ acc,
    inv_iter x acc (n + 1) = rijndael_multiply (inv_iter x acc n) x := by
  induction n with
  | zero => intro acc; rfl
  | succ n ih =>
    intro acc
    rw [show inv_iter x acc (n + 1 + 1) = inv_iter x (rijndael_multiply acc x) (n + 1) from rfl,
      ih]
    rfl

theorem rijndael_inverse_eq_iter (x : Nat) : rijndael_inverse x = inv_iter x 1 254 := by
  have main : ∀ n, (List.range n).foldl (fun result _ => rijndael_multiply result x) 1 =
      inv_iter x 1 n := by
    intro n
    induction n with
    | zero => rfl
    | succ n ih =>
      rw [List.range_succ, List.foldl_append, ih]
      exact (inv_iter_succ_out x n 1).symm
  exact main 254

theorem inv_iter_eq_arith (x : Nat) : ∀ n acc, inv_iter x acc n = inv_iterA x acc n := by
  intro n
  induction n with
  | zero => intro acc; rfl
  | succ n ih =>
    intro acc
    rw [show inv_iter x acc (n + 1) = inv_iter x (rijndael_multiply acc x) n from rfl, ih,
      rijndael_multiply_eq_arith]
    rfl

theorem inv_iterA_add (x : Nat) : ∀ m n acc,
    inv_iterA x acc (m + n) = inv_iterA x (inv_iterA x acc m) n := by
  intro m
  induction m with
  | zero => intro n acc; rw [Nat.zero_add]; rfl
  | succ m ih =>
    intro n acc
    rw [Nat.succ_add,
      show inv_iterA x acc (m + n + 1) = inv_iterA x (rijndael_multiply_arith acc x) (m + n)
        from rfl,
      ih]
    rfl

theorem all_range_256 {p : Nat → Bool} (h : ((List.range 256).all p) = true) {x : Nat}
    (hx : x < 256) : p x = true :=
  List.all_eq_true.mp h x (List.mem_range.mpr hx)

/-! ## XOR algebra of the multiplier

`rijndael_multiply` is linear in each argument with respect to XOR:
shifting distributes over XOR, each loop iteration of the carry-less
product and of the reduction is compatible with XOR, and so is the
final `% 256`. -/

theorem xor_cancel_pair (x y t : Nat) : (x ^^^ t) ^^^ (y ^^^ t) = x ^^^ y := by
  rw [Nat.xor_assoc, Nat.xor_comm y t, ← Nat.xor_assoc t t y, Nat.xor_self, Nat.zero_xor]

theorem xor_swap_right (x y t : Nat) : (x ^^^ y) ^^^ t = (x ^^^ t) ^^^ y := by
  rw [Nat.xor_assoc, Nat.xor_comm y t, ← Nat.xor_assoc]

theorem xor_pair_split (x y s t : Nat) : (x ^^^ y) ^^^ (s ^^^ t) = (x ^^^ s) ^^^ (y ^^^ t) := by
  rw [Nat.xor_assoc x y (s ^^^ t), ← Nat.xor_assoc y s t, Nat.xor_comm y s,
    Nat.xor_assoc s y t, ← Nat.xor_assoc x s (y ^^^ t)]

theorem shiftLeft_xor (a b i : Nat) : (a ^^^ b) <<< i = (a <<< i) ^^^ (b <<< i) := by
  apply Nat.eq_of_testBit_eq
  intro j
  simp [Nat.testBit_shiftLeft, Nat.testBit_xor, Bool.and_xor_distrib_left]

theorem mod256_xor (x y : Nat) : (x ^^^ y) % 256 = x % 256 ^^^ y % 256 := by
  have h256 : (256 : Nat) = 2 ^ 8 := rfl
  rw [h256]
  apply Nat.eq_of_testBit_eq
  intro j
  simp only [Nat.testBit_mod_two_pow, Nat.testBit_xor, Bool.and_xor_distrib_left]

theorem clmul_xor_left (a1 a2 b : Nat) : clmul (a1 ^^^ a2) b = clmul a1 b ^^^ clmul a2 b := by
  have hstep : ∀ (i r1 r2 : Nat),
      cond (b.testBit i) ((r1 ^^^ r2) ^^^ ((a1 ^^^ a2) <<< i)) (r1 ^^^ r2)
        = cond (b.testBit i) (r1 ^^^ (a1 <<< i)) r1 ^^^
          cond (b.testBit i) (r2 ^^^ (a2 <<< i)) r2 := by
    intro i r1 r2
    cases b.testBit i
    · rfl
    · show (r1 ^^^ r2) ^^^ ((a1 ^^^ a2) <<< i) = (r1 ^^^ (a1 <<< i)) ^^^ (r2 ^^^ (a2 <<< i))
      rw [shiftLeft_xor]
      exact xor_pair_split r1 r2 (a1 <<< i) (a2 <<< i)
  have main : ∀ (l : List Nat) (r1 r2 : Nat),
      l.foldl (fun result i => cond (b.testBit i) (result ^^^ ((a1 ^^^ a2) <<< i)) result)
          (r1 ^^^ r2)
        = l.foldl (fun result i => cond (b.testBit i) (result ^^^ (a1 <<< i)) result) r1 ^^^
          l.foldl (fun result i => cond (b.testBit i) (result ^^^ (a2 <<< i)) result) r2 := by
    intro l
    induction l with
    | nil => intro r1 r2; rfl
    | cons i l ih =>
      intro r1 r2
      simp only [List.foldl_cons]
      rw [hstep i r1 r2]
      exact ih _ _
  exact main (List.range 8) 0 0

theorem clmul_xor_right (a b1 b2 : Nat) : clmul a (b1 ^^^ b2) = clmul a b1 ^^^ clmul a b2 := by
  have hstep : ∀ (i r1 r2 : Nat),
      cond ((b1 ^^^ b2).testBit i) ((r1 ^^^ r2) ^^^ (a <<< i)) (r1 ^^^ r2)
        = cond (b1.testBit i) (r1 ^^^ (a <<< i)) r1 ^^^
          cond (b2.testBit i) (r2 ^^^ (a <<< i)) r2 := by
    intro i r1 r2
    rw [Nat.testBit_xor]
    cases h1 : b1.testBit i <;> cases h2 : b2.testBit i
    · rfl
    · show (r1 ^^^ r2) ^^^ (a <<< i) = r1 ^^^ (r2 ^^^ (a <<< i))
      exact Nat.xor_assoc r1 r2 (a <<< i)
    · show (r1 ^^^ r2) ^^^ (a <<< i) = (r1 ^^^ (a <<< i)) ^^^ r2
      exact xor_swap_right r1 r2 (a <<< i)
    · show r1 ^^^ r2 = (r1 ^^^ (a <<< i)) ^^^ (r2 ^^^ (a <<< i))
      exact (xor_cancel_pair r1 r2 (a <<< i)).symm
  have main : ∀ (l : List Nat) (r1 r2 : Nat),
      l.foldl (fun result i => cond ((b1 ^^^ b2).testBit i) (result ^^^ (a <<< i)) result)
          (r1 ^^^ r2)
        = l.foldl (fun result i => cond (b1.testBit i) (result ^^^ (a <<< i)) result) r1 ^^^
          l.foldl (fun result i => cond (b2.testBit i) (result ^^^ (a <<< i)) result) r2 := by
    intro l
    induction l with
    | nil => intro r1 r2; rfl
    | cons i l ih =>
      intro r1 r2
      simp only [List.foldl_cons]
      rw [hstep i r1 r2]
      exact ih _ _
  exact main (List.range 8) 0 0

theorem rijndael_reduce_xor (x y : Nat) :
    rijndael_reduce (x ^^^ y) = rijndael_reduce x ^^^ rijndael_reduce y := by
  have hstep : ∀ (i r1 r2 : Nat),
      cond ((r1 ^^^ r2).testBit i) ((r1 ^^^ r2) ^^^ (0x11b <<< (i - 8))) (r1 ^^^ r2)
        = cond (r1.testBit i) (r1 ^^^ (0x11b <<< (i - 8))) r1 ^^^
          cond (r2.testBit i) (r2 ^^^ (0x11b <<< (i - 8))) r2 := by
    intro i r1 r2
    rw [Nat.testBit_xor]
    cases h1 : r1.testBit i <;> cases h2 : r2.testBit i
    · rfl
    · exact Nat.xor_assoc r1 r2 (0x11b <<< (i - 8))
    · exact xor_swap_right r1 r2 (0x11b <<< (i - 8))
    · exact (xor_cancel_pair r1 r2 (0x11b <<< (i - 8))).symm
  have main : ∀ (l : List Nat) (r1 r2 : Nat),
      l.foldl (fun result i => cond (result.testBit i) (result ^^^ (0x11b <<< (i - 8))) result)
          (r1 ^^^ r2)
        = l.foldl (fun result i => cond (result.testBit i) (result ^^^ (0x11b <<< (i - 8))) result)
            r1 ^^^
          l.foldl (fun result i => cond (result.testBit i) (result ^^^ (0x11b <<< (i - 8))) result)
            r2 := by
    intro l
    induction l with
    | nil => intro r1 r2; rfl
    | cons i l ih =>
      intro r1 r2
      simp only [List.foldl_cons]
      rw [hstep i r1 r2]
      exact ih _ _
  exact main [15, 14, 13, 12, 11, 10, 9, 8] x y

theorem rijndael_multiply_xor_left (a1 a2 b : Nat) :
    rijndael_multiply (a1 ^^^ a2) b = rijndael_multiply a1 b ^^^ rijndael_multiply a2 b := by
  unfold rijndael_multiply rijndael_multiply_acc
  rw [clmul_xor_left, rijndael_reduce_xor, mod256_xor]

theorem rijndael_multiply_xor_right (a b1 b2 : Nat) :
    rijndael_multiply a (b1 ^^^ b2) = rijndael_multiply a b1 ^^^ rijndael_multiply a b2 := by
  unfold rijndael_multiply rijndael_multiply_acc
  rw [clmul_xor_right, rijndael_reduce_xor, mod256_xor]

theorem rijndael_multiply_zero_left (b : Nat) : rijndael_multiply 0 b = 0 := by
  have h := rijndael_multiply_xor_left 0 0 b
  rw [Nat.xor_self] at h
  rw [Nat.xor_self] at h
  exact h

theorem rijndael_multiply_zero_right (a : Nat) : rijndael_multiply a 0 = 0 := by
  have h := rijndael_multiply_xor_right a 0 0
  rw [Nat.xor_self] at h
  rw [Nat.xor_self] at h
  exact h

/-! ## Commutativity and associativity on bytes

Every byte is the XOR of its bits; by linearity this reduces
commutativity and associativity of `rijndael_multiply` on bytes to the
finitely many products of powers of two, which are checked by
evaluation. -/

theorem all_range_lt {n : Nat} {p : Nat → Bool} (h : ((List.range n).all p) = true) {x : Nat}
    (hx : x < n) : p x = true :=
  List.all_eq_true.mp h x (List.mem_range.mpr hx)

theorem byte_decomp_all : ((List.range 256).all fun a =>
    a == (a &&& 2 ^ 0) ^^^ (a &&& 2 ^ 1) ^^^ (a &&& 2 ^ 2) ^^^ (a &&& 2 ^ 3) ^^^
      (a &&& 2 ^ 4) ^^^ (a &&& 2 ^ 5) ^^^ (a &&& 2 ^ 6) ^^^ (a &&& 2 ^ 7)) = true := by rfl

theorem byte_decomp (a : Nat) (ha : a < 256) :
    a = (a &&& 2 ^ 0) ^^^ (a &&& 2 ^ 1) ^^^ (a &&& 2 ^ 2) ^^^ (a &&& 2 ^ 3) ^^^
      (a &&& 2 ^ 4) ^^^ (a &&& 2 ^ 5) ^^^ (a &&& 2 ^ 6) ^^^ (a &&& 2 ^ 7) := by
  have h := all_range_lt byte_decomp_all ha
  simpa using h

theorem mask_cases (a i : Nat) : a &&& 2 ^ i = 0 ∨ a &&& 2 ^ i = 2 ^ i := by
  cases h : a.testBit i
  · left; rw [Nat.and_two_pow, h]; simp
  · right; rw [Nat.and_two_pow, h]; simp

theorem xor8_congr {x0 x1 x2 x3 x4 x5 x6 x7 y0 y1 y2 y3 y4 y5 y6 y7 : Nat}
    (h0 : x0 = y0) (h1 : x1 = y1) (h2 : x2 = y2) (h3 : x3 = y3) (h4 : x4 = y4) (h5 : x5 = y5)
    (h6 : x6 = y6) (h7 : x7 = y7) :
    x0 ^^^ x1 ^^^ x2 ^^^ x3 ^^^ x4 ^^^ x5 ^^^ x6 ^^^ x7 =
      y0 ^^^ y1 ^^^ y2 ^^^ y3 ^^^ y4 ^^^ y5 ^^^ y6 ^^^ y7 := by
  rw [h0, h1, h2, h3, h4, h5, h6, h7]

theorem mul_expand_right (a b : Nat) (hb : b < 256) :
    rijndael_multiply a b =
      rijndael_multiply a (b &&& 2 ^ 0) ^^^ rijndael_multiply a (b &&& 2 ^ 1) ^^^
      rijndael_multiply a (b &&& 2 ^ 2) ^^^ rijndael_multiply a (b &&& 2 ^ 3) ^^^
      rijndael_multiply a (b &&& 2 ^ 4) ^^^ rijndael_multiply a (b &&& 2 ^ 5) ^^^
      rijndael_multiply a (b &&& 2 ^ 6) ^^^ rijndael_multiply a (b &&& 2 ^ 7) := by
  conv_lhs => rw [byte_decomp b hb]
  rw [rijndael_multiply_xor_right, rijndael_multiply_xor_right, rijndael_multiply_xor_right,
    rijndael_multiply_xor_right, rijndael_multiply_xor_right, rijndael_multiply_xor_right,
    rijndael_multiply_xor_right]

theorem mul_expand_left (a b : Nat) (ha : a < 256) :
    rijndael_multiply a b =
      rijndael_multiply (a &&& 2 ^ 0) b ^^^ rijndael_multiply (a &&& 2 ^ 1) b ^^^
      rijndael_multiply (a &&& 2 ^ 2) b ^^^ rijndael_multiply (a &&& 2 ^ 3) b ^^^
      rijndael_multiply (a &&& 2 ^ 4) b ^^^ rijndael_multiply (a &&& 2 ^ 5) b ^^^
      rijndael_multiply (a &&& 2 ^ 6) b ^^^ rijndael_multiply (a &&& 2 ^ 7) b := by
  conv_lhs => rw [byte_decomp a ha]
  rw [rijndael_multiply_xor_left, rijndael_multiply_xor_left, rijndael_multiply_xor_left,
    rijndael_multiply_xor_left, rijndael_multiply_xor_left, rijndael_multiply_xor_left,
    rijndael_multiply_xor_left]

theorem rmul_pow_pow_comm_all : ((List.range 8).all fun i => (List.range 8).all fun j =>
    rijndael_multiply_arith (2 ^ i) (2 ^ j) == rijndael_multiply_arith (2 ^ j) (2 ^ i)) =
      true := by rfl

theorem rmul_pow_pow_comm : ∀ i, i < 8 → ∀ j, j < 8 →
    rijndael_multiply (2 ^ i) (2 ^ j) = rijndael_multiply (2 ^ j) (2 ^ i) := by
  intro i hi j hj
  have h1 := all_range_lt rmul_pow_pow_comm_all hi
  have h2 := all_range_lt h1 hj
  rw [rijndael_multiply_eq_arith, rijndael_multiply_eq_arith]
  simpa using h2

theorem pow_comm_byte : ∀ i, i < 8 → ∀ b, b < 256 →
    rijndael_multiply (2 ^ i) b = rijndael_multiply b (2 ^ i) := by
  intro i hi b hb
  rw [mul_expand_right (2 ^ i) b hb, mul_expand_left b (2 ^ i) hb]
  refine xor8_congr ?_ ?_ ?_ ?_ ?_ ?_ ?_ ?_
  · rcases mask_cases b 0 with h | h <;> rw [h]
    · rw [rijndael_multiply_zero_right, rijndael_multiply_zero_left]
    · exact rmul_pow_pow_comm i hi 0 (by omega)
  · rcases mask_cases b 1 with h | h <;> rw [h]
    · rw [rijndael_multiply_zero_right, rijndael_multiply_zero_left]
    · exact rmul_pow_pow_comm i hi 1 (by omega)
  · rcases mask_cases b 2 with h | h <;> rw [h]
    · rw [rijndael_multiply_zero_right, rijndael_multiply_zero_left]
    · exact rmul_pow_pow_comm i hi 2 (by omega)
  · rcases mask_cases b 3 with h | h <;> rw [h]
    · rw [rijndael_multiply_zero_right, rijndael_multiply_zero_left]
    · exact rmul_pow_pow_comm i hi 3 (by omega)
  · rcases mask_cases b 4 with h | h <;> rw [h]
    · rw [rijndael_multiply_zero_right, rijndael_multiply_zero_left]
    · exact rmul_pow_pow_comm i hi 4 (by omega)
  · rcases mask_cases b 5 with h | h <;> rw [h]
    · rw [rijndael_multiply_zero_right, rijndael_multiply_zero_left]
    · exact rmul_pow_pow_comm i hi 5 (by omega)
  · rcases mask_cases b 6 with h | h <;> rw [h]
    · rw [rijndael_multiply_zero_right, rijndael_multiply_zero_left]
    · exact rmul_pow_pow_comm i hi 6 (by omega)
  · rcases mask_cases b 7 with h | h <;> rw [h]
    · rw [rijndael_multiply_zero_right, rijndael_multiply_zero_left]
    · exact rmul_pow_pow_comm i hi 7 (by omega)

theorem rijndael_multiply_comm_bytes (a b : Nat) (ha : a < 256) (hb : b < 256) :
    rijndael_multiply a b = rijndael_multiply b a := by
  rw [mul_expand_left a b ha, mul_expand_right b a ha]
  refine xor8_congr ?_ ?_ ?_ ?_ ?_ ?_ ?_ ?_
  · rcases mask_cases a 0 with h | h <;> rw [h]
    · rw [rijndael_multiply_zero_left, rijndael_multiply_zero_right]
    · exact pow_comm_byte 0 (by omega) b hb
  · rcases mask_cases a 1 with h | h <;> rw [h]
    · rw [rijndael_multiply_zero_left, rijndael_multiply_zero_right]
    · exact pow_comm_byte 1 (by omega) b hb
  · rcases mask_cases a 2 with h | h <;> rw [h]
    · rw [rijndael_multiply_zero_left, rijndael_multiply_zero_right]
    · exact pow_comm_byte 2 (by omega) b hb
  · rcases mask_cases a 3 with h | h <;> rw [h]
    · rw [rijndael_multiply_zero_left, rijndael_multiply_zero_right]
    · exact pow_comm_byte 3 (by omega) b hb
  · rcases mask_cases a 4 with h | h <;> rw [h]
    · rw [rijndael_multiply_zero_left, rijndael_multiply_zero_right]
    · exact pow_comm_byte 4 (by omega) b hb
  · rcases mask_cases a 5 with h | h <;> rw [h]
    · rw [rijndael_multiply_zero_left, rijndael_multiply_zero_right]
    · exact pow_comm_byte 5 (by omega) b hb
  · rcases mask_cases a 6 with h | h <;> rw [h]
    · rw [rijndael_multiply_zero_left, rijndael_multiply_zero_right]
    · exact pow_comm_byte 6 (by omega) b hb
  · rcases mask_cases a 7 with h | h <;> rw [h]
    · rw [rijndael_multiply_zero_left, rijndael_multiply_zero_right]
    · exact pow_comm_byte 7 (by omega) b hb

theorem rmul_pow_assoc_all : ((List.range 8).all fun i => (List.range 8).all fun j =>
    (List.range 8).all fun k =>
      rijndael_multiply_arith (2 ^ i) (rijndael_multiply_arith (2 ^ j) (2 ^ k)) ==
        rijndael_multiply_arith (rijndael_multiply_arith (2 ^ i) (2 ^ j)) (2 ^ k)) = true := by
  rfl

theorem rmul_pow_assoc : ∀ i, i < 8 → ∀ j, j < 8 → ∀ k, k < 8 →
    rijndael_multiply (2 ^ i) (rijndael_multiply (2 ^ j) (2 ^ k)) =
      rijndael_multiply (rijndael_multiply (2 ^ i) (2 ^ j)) (2 ^ k) := by
  intro i hi j hj k hk
  have h1 := all_range_lt rmul_pow_assoc_all hi
  have h2 := all_range_lt h1 hj
  have h3 := all_range_lt h2 hk
  simp only [rijndael_multiply_eq_arith]
  simpa using h3

theorem assoc_pp : ∀ i j, i < 8 → j < 8 → ∀ c, c < 256 →
    rijndael_multiply (2 ^ i) (rijndael_multiply (2 ^ j) c) =
      rijndael_multiply (rijndael_multiply (2 ^ i) (2 ^ j)) c := by
  intro i j hi hj c hc
  rw [mul_expand_right (2 ^ j) c hc]
  rw [rijndael_multiply_xor_right, rijndael_multiply_xor_right, rijndael_multiply_xor_right,
    rijndael_multiply_xor_right, rijndael_multiply_xor_right, rijndael_multiply_xor_right,
    rijndael_multiply_xor_right]
  rw [mul_expand_right (rijndael_multiply (2 ^ i) (2 ^ j)) c hc]
  refine xor8_congr ?_ ?_ ?_ ?_ ?_ ?_ ?_ ?_
  · rcases mask_cases c 0 with h | h <;> rw [h]
    · simp only [rijndael_multiply_zero_right]
    · exact rmul_pow_assoc i hi j hj 0 (by omega)
  · rcases mask_cases c 1 with h | h <;> rw [h]
    · simp only [rijndael_multiply_zero_right]
    · exact rmul_pow_assoc i hi j hj 1 (by omega)
  · rcases mask_cases c 2 with h | h <;> rw [h]
    · simp only [rijndael_multiply_zero_right]
    · exact rmul_pow_assoc i hi j hj 2 (by omega)
  · rcases mask_cases c 3 with h | h <;> rw [h]
    · simp only [rijndael_multiply_zero_right]
    · exact rmul_pow_assoc i hi j hj 3 (by omega)
  · rcases mask_cases c 4 with h | h <;> rw [h]
    · simp only [rijndael_multiply_zero_right]
    · exact rmul_pow_assoc i hi j hj 4 (by omega)
  · rcases mask_cases c 5 with h | h <;> rw [h]
    · simp only [rijndael_multiply_zero_right]
    · exact rmul_pow_assoc i hi j hj 5 (by omega)
  · rcases mask_cases c 6 with h | h <;> rw [h]
    · simp only [rijndael_multiply_zero_right]
    · exact rmul_pow_assoc i hi j hj 6 (by omega)
  · rcases mask_cases c 7 with h | h <;> rw [h]
    · simp only [rijndael_multiply_zero_right]
    · exact rmul_pow_assoc i hi j hj 7 (by omega)

theorem assoc_pb : ∀ i, i < 8 → ∀ b c, b < 256 → c < 256 →
    rijndael_multiply (2 ^ i) (rijndael_multiply b c) =
      rijndael_multiply (rijndael_multiply (2 ^ i) b) c := by
  intro i hi b c hb hc
  rw [mul_expand_left b c hb]
  rw [rijndael_multiply_xor_right, rijndael_multiply_xor_right, rijndael_multiply_xor_right,
    rijndael_multiply_xor_right, rijndael_multiply_xor_right, rijndael_multiply_xor_right,
    rijndael_multiply_xor_right]
  rw [mul_expand_right (2 ^ i) b hb]
  rw [rijndael_multiply_xor_left, rijndael_multiply_xor_left, rijndael_multiply_xor_left,
    rijndael_multiply_xor_left, rijndael_multiply_xor_left, rijndael_multiply_xor_left,
    rijndael_multiply_xor_left]
  refine xor8_congr ?_ ?_ ?_ ?_ ?_ ?_ ?_ ?_
  · rcases mask_cases b 0 with h | h <;> rw [h]
    · simp only [rijndael_multiply_zero_left, rijndael_multiply_zero_right]
    · exact assoc_pp i 0 hi (by omega) c hc
  · rcases mask_cases b 1 with h | h <;> rw [h]
    · simp only [rijndael_multiply_zero_left, rijndael_multiply_zero_right]
    · exact assoc_pp i 1 hi (by omega) c hc
  · rcases mask_cases b 2 with h | h <;> rw [h]
    · simp only [rijndael_multiply_zero_left, rijndael_multiply_zero_right]
    · exact assoc_pp i 2 hi (by omega) c hc
  · rcases mask_cases b 3 with h | h <;> rw [h]
    · simp only [rijndael_multiply_zero_left, rijndael_multiply_zero_right]
    · exact assoc_pp i 3 hi (by omega) c hc
  · rcases mask_cases b 4 with h | h <;> rw [h]
    · simp only [rijndael_multiply_zero_left, rijndael_multiply_zero_right]
    · exact assoc_pp i 4 hi (by omega) c hc
  · rcases mask_cases b 5 with h | h <;> rw [h]
    · simp only [rijndael_multiply_zero_left, rijndael_multiply_zero_right]
    · exact assoc_pp i 5 hi (by omega) c hc
  · rcases mask_cases b 6 with h | h <;> rw [h]
    · simp only [rijndael_multiply_zero_left, rijndael_multiply_zero_right]
    · exact assoc_pp i 6 hi (by omega) c hc
  · rcases mask_cases b 7 with h | h <;> rw [h]
    · simp only [rijndael_multiply_zero_left, rijndael_multiply_zero_right]
    · exact assoc_pp i 7 hi (by omega) c hc

theorem rijndael_multiply_assoc_bytes (a b c : Nat) (ha : a < 256) (hb : b < 256)
    (hc : c < 256) :
    rijndael_multiply a (rijndael_multiply b c) =
      rijndael_multiply (rijndael_multiply a b) c := by
  rw [mul_expand_left a (rijndael_multiply b c) ha]
  rw [mul_expand_left a b ha]
  rw [rijndael_multiply_xor_left, rijndael_multiply_xor_left, rijndael_multiply_xor_left,
    rijndael_multiply_xor_left, rijndael_multiply_xor_left, rijndael_multiply_xor_left,
    rijndael_multiply_xor_left]
  refine xor8_congr ?_ ?_ ?_ ?_ ?_ ?_ ?_ ?_
  · rcases mask_cases a 0 with h | h <;> rw [h]
    · simp only [rijndael_multiply_zero_left]
    · exact assoc_pb 0 (by omega) b c hb hc
  · rcases mask_cases a 1 with h | h <;> rw [h]
    · simp only [rijndael_multiply_zero_left]
    · exact assoc_pb 1 (by omega) b c hb hc
  · rcases mask_cases a 2 with h | h <;> rw [h]
    · simp only [rijndael_multiply_zero_left]
    · exact assoc_pb 2 (by omega) b c hb hc
  · rcases mask_cases a 3 with h | h <;> rw [h]
    · simp only [rijndael_multiply_zero_left]
    · exact assoc_pb 3 (by omega) b c hb hc
  · rcases mask_cases a 4 with h | h <;> rw [h]
    · simp only [rijndael_multiply_zero_left]
    · exact assoc_pb 4 (by omega) b c hb hc
  · rcases mask_cases a 5 with h | h <;> rw [h]
    · simp only [rijndael_multiply_zero_left]
    · exact assoc_pb 5 (by omega) b c hb hc
  · rcases mask_cases a 6 with h | h <;> rw [h]
    · simp only [rijndael_multiply_zero_left]
    · exact assoc_pb 6 (by omega) b c hb hc
  · rcases mask_cases a 7 with h | h <;> rw [h]
    · simp only [rijndael_multiply_zero_left]
    · exact assoc_pb 7 (by omega) b c hb hc

theorem rmul_pow_one_all : ((List.range 8).all fun j =>
    (rijndael_multiply_arith 1 (2 ^ j) == 2 ^ j) &&
      (rijndael_multiply_arith (2 ^ j) 1 == 2 ^ j)) = true := by rfl

theorem rmul_one_pow : ∀ j, j < 8 → rijndael_multiply 1 (2 ^ j) = 2 ^ j := by
  intro j hj
  have h := all_range_lt rmul_pow_one_all hj
  rw [rijndael_multiply_eq_arith]
  simp only [Bool.and_eq_true, beq_iff_eq] at h
  simpa using h.1

theorem rmul_pow_one : ∀ j, j < 8 → rijndael_multiply (2 ^ j) 1 = 2 ^ j := by
  intro j hj
  have h := all_range_lt rmul_pow_one_all hj
  rw [rijndael_multiply_eq_arith]
  simp only [Bool.and_eq_true, beq_iff_eq] at h
  simpa using h.2

theorem rijndael_multiply_one_left (b : Nat) (hb : b < 256) : rijndael_multiply 1 b = b := by
  rw [mul_expand_right 1 b hb]
  conv_rhs => rw [byte_decomp b hb]
  refine xor8_congr ?_ ?_ ?_ ?_ ?_ ?_ ?_ ?_
  · rcases mask_cases b 0 with h | h <;> rw [h]
    · simp only [rijndael_multiply_zero_right]
    · exact rmul_one_pow 0 (by omega)
  · rcases mask_cases b 1 with h | h <;> rw [h]
    · simp only [rijndael_multiply_zero_right]
    · exact rmul_one_pow 1 (by omega)
  · rcases mask_cases b 2 with h | h <;> rw [h]
    · simp only [rijndael_multiply_zero_right]
    · exact rmul_one_pow 2 (by omega)
  · rcases mask_cases b 3 with h | h <;> rw [h]
    · simp only [rijndael_multiply_zero_right]
    · exact rmul_one_pow 3 (by omega)
  · rcases mask_cases b 4 with h | h <;> rw [h]
    · simp only [rijndael_multiply_zero_right]
    · exact rmul_one_pow 4 (by omega)
  · rcases mask_cases b 5 with h | h <;> rw [h]
    · simp only [rijndael_multiply_zero_right]
    · exact rmul_one_pow 5 (by omega)
  · rcases mask_cases b 6 with h | h <;> rw [h]
    · simp only [rijndael_multiply_zero_right]
    · exact rmul_one_pow 6 (by omega)
  · rcases mask_cases b 7 with h | h <;> rw [h]
    · simp only [rijndael_multiply_zero_right]
    · exact rmul_one_pow 7 (by omega)

theorem rijndael_multiply_one_right (b : Nat) (hb : b < 256) : rijndael_multiply b 1 = b := by
  rw [mul_expand_left b 1 hb]
  conv_rhs => rw [byte_decomp b hb]
  refine xor8_congr ?_ ?_ ?_ ?_ ?_ ?_ ?_ ?_
  · rcases mask_cases b 0 with h | h <;> rw [h]
    · simp only [rijndael_multiply_zero_left]
    · exact rmul_pow_one 0 (by omega)
  · rcases mask_cases b 1 with h | h <;> rw [h]
    · simp only [rijndael_multiply_zero_left]
    · exact rmul_pow_one 1 (by omega)
  · rcases mask_cases b 2 with h | h <;> rw [h]
    · simp only [rijndael_multiply_zero_left]
    · exact rmul_pow_one 2 (by omega)
  · rcases mask_cases b 3 with h | h <;> rw [h]
    · simp only [rijndael_multiply_zero_left]
    · exact rmul_pow_one 3 (by omega)
  · rcases mask_cases b 4 with h | h <;> rw [h]
    · simp only [rijndael_multiply_zero_left]
    · exact rmul_pow_one 4 (by omega)
  · rcases mask_cases b 5 with h | h <;> rw [h]
    · simp only [rijndael_multiply_zero_left]
    · exact rmul_pow_one 5 (by omega)
  · rcases mask_cases b 6 with h | h <;> rw [h]
    · simp only [rijndael_multiply_zero_left]
    · exact rmul_pow_one 6 (by omega)
  · rcases mask_cases b 7 with h | h <;> rw [h]
    · simp only [rijndael_multiply_zero_left]
    · exact rmul_pow_one 7 (by omega)

/-! ## The inverse as a power, via square-and-multiply

`rijndael_inverse x` is the 254-fold product `x^254`; with
associativity on bytes it factors through the packed tables of
`x^2, x^4, .., x^128`, each checked by a cheap evaluation. -/

theorem rijndael_multiply_lt (a b : Nat) : rijndael_multiply a b < 256 :=
  Nat.mod_lt _ (by omega)

theorem inv_iter_lt (x : Nat) : ∀ n acc, acc < 256 → inv_iter x acc n < 256 := by
  intro n
  induction n with
  | zero => intro acc h; exact h
  | succ n ih =>
    intro acc h
    exact ih (rijndael_multiply acc x) (rijndael_multiply_lt acc x)

theorem inv_iter_one (x : Nat) (hx : x < 256) : inv_iter x 1 1 = x := by
  show rijndael_multiply 1 x = x
  exact rijndael_multiply_one_left x hx

theorem inv_iter_pow_add (x : Nat) (hx : x < 256) : ∀ m n,
    inv_iter x 1 (m + n) = rijndael_multiply (inv_iter x 1 m) (inv_iter x 1 n) := by
  intro m n
  induction n with
  | zero =>
    show inv_iter x 1 m = rijndael_multiply (inv_iter x 1 m) 1
    exact (rijndael_multiply_one_right _ (inv_iter_lt x m 1 (by omega))).symm
  | succ n ih =>
    rw [Nat.add_succ, inv_iter_succ_out, ih,
      ← rijndael_multiply_assoc_bytes _ _ _ (inv_iter_lt x m 1 (by omega))
        (inv_iter_lt x n 1 (by omega)) hx,
      ← inv_iter_succ_out]

theorem pw2_all : ((List.range 256).all fun x =>
    rijndael_multiply_arith x x == tbl pw2N x) = true := by rfl

theorem pw4_all : ((List.range 256).all fun x =>
    rijndael_multiply_arith (tbl pw2N x) (tbl pw2N x) == tbl pw4N x) = true := by rfl

theorem pw8_all : ((List.range 256).all fun x =>
    rijndael_multiply_arith (tbl pw4N x) (tbl pw4N x) == tbl pw8N x) = true := by rfl

theorem pw16_all : ((List.range 256).all fun x =>
    rijndael_multiply_arith (tbl pw8N x) (tbl pw8N x) == tbl pw16N x) = true := by rfl

theorem pw32_all : ((List.range 256).all fun x =>
    rijndael_multiply_arith (tbl pw16N x) (tbl pw16N x) == tbl pw32N x) = true := by rfl

theorem pw64_all : ((List.range 256).all fun x =>
    rijndael_multiply_arith (tbl pw32N x) (tbl pw32N x) == tbl pw64N x) = true := by rfl

theorem pw128_all : ((List.range 256).all fun x =>
    rijndael_multiply_arith (tbl pw64N x) (tbl pw64N x) == tbl pw128N x) = true := by rfl

theorem inv254_all : ((List.range 256).all fun x =>
    rijndael_multiply_arith (tbl pw2N x) (rijndael_multiply_arith (tbl pw4N x)
      (rijndael_multiply_arith (tbl pw8N x) (rijndael_multiply_arith (tbl pw16N x)
        (rijndael_multiply_arith (tbl pw32N x) (rijndael_multiply_arith (tbl pw64N x)
          (tbl pw128N x)))))) == tbl inv254N x) = true := by rfl

theorem pow_tbl_2 (x : Nat) (hx : x < 256) : inv_iter x 1 2 = tbl pw2N x := by
  rw [show (2 : Nat) = 1 + 1 from rfl, inv_iter_pow_add x hx, inv_iter_one x hx,
    rijndael_multiply_eq_arith]
  have h := all_range_lt pw2_all hx
  simpa using h

theorem pow_tbl_4 (x : Nat) (hx : x < 256) : inv_iter x 1 4 = tbl pw4N x := by
  rw [show (4 : Nat) = 2 + 2 from rfl, inv_iter_pow_add x hx, pow_tbl_2 x hx,
    rijndael_multiply_eq_arith]
  have h := all_range_lt pw4_all hx
  simpa using h

theorem pow_tbl_8 (x : Nat) (hx : x < 256) : inv_iter x 1 8 = tbl pw8N x := by
  rw [show (8 : Nat) = 4 + 4 from rfl, inv_iter_pow_add x hx, pow_tbl_4 x hx,
    rijndael_multiply_eq_arith]
  have h := all_range_lt pw8_all hx
  simpa using h

theorem pow_tbl_16 (x : Nat) (hx : x < 256) : inv_iter x 1 16 = tbl pw16N x := by
  rw [show (16 : Nat) = 8 + 8 from rfl, inv_iter_pow_add x hx, pow_tbl_8 x hx,
    rijndael_multiply_eq_arith]
  have h := all_range_lt pw16_all hx
  simpa using h

theorem pow_tbl_32 (x : Nat) (hx : x < 256) : inv_iter x 1 32 = tbl pw32N x := by
  rw [show (32 : Nat) = 16 + 16 from rfl, inv_iter_pow_add x hx, pow_tbl_16 x hx,
    rijndael_multiply_eq_arith]
  have h := all_range_lt pw32_all hx
  simpa using h

theorem pow_tbl_64 (x : Nat) (hx : x < 256) : inv_iter x 1 64 = tbl pw64N x := by
  rw [show (64 : Nat) = 32 + 32 from rfl, inv_iter_pow_add x hx, pow_tbl_32 x hx,
    rijndael_multiply_eq_arith]
  have h := all_range_lt pw64_all hx
  simpa using h

theorem pow_tbl_128 (x : Nat) (hx : x < 256) : inv_iter x 1 128 = tbl pw128N x := by
  rw [show (128 : Nat) = 64 + 64 from rfl, inv_iter_pow_add x hx, pow_tbl_64 x hx,
    rijndael_multiply_eq_arith]
  have h := all_range_lt pw128_all hx
  simpa using h

/-- Each byte's `rijndael_inverse` is read off the packed `x^254`
table. -/
theorem rijndael_inverse_table : ∀ x < 256, rijndael_inverse x = tbl inv254N x := by
  intro x hx
  rw [rijndael_inverse_eq_iter]
  rw [show (254 : Nat) = 2 + 252 from rfl, inv_iter_pow_add x hx, pow_tbl_2 x hx]
  rw [show (252 : Nat) = 4 + 248 from rfl, inv_iter_pow_add x hx, pow_tbl_4 x hx]
  rw [show (248 : Nat) = 8 + 240 from rfl, inv_iter_pow_add x hx, pow_tbl_8 x hx]
  rw [show (240 : Nat) = 16 + 224 from rfl, inv_iter_pow_add x hx, pow_tbl_16 x hx]
  rw [show (224 : Nat) = 32 + 192 from rfl, inv_iter_pow_add x hx, pow_tbl_32 x hx]
  rw [show (192 : Nat) = 64 + 128 from rfl, inv_iter_pow_add x hx, pow_tbl_64 x hx,
    pow_tbl_128 x hx]
  simp only [rijndael_multiply_eq_arith]
  have h := all_range_lt inv254_all hx
  simpa using h

/-! ## The S-box tables -/

theorem sbox_shallow_all : ((List.range 256).all fun x =>
    (tbl inv254N x ^^^ lcs_8bit (tbl inv254N x) 1 ^^^ lcs_8bit (tbl inv254N x) 2 ^^^
      lcs_8bit (tbl inv254N x) 3 ^^^ lcs_8bit (tbl inv254N x) 4 ^^^ 0x63) == nth sbox_list x) =
      true := by rfl

theorem sbox_value_eq : ∀ x < 256, sbox_value x = nth sbox_list x := by
  intro x hx
  rw [show sbox_value x = rijndael_inverse x ^^^ lcs_8bit (rijndael_inverse x) 1 ^^^
      lcs_8bit (rijndael_inverse x) 2 ^^^ lcs_8bit (rijndael_inverse x) 3 ^^^
      lcs_8bit (rijndael_inverse x) 4 ^^^ 0x63 from rfl]
  rw [rijndael_inverse_table x hx]
  have h := all_range_lt sbox_shallow_all hx
  simpa using h

theorem foldl_congr_on {α β : Type} (f g : β → α → β) :
    ∀ (l : List α), (∀ acc, ∀ i ∈ l, f acc i = g acc i) → ∀ acc, l.foldl f acc = l.foldl g acc := by
  intro l
  induction l with
  | nil => intro _ acc; rfl
  | cons i l ih =>
    intro h acc
    simp only [List.foldl_cons]
    rw [h acc i (by simp)]
    exact ih (fun acc j hj => h acc j (by simp [hj])) _

theorem make_sbox_array_eq_lookup :
    make_sbox_array =
      (List.range 256).foldl sbox_stepL (List.replicate 256 0, List.replicate 256 0) := by
  unfold make_sbox_array
  refine foldl_congr_on _ _ _ ?_ _
  intro acc i hi
  have hi' : i < 256 := List.mem_range.mp hi
  show (acc.1.set i (sbox_value i), acc.2.set (sbox_value i) i) = sbox_stepL acc i
  rw [sbox_value_eq i hi']
  rfl

theorem sbox_fold_32 :
    (List.range' 0 32).foldl sbox_stepL (List.replicate 256 0, List.replicate 256 0) =
      sbox_build_32 := by rfl

theorem sbox_fold_64 :
    (List.range' 0 64).foldl sbox_stepL (List.replicate 256 0, List.replicate 256 0) =
      sbox_build_64 := by
  rw [show List.range' 0 64 = List.range' 0 32 ++ List.range' 32 32 from rfl,
    List.foldl_append, sbox_fold_32]
  rfl

theorem sbox_fold_96 :
    (List.range' 0 96).foldl sbox_stepL (List.replicate 256 0, List.replicate 256 0) =
      sbox_build_96 := by
  rw [show List.range' 0 96 = List.range' 0 64 ++ List.range' 64 32 from rfl,
    List.foldl_append, sbox_fold_64]
  rfl

theorem sbox_fold_128 :
    (List.range' 0 128).foldl sbox_stepL (List.replicate 256 0, List.replicate 256 0) =
      sbox_build_128 := by
  rw [show List.range' 0 128 = List.range' 0 96 ++ List.range' 96 32 from rfl,
    List.foldl_append, sbox_fold_96]
  rfl

theorem sbox_fold_160 :
    (List.range' 0 160).foldl sbox_stepL (List.replicate 256 0, List.replicate 256 0) =
      sbox_build_160 := by
  rw [show List.range' 0 160 = List.range' 0 128 ++ List.range' 128 32 from rfl,
    List.foldl_append, sbox_fold_128]
  rfl

theorem sbox_fold_192 :
    (List.range' 0 192).foldl sbox_stepL (List.replicate 256 0, List.replicate 256 0) =
      sbox_build_192 := by
  rw [show List.range' 0 192 = List.range' 0 160 ++ List.range' 160 32 from rfl,
    List.foldl_append, sbox_fold_160]
  rfl

theorem sbox_fold_224 :
    (List.range' 0 224).foldl sbox_stepL (List.replicate 256 0, List.replicate 256 0) =
      sbox_build_224 := by
  rw [show List.range' 0 224 = List.range' 0 192 ++ List.range' 192 32 from rfl,
    List.foldl_append, sbox_fold_192]
  rfl

/-- `make_sbox_array` produces exactly the literal S-box tables. -/
theorem make_sbox_array_eq : make_sbox_array = (sbox_list, inverse_sbox_list) := by
  rw [make_sbox_array_eq_lookup, List.range_eq_range']
  rw [show List.range' 0 256 = List.range' 0 224 ++ List.range' 224 32 from rfl,
    List.foldl_append, sbox_fold_224]
  rfl

/-! ## Concrete evaluations: key schedules and block transforms -/

theorem fips_ks_eq : make_key_schedule sbox_list fipsKey = fips_ks := by rfl

theorem zero_ks_eq : make_key_schedule sbox_list zeroKey = zero_ks := by rfl

theorem range_ten : List.range 10 = [0, 1, 2, 3, 4, 5, 6, 7, 8, 9] := by rfl

theorem fips_enc_eval :
    encrypt_block sbox_list fips_ks fipsPlain = fipsCipher := by
  unfold encrypt_block
  rw [range_ten]
  simp only [List.foldl_cons, List.foldl_nil]
  rw [show add_round_key fips_ks 0 fipsPlain = fips_enc_s0 from by rfl]
  rw [show enc_round sbox_list fips_ks fips_enc_s0 0 = fips_enc_s1 from by rfl]
  rw [show enc_round sbox_list fips_ks fips_enc_s1 1 = fips_enc_s2 from by rfl]
  rw [show enc_round sbox_list fips_ks fips_enc_s2 2 = fips_enc_s3 from by rfl]
  rw [show enc_round sbox_list fips_ks fips_enc_s3 3 = fips_enc_s4 from by rfl]
  rw [show enc_round sbox_list fips_ks fips_enc_s4 4 = fips_enc_s5 from by rfl]
  rw [show enc_round sbox_list fips_ks fips_enc_s5 5 = fips_enc_s6 from by rfl]
  rw [show enc_round sbox_list fips_ks fips_enc_s6 6 = fips_enc_s7 from by rfl]
  rw [show enc_round sbox_list fips_ks fips_enc_s7 7 = fips_enc_s8 from by rfl]
  rw [show enc_round sbox_list fips_ks fips_enc_s8 8 = fips_enc_s9 from by rfl]
  rw [show enc_round sbox_list fips_ks fips_enc_s9 9 = fipsCipher from by rfl]

theorem fips_dec_eval :
    decrypt_block inverse_sbox_list fips_ks fipsCipher = fipsPlain := by
  unfold decrypt_block
  rw [range_ten]
  simp only [List.foldl_cons, List.foldl_nil]
  rw [show dec_round inverse_sbox_list fips_ks fipsCipher 0 = fips_dec_s1 from by rfl]
  rw [show dec_round inverse_sbox_list fips_ks fips_dec_s1 1 = fips_dec_s2 from by rfl]
  rw [show dec_round inverse_sbox_list fips_ks fips_dec_s2 2 = fips_dec_s3 from by rfl]
  rw [show dec_round inverse_sbox_list fips_ks fips_dec_s3 3 = fips_dec_s4 from by rfl]
  rw [show dec_round inverse_sbox_list fips_ks fips_dec_s4 4 = fips_dec_s5 from by rfl]
  rw [show dec_round inverse_sbox_list fips_ks fips_dec_s5 5 = fips_dec_s6 from by rfl]
  rw [show dec_round inverse_sbox_list fips_ks fips_dec_s6 6 = fips_dec_s7 from by rfl]
  rw [show dec_round inverse_sbox_list fips_ks fips_dec_s7 7 = fips_dec_s8 from by rfl]
  rw [show dec_round inverse_sbox_list fips_ks fips_dec_s8 8 = fips_dec_s9 from by rfl]
  rw [show dec_round inverse_sbox_list fips_ks fips_dec_s9 9 = fips_dec_s10 from by rfl]
  rw [show add_round_key fips_ks 0 fips_dec_s10 = fipsPlain from by rfl]

theorem zero_dec_eval :
    decrypt_block inverse_sbox_list zero_ks zeroBlock = zero_dec_res := by
  unfold decrypt_block
  rw [range_ten]
  simp only [List.foldl_cons, List.foldl_nil]
  rw [show dec_round inverse_sbox_list zero_ks zeroBlock 0 = zero_dec_s1 from by rfl]
  rw [show dec_round inverse_sbox_list zero_ks zero_dec_s1 1 = zero_dec_s2 from by rfl]
  rw [show dec_round inverse_sbox_list zero_ks zero_dec_s2 2 = zero_dec_s3 from by rfl]
  rw [show dec_round inverse_sbox_list zero_ks zero_dec_s3 3 = zero_dec_s4 from by rfl]
  rw [show dec_round inverse_sbox_list zero_ks zero_dec_s4 4 = zero_dec_s5 from by rfl]
  rw [show dec_round inverse_sbox_list zero_ks zero_dec_s5 5 = zero_dec_s6 from by rfl]
  rw [show dec_round inverse_sbox_list zero_ks zero_dec_s6 6 = zero_dec_s7 from by rfl]
  rw [show dec_round inverse_sbox_list zero_ks zero_dec_s7 7 = zero_dec_s8 from by rfl]
  rw [show dec_round inverse_sbox_list zero_ks zero_dec_s8 8 = zero_dec_s9 from by rfl]
  rw [show dec_round inverse_sbox_list zero_ks zero_dec_s9 9 = zero_dec_s10 from by rfl]
  rw [show add_round_key zero_ks 0 zero_dec_s10 = zero_dec_res from by rfl]

theorem zero_clm_eval :
    decrypt_block_claimed inverse_sbox_list zero_ks zeroBlock = zero_clm_res := by
  unfold decrypt_block_claimed
  rw [range_ten]
  simp only [List.foldl_cons, List.foldl_nil]
  rw [show add_round_key zero_ks (10 * 16) zeroBlock = zero_clm_s0 from by rfl]
  rw [show dec_round_claimed inverse_sbox_list zero_ks zero_clm_s0 0 = zero_clm_s1 from by rfl]
  rw [show dec_round_claimed inverse_sbox_list zero_ks zero_clm_s1 1 = zero_clm_s2 from by rfl]
  rw [show dec_round_claimed inverse_sbox_list zero_ks zero_clm_s2 2 = zero_clm_s3 from by rfl]
  rw [show dec_round_claimed inverse_sbox_list zero_ks zero_clm_s3 3 = zero_clm_s4 from by rfl]
  rw [show dec_round_claimed inverse_sbox_list zero_ks zero_clm_s4 4 = zero_clm_s5 from by rfl]
  rw [show dec_round_claimed inverse_sbox_list zero_ks zero_clm_s5 5 = zero_clm_s6 from by rfl]
  rw [show dec_round_claimed inverse_sbox_list zero_ks zero_clm_s6 6 = zero_clm_s7 from by rfl]
  rw [show dec_round_claimed inverse_sbox_list zero_ks zero_clm_s7 7 = zero_clm_s8 from by rfl]
  rw [show dec_round_claimed inverse_sbox_list zero_ks zero_clm_s8 8 = zero_clm_s9 from by rfl]
  rw [show dec_round_claimed inverse_sbox_list zero_ks zero_clm_s9 9 = zero_clm_s10 from by rfl]
  rw [show add_round_key zero_ks 0 zero_clm_s10 = zero_clm_res from by rfl]

/-! ## Round-operation evaluation and inversion

Evaluated forms of each round operation on an explicit 16-entry list,
and the inversion lemmas that give the decrypt-of-encrypt round trip. -/

theorem list_eq_16 (b : List Nat) (h : b.length = 16) :
    b = [nth b 0, nth b 1, nth b 2, nth b 3, nth b 4, nth b 5, nth b 6, nth b 7, nth b 8,
      nth b 9, nth b 10, nth b 11, nth b 12, nth b 13, nth b 14, nth b 15] := by
  match b, h with
  | [a0, a1, a2, a3, a4, a5, a6, a7, a8, a9, a10, a11, a12, a13, a14, a15], _ => rfl

theorem xor_lt_256 (x y : Nat) (hx : x < 256) (hy : y < 256) : x ^^^ y < 256 := by
  have h : x ^^^ y < 2 ^ 8 := Nat.xor_lt_two_pow (by omega) (by omega)
  omega

theorem nth_lt (b : List Nat) (hb : AllBytes b) (i : Nat) : nth b i < 256 := by
  unfold nth
  rcases Nat.lt_or_ge i b.length with h | h
  · rw [List.getD_eq_getElem b 0 h]
    exact hb _ (List.getElem_mem h)
  · rw [List.getD_eq_default b 0 h]
    omega


theorem shift_rows_eval (v0 v1 v2 v3 v4 v5 v6 v7 v8 v9 v10 v11 v12 v13 v14 v15 : Nat) :
    shift_rows [v0, v1, v2, v3, v4, v5, v6, v7, v8, v9, v10, v11, v12, v13, v14, v15] =
      [v0, v5, v10, v15, v4, v9, v14, v3, v8, v13, v2, v7, v12, v1, v6, v11] := by rfl

theorem inv_shift_rows_eval (v0 v1 v2 v3 v4 v5 v6 v7 v8 v9 v10 v11 v12 v13 v14 v15 : Nat) :
    inv_shift_rows [v0, v1, v2, v3, v4, v5, v6, v7, v8, v9, v10, v11, v12, v13, v14, v15] =
      [v0, v13, v10, v7, v4, v1, v14, v11, v8, v5, v2, v15, v12, v9, v6, v3] := by rfl

theorem add_round_key_eval (ks : List Nat) (off : Nat) (v0 v1 v2 v3 v4 v5 v6 v7 v8 v9 v10 v11 v12 v13 v14 v15 : Nat) :
    add_round_key ks off [v0, v1, v2, v3, v4, v5, v6, v7, v8, v9, v10, v11, v12, v13, v14, v15] =
      [v0 ^^^ nth ks (off + 0), v1 ^^^ nth ks (off + 1), v2 ^^^ nth ks (off + 2), v3 ^^^ nth ks (off + 3), v4 ^^^ nth ks (off + 4), v5 ^^^ nth ks (off + 5), v6 ^^^ nth ks (off + 6), v7 ^^^ nth ks (off + 7), v8 ^^^ nth ks (off + 8), v9 ^^^ nth ks (off + 9), v10 ^^^ nth ks (off + 10), v11 ^^^ nth ks (off + 11), v12 ^^^ nth ks (off + 12), v13 ^^^ nth ks (off + 13), v14 ^^^ nth ks (off + 14), v15 ^^^ nth ks (off + 15)] := by rfl

theorem sub_bytes_eval (sbt : List Nat) (v0 v1 v2 v3 v4 v5 v6 v7 v8 v9 v10 v11 v12 v13 v14 v15 : Nat) :
    sub_bytes sbt [v0, v1, v2, v3, v4, v5, v6, v7, v8, v9, v10, v11, v12, v13, v14, v15] =
      [nth sbt v0, nth sbt v1, nth sbt v2, nth sbt v3, nth sbt v4, nth sbt v5, nth sbt v6, nth sbt v7, nth sbt v8, nth sbt v9, nth sbt v10, nth sbt v11, nth sbt v12, nth sbt v13, nth sbt v14, nth sbt v15] := by rfl

theorem inv_sub_bytes_eval (isbt : List Nat) (v0 v1 v2 v3 v4 v5 v6 v7 v8 v9 v10 v11 v12 v13 v14 v15 : Nat) :
    inv_sub_bytes isbt [v0, v1, v2, v3, v4, v5, v6, v7, v8, v9, v10, v11, v12, v13, v14, v15] =
      [nth isbt v0, nth isbt v1, nth isbt v2, nth isbt v3, nth isbt v4, nth isbt v5, nth isbt v6, nth isbt v7, nth isbt v8, nth isbt v9, nth isbt v10, nth isbt v11, nth isbt v12, nth isbt v13, nth isbt v14, nth isbt v15] := by rfl

theorem mix_columns_eval (v0 v1 v2 v3 v4 v5 v6 v7 v8 v9 v10 v11 v12 v13 v14 v15 : Nat) :
    mix_columns [v0, v1, v2, v3, v4, v5, v6, v7, v8, v9, v10, v11, v12, v13, v14, v15] =
      [rijndael_multiply 2 v0 ^^^ rijndael_multiply 3 v1 ^^^ v2 ^^^ v3, v0 ^^^ rijndael_multiply 2 v1 ^^^ rijndael_multiply 3 v2 ^^^ v3, v0 ^^^ v1 ^^^ rijndael_multiply 2 v2 ^^^ rijndael_multiply 3 v3, rijndael_multiply 3 v0 ^^^ v1 ^^^ v2 ^^^ rijndael_multiply 2 v3, rijndael_multiply 2 v4 ^^^ rijndael_multiply 3 v5 ^^^ v6 ^^^ v7, v4 ^^^ rijndael_multiply 2 v5 ^^^ rijndael_multiply 3 v6 ^^^ v7, v4 ^^^ v5 ^^^ rijndael_multiply 2 v6 ^^^ rijndael_multiply 3 v7, rijndael_multiply 3 v4 ^^^ v5 ^^^ v6 ^^^ rijndael_multiply 2 v7, rijndael_multiply 2 v8 ^^^ rijndael_multiply 3 v9 ^^^ v10 ^^^ v11, v8 ^^^ rijndael_multiply 2 v9 ^^^ rijndael_multiply 3 v10 ^^^ v11, v8 ^^^ v9 ^^^ rijndael_multiply 2 v10 ^^^ rijndael_multiply 3 v11, rijndael_multiply 3 v8 ^^^ v9 ^^^ v10 ^^^ rijndael_multiply 2 v11, rijndael_multiply 2 v12 ^^^ rijndael_multiply 3 v13 ^^^ v14 ^^^ v15, v12 ^^^ rijndael_multiply 2 v13 ^^^ rijndael_multiply 3 v14 ^^^ v15, v12 ^^^ v13 ^^^ rijndael_multiply 2 v14 ^^^ rijndael_multiply 3 v15, rijndael_multiply 3 v12 ^^^ v13 ^^^ v14 ^^^ rijndael_multiply 2 v15] := by rfl

theorem inv_mix_columns_eval (v0 v1 v2 v3 v4 v5 v6 v7 v8 v9 v10 v11 v12 v13 v14 v15 : Nat) :
    inv_mix_columns [v0, v1, v2, v3, v4, v5, v6, v7, v8, v9, v10, v11, v12, v13, v14, v15] =
      [rijndael_multiply 14 v0 ^^^ rijndael_multiply 11 v1 ^^^ rijndael_multiply 13 v2 ^^^ rijndael_multiply 9 v3, rijndael_multiply 9 v0 ^^^ rijndael_multiply 14 v1 ^^^ rijndael_multiply 11 v2 ^^^ rijndael_multiply 13 v3, rijndael_multiply 13 v0 ^^^ rijndael_multiply 9 v1 ^^^ rijndael_multiply 14 v2 ^^^ rijndael_multiply 11 v3, rijndael_multiply 11 v0 ^^^ rijndael_multiply 13 v1 ^^^ rijndael_multiply 9 v2 ^^^ rijndael_multiply 14 v3, rijndael_multiply 14 v4 ^^^ rijndael_multiply 11 v5 ^^^ rijndael_multiply 13 v6 ^^^ rijndael_multiply 9 v7, rijndael_multiply 9 v4 ^^^ rijndael_multiply 14 v5 ^^^ rijndael_multiply 11 v6 ^^^ rijndael_multiply 13 v7, rijndael_multiply 13 v4 ^^^ rijndael_multiply 9 v5 ^^^ rijndael_multiply 14 v6 ^^^ rijndael_multiply 11 v7, rijndael_multiply 11 v4 ^^^ rijndael_multiply 13 v5 ^^^ rijndael_multiply 9 v6 ^^^ rijndael_multiply 14 v7, rijndael_multiply 14 v8 ^^^ rijndael_multiply 11 v9 ^^^ rijndael_multiply 13 v10 ^^^ rijndael_multiply 9 v11, rijndael_multiply 9 v8 ^^^ rijndael_multiply 14 v9 ^^^ rijndael_multiply 11 v10 ^^^ rijndael_multiply 13 v11, rijndael_multiply 13 v8 ^^^ rijndael_multiply 9 v9 ^^^ rijndael_multiply 14 v10 ^^^ rijndael_multiply 11 v11, rijndael_multiply 11 v8 ^^^ rijndael_multiply 13 v9 ^^^ rijndael_multiply 9 v10 ^^^ rijndael_multiply 14 v11, rijndael_multiply 14 v12 ^^^ rijndael_multiply 11 v13 ^^^ rijndael_multiply 13 v14 ^^^ rijndael_multiply 9 v15, rijndael_multiply 9 v12 ^^^ rijndael_multiply 14 v13 ^^^ rijndael_multiply 11 v14 ^^^ rijndael_multiply 13 v15, rijndael_multiply 13 v12 ^^^ rijndael_multiply 9 v13 ^^^ rijndael_multiply 14 v14 ^^^ rijndael_multiply 11 v15, rijndael_multiply 11 v12 ^^^ rijndael_multiply 13 v13 ^^^ rijndael_multiply 9 v14 ^^^ rijndael_multiply 14 v15] := by rfl

theorem imc_row0 (c0 c1 c2 c3 : Nat) (h0 : c0 < 256) (h1 : c1 < 256) (h2 : c2 < 256)
    (h3 : c3 < 256) :
    rijndael_multiply 14 (rijndael_multiply 2 c0 ^^^ rijndael_multiply 3 c1 ^^^ c2 ^^^ c3) ^^^ rijndael_multiply 11 (c0 ^^^ rijndael_multiply 2 c1 ^^^ rijndael_multiply 3 c2 ^^^ c3) ^^^ rijndael_multiply 13 (c0 ^^^ c1 ^^^ rijndael_multiply 2 c2 ^^^ rijndael_multiply 3 c3) ^^^ rijndael_multiply 9 (rijndael_multiply 3 c0 ^^^ c1 ^^^ c2 ^^^ rijndael_multiply 2 c3) = c0 := by
  simp only [rijndael_multiply_xor_right]
  rw [rijndael_multiply_assoc_bytes 14 2 c0 (by omega) (by omega) h0]
  rw [rijndael_multiply_assoc_bytes 14 3 c1 (by omega) (by omega) h1]
  rw [rijndael_multiply_assoc_bytes 11 2 c1 (by omega) (by omega) h1]
  rw [rijndael_multiply_assoc_bytes 11 3 c2 (by omega) (by omega) h2]
  rw [rijndael_multiply_assoc_bytes 13 2 c2 (by omega) (by omega) h2]
  rw [rijndael_multiply_assoc_bytes 13 3 c3 (by omega) (by omega) h3]
  rw [rijndael_multiply_assoc_bytes 9 3 c0 (by omega) (by omega) h0]
  rw [rijndael_multiply_assoc_bytes 9 2 c3 (by omega) (by omega) h3]
  rw [show rijndael_multiply 14 2 = 28 from by rfl]
  rw [show rijndael_multiply 14 3 = 18 from by rfl]
  rw [show rijndael_multiply 11 2 = 22 from by rfl]
  rw [show rijndael_multiply 11 3 = 29 from by rfl]
  rw [show rijndael_multiply 13 2 = 26 from by rfl]
  rw [show rijndael_multiply 13 3 = 23 from by rfl]
  rw [show rijndael_multiply 9 3 = 27 from by rfl]
  rw [show rijndael_multiply 9 2 = 18 from by rfl]
  have hgrp : ((rijndael_multiply 28 c0 ^^^ rijndael_multiply 18 c1 ^^^ rijndael_multiply 14 c2 ^^^ rijndael_multiply 14 c3) ^^^ (rijndael_multiply 11 c0 ^^^ rijndael_multiply 22 c1 ^^^ rijndael_multiply 29 c2 ^^^ rijndael_multiply 11 c3) ^^^ (rijndael_multiply 13 c0 ^^^ rijndael_multiply 13 c1 ^^^ rijndael_multiply 26 c2 ^^^ rijndael_multiply 23 c3) ^^^ (rijndael_multiply 27 c0 ^^^ rijndael_multiply 9 c1 ^^^ rijndael_multiply 9 c2 ^^^ rijndael_multiply 18 c3)) =
      (((rijndael_multiply 28 c0 ^^^ rijndael_multiply 11 c0) ^^^ (rijndael_multiply 13 c0 ^^^ rijndael_multiply 27 c0)) ^^^ ((rijndael_multiply 18 c1 ^^^ rijndael_multiply 22 c1) ^^^ (rijndael_multiply 13 c1 ^^^ rijndael_multiply 9 c1)) ^^^ ((rijndael_multiply 14 c2 ^^^ rijndael_multiply 29 c2) ^^^ (rijndael_multiply 26 c2 ^^^ rijndael_multiply 9 c2)) ^^^ ((rijndael_multiply 14 c3 ^^^ rijndael_multiply 11 c3) ^^^ (rijndael_multiply 23 c3 ^^^ rijndael_multiply 18 c3))) := by ac_rfl
  rw [hgrp]
  simp only [← rijndael_multiply_xor_left]
  rw [show (((28 ^^^ 11) ^^^ (13 ^^^ 27) : Nat)) = 1 from by rfl]
  rw [show (((18 ^^^ 22) ^^^ (13 ^^^ 9) : Nat)) = 0 from by rfl]
  rw [show (((14 ^^^ 29) ^^^ (26 ^^^ 9) : Nat)) = 0 from by rfl]
  rw [show (((14 ^^^ 11) ^^^ (23 ^^^ 18) : Nat)) = 0 from by rfl]
  rw [rijndael_multiply_one_left c0 h0]
  simp only [rijndael_multiply_zero_left, Nat.xor_zero, Nat.zero_xor]

theorem imc_row1 (c0 c1 c2 c3 : Nat) (h0 : c0 < 256) (h1 : c1 < 256) (h2 : c2 < 256)
    (h3 : c3 < 256) :
    rijndael_multiply 9 (rijndael_multiply 2 c0 ^^^ rijndael_multiply 3 c1 ^^^ c2 ^^^ c3) ^^^ rijndael_multiply 14 (c0 ^^^ rijndael_multiply 2 c1 ^^^ rijndael_multiply 3 c2 ^^^ c3) ^^^ rijndael_multiply 11 (c0 ^^^ c1 ^^^ rijndael_multiply 2 c2 ^^^ rijndael_multiply 3 c3) ^^^ rijndael_multiply 13 (rijndael_multiply 3 c0 ^^^ c1 ^^^ c2 ^^^ rijndael_multiply 2 c3) = c1 := by
  simp only [rijndael_multiply_xor_right]
  rw [rijndael_multiply_assoc_bytes 9 2 c0 (by omega) (by omega) h0]
  rw [rijndael_multiply_assoc_bytes 9 3 c1 (by omega) (by omega) h1]
  rw [rijndael_multiply_assoc_bytes 14 2 c1 (by omega) (by omega) h1]
  rw [rijndael_multiply_assoc_bytes 14 3 c2 (by omega) (by omega) h2]
  rw [rijndael_multiply_assoc_bytes 11 2 c2 (by omega) (by omega) h2]
  rw [rijndael_multiply_assoc_bytes 11 3 c3 (by omega) (by omega) h3]
  rw [rijndael_multiply_assoc_bytes 13 3 c0 (by omega) (by omega) h0]
  rw [rijndael_multiply_assoc_bytes 13 2 c3 (by omega) (by omega) h3]
  rw [show rijndael_multiply 9 2 = 18 from by rfl]
  rw [show rijndael_multiply 9 3 = 27 from by rfl]
  rw [show rijndael_multiply 14 2 = 28 from by rfl]
  rw [show rijndael_multiply 14 3 = 18 from by rfl]
  rw [show rijndael_multiply 11 2 = 22 from by rfl]
  rw [show rijndael_multiply 11 3 = 29 from by rfl]
  rw [show rijndael_multiply 13 3 = 23 from by rfl]
  rw [show rijndael_multiply 13 2 = 26 from by rfl]
  have hgrp : ((rijndael_multiply 18 c0 ^^^ rijndael_multiply 27 c1 ^^^ rijndael_multiply 9 c2 ^^^ rijndael_multiply 9 c3) ^^^ (rijndael_multiply 14 c0 ^^^ rijndael_multiply 28 c1 ^^^ rijndael_multiply 18 c2 ^^^ rijndael_multiply 14 c3) ^^^ (rijndael_multiply 11 c0 ^^^ rijndael_multiply 11 c1 ^^^ rijndael_multiply 22 c2 ^^^ rijndael_multiply 29 c3) ^^^ (rijndael_multiply 23 c0 ^^^ rijndael_multiply 13 c1 ^^^ rijndael_multiply 13 c2 ^^^ rijndael_multiply 26 c3)) =
      (((rijndael_multiply 18 c0 ^^^ rijndael_multiply 14 c0) ^^^ (rijndael_multiply 11 c0 ^^^ rijndael_multiply 23 c0)) ^^^ ((rijndael_multiply 27 c1 ^^^ rijndael_multiply 28 c1) ^^^ (rijndael_multiply 11 c1 ^^^ rijndael_multiply 13 c1)) ^^^ ((rijndael_multiply 9 c2 ^^^ rijndael_multiply 18 c2) ^^^ (rijndael_multiply 22 c2 ^^^ rijndael_multiply 13 c2)) ^^^ ((rijndael_multiply 9 c3 ^^^ rijndael_multiply 14 c3) ^^^ (rijndael_multiply 29 c3 ^^^ rijndael_multiply 26 c3))) := by ac_rfl
  rw [hgrp]
  simp only [← rijndael_multiply_xor_left]
  rw [show (((18 ^^^ 14) ^^^ (11 ^^^ 23) : Nat)) = 0 from by rfl]
  rw [show (((27 ^^^ 28) ^^^ (11 ^^^ 13) : Nat)) = 1 from by rfl]
  rw [show (((9 ^^^ 18) ^^^ (22 ^^^ 13) : Nat)) = 0 from by rfl]
  rw [show (((9 ^^^ 14) ^^^ (29 ^^^ 26) : Nat)) = 0 from by rfl]
  rw [rijndael_multiply_one_left c1 h1]
  simp only [rijndael_multiply_zero_left, Nat.xor_zero, Nat.zero_xor]

theorem imc_row2 (c0 c1 c2 c3 : Nat) (h0 : c0 < 256) (h1 : c1 < 256) (h2 : c2 < 256)
    (h3 : c3 < 256) :
    rijndael_multiply 13 (rijndael_multiply 2 c0 ^^^ rijndael_multiply 3 c1 ^^^ c2 ^^^ c3) ^^^ rijndael_multiply 9 (c0 ^^^ rijndael_multiply 2 c1 ^^^ rijndael_multiply 3 c2 ^^^ c3) ^^^ rijndael_multiply 14 (c0 ^^^ c1 ^^^ rijndael_multiply 2 c2 ^^^ rijndael_multiply 3 c3) ^^^ rijndael_multiply 11 (rijndael_multiply 3 c0 ^^^ c1 ^^^ c2 ^^^ rijndael_multiply 2 c3) = c2 := by
  simp only [rijndael_multiply_xor_right]
  rw [rijndael_multiply_assoc_bytes 13 2 c0 (by omega) (by omega) h0]
  rw [rijndael_multiply_assoc_bytes 13 3 c1 (by omega) (by omega) h1]
  rw [rijndael_multiply_assoc_bytes 9 2 c1 (by omega) (by omega) h1]
  rw [rijndael_multiply_assoc_bytes 9 3 c2 (by omega) (by omega) h2]
  rw [rijndael_multiply_assoc_bytes 14 2 c2 (by omega) (by omega) h2]
  rw [rijndael_multiply_assoc_bytes 14 3 c3 (by omega) (by omega) h3]
  rw [rijndael_multiply_assoc_bytes 11 3 c0 (by omega) (by omega) h0]
  rw [rijndael_multiply_assoc_bytes 11 2 c3 (by omega) (by omega) h3]
  rw [show rijndael_multiply 13 2 = 26 from by rfl]
  rw [show rijndael_multiply 13 3 = 23 from by rfl]
  rw [show rijndael_multiply 9 2 = 18 from by rfl]
  rw [show rijndael_multiply 9 3 = 27 from by rfl]
  rw [show rijndael_multiply 14 2 = 28 from by rfl]
  rw [show rijndael_multiply 14 3 = 18 from by rfl]
  rw [show rijndael_multiply 11 3 = 29 from by rfl]
  rw [show rijndael_multiply 11 2 = 22 from by rfl]
  have hgrp : ((rijndael_multiply 26 c0 ^^^ rijndael_multiply 23 c1 ^^^ rijndael_multiply 13 c2 ^^^ rijndael_multiply 13 c3) ^^^ (rijndael_multiply 9 c0 ^^^ rijndael_multiply 18 c1 ^^^ rijndael_multiply 27 c2 ^^^ rijndael_multiply 9 c3) ^^^ (rijndael_multiply 14 c0 ^^^ rijndael_multiply 14 c1 ^^^ rijndael_multiply 28 c2 ^^^ rijndael_multiply 18 c3) ^^^ (rijndael_multiply 29 c0 ^^^ rijndael_multiply 11 c1 ^^^ rijndael_multiply 11 c2 ^^^ rijndael_multiply 22 c3)) =
      (((rijndael_multiply 26 c0 ^^^ rijndael_multiply 9 c0) ^^^ (rijndael_multiply 14 c0 ^^^ rijndael_multiply 29 c0)) ^^^ ((rijndael_multiply 23 c1 ^^^ rijndael_multiply 18 c1) ^^^ (rijndael_multiply 14 c1 ^^^ rijndael_multiply 11 c1)) ^^^ ((rijndael_multiply 13 c2 ^^^ rijndael_multiply 27 c2) ^^^ (rijndael_multiply 28 c2 ^^^ rijndael_multiply 11 c2)) ^^^ ((rijndael_multiply 13 c3 ^^^ rijndael_multiply 9 c3) ^^^ (rijndael_multiply 18 c3 ^^^ rijndael_multiply 22 c3))) := by ac_rfl
  rw [hgrp]
  simp only [← rijndael_multiply_xor_left]
  rw [show (((26 ^^^ 9) ^^^ (14 ^^^ 29) : Nat)) = 0 from by rfl]
  rw [show (((23 ^^^ 18) ^^^ (14 ^^^ 11) : Nat)) = 0 from by rfl]
  rw [show (((13 ^^^ 27) ^^^ (28 ^^^ 11) : Nat)) = 1 from by rfl]
  rw [show (((13 ^^^ 9) ^^^ (18 ^^^ 22) : Nat)) = 0 from by rfl]
  rw [rijndael_multiply_one_left c2 h2]
  simp only [rijndael_multiply_zero_left, Nat.xor_zero, Nat.zero_xor]

theorem imc_row3 (c0 c1 c2 c3 : Nat) (h0 : c0 < 256) (h1 : c1 < 256) (h2 : c2 < 256)
    (h3 : c3 < 256) :
    rijndael_multiply 11 (rijndael_multiply 2 c0 ^^^ rijndael_multiply 3 c1 ^^^ c2 ^^^ c3) ^^^ rijndael_multiply 13 (c0 ^^^ rijndael_multiply 2 c1 ^^^ rijndael_multiply 3 c2 ^^^ c3) ^^^ rijndael_multiply 9 (c0 ^^^ c1 ^^^ rijndael_multiply 2 c2 ^^^ rijndael_multiply 3 c3) ^^^ rijndael_multiply 14 (rijndael_multiply 3 c0 ^^^ c1 ^^^ c2 ^^^ rijndael_multiply 2 c3) = c3 := by
  simp only [rijndael_multiply_xor_right]
  rw [rijndael_multiply_assoc_bytes 11 2 c0 (by omega) (by omega) h0]
  rw [rijndael_multiply_assoc_bytes 11 3 c1 (by omega) (by omega) h1]
  rw [rijndael_multiply_assoc_bytes 13 2 c1 (by omega) (by omega) h1]
  rw [rijndael_multiply_assoc_bytes 13 3 c2 (by omega) (by omega) h2]
  rw [rijndael_multiply_assoc_bytes 9 2 c2 (by omega) (by omega) h2]
  rw [rijndael_multiply_assoc_bytes 9 3 c3 (by omega) (by omega) h3]
  rw [rijndael_multiply_assoc_bytes 14 3 c0 (by omega) (by omega) h0]
  rw [rijndael_multiply_assoc_bytes 14 2 c3 (by omega) (by omega) h3]
  rw [show rijndael_multiply 11 2 = 22 from by rfl]
  rw [show rijndael_multiply 11 3 = 29 from by rfl]
  rw [show rijndael_multiply 13 2 = 26 from by rfl]
  rw [show rijndael_multiply 13 3 = 23 from by rfl]
  rw [show rijndael_multiply 9 2 = 18 from by rfl]
  rw [show rijndael_multiply 9 3 = 27 from by rfl]
  rw [show rijndael_multiply 14 3 = 18 from by rfl]
  rw [show rijndael_multiply 14 2 = 28 from by rfl]
  have hgrp : ((rijndael_multiply 22 c0 ^^^ rijndael_multiply 29 c1 ^^^ rijndael_multiply 11 c2 ^^^ rijndael_multiply 11 c3) ^^^ (rijndael_multiply 13 c0 ^^^ rijndael_multiply 26 c1 ^^^ rijndael_multiply 23 c2 ^^^ rijndael_multiply 13 c3) ^^^ (rijndael_multiply 9 c0 ^^^ rijndael_multiply 9 c1 ^^^ rijndael_multiply 18 c2 ^^^ rijndael_multiply 27 c3) ^^^ (rijndael_multiply 18 c0 ^^^ rijndael_multiply 14 c1 ^^^ rijndael_multiply 14 c2 ^^^ rijndael_multiply 28 c3)) =
      (((rijndael_multiply 22 c0 ^^^ rijndael_multiply 13 c0) ^^^ (rijndael_multiply 9 c0 ^^^ rijndael_multiply 18 c0)) ^^^ ((rijndael_multiply 29 c1 ^^^ rijndael_multiply 26 c1) ^^^ (rijndael_multiply 9 c1 ^^^ rijndael_multiply 14 c1)) ^^^ ((rijndael_multiply 11 c2 ^^^ rijndael_multiply 23 c2) ^^^ (rijndael_multiply 18 c2 ^^^ rijndael_multiply 14 c2)) ^^^ ((rijndael_multiply 11 c3 ^^^ rijndael_multiply 13 c3) ^^^ (rijndael_multiply 27 c3 ^^^ rijndael_multiply 28 c3))) := by ac_rfl
  rw [hgrp]
  simp only [← rijndael_multiply_xor_left]
  rw [show (((22 ^^^ 13) ^^^ (9 ^^^ 18) : Nat)) = 0 from by rfl]
  rw [show (((29 ^^^ 26) ^^^ (9 ^^^ 14) : Nat)) = 0 from by rfl]
  rw [show (((11 ^^^ 23) ^^^ (18 ^^^ 14) : Nat)) = 0 from by rfl]
  rw [show (((11 ^^^ 13) ^^^ (27 ^^^ 28) : Nat)) = 1 from by rfl]
  rw [rijndael_multiply_one_left c3 h3]
  simp only [rijndael_multiply_zero_left, Nat.xor_zero, Nat.zero_xor]
set_option maxHeartbeats 4000000


theorem isbox_sbox_all : ((List.range 256).all fun x =>
    nth inverse_sbox_list (nth sbox_list x) == x) = true := by rfl

theorem isbox_sbox : ∀ x < 256, nth inverse_sbox_list (nth sbox_list x) = x := by
  intro x hx
  have h := all_range_lt isbox_sbox_all hx
  simpa using h

theorem sbox_list_bytes : AllBytes sbox_list := by decide

theorem sub_bytes_len (sbt b : List Nat) : (sub_bytes sbt b).length = b.length :=
  List.length_map b _

theorem add_round_key_len (ks : List Nat) (off : Nat) (b : List Nat) :
    (add_round_key ks off b).length = 16 := by
  unfold add_round_key
  rw [List.length_map, List.length_range]

theorem shift_rows_len (b : List Nat) (h : b.length = 16) : (shift_rows b).length = 16 := by
  rw [list_eq_16 b h, shift_rows_eval]
  rfl

theorem mix_columns_len (b : List Nat) (h : b.length = 16) : (mix_columns b).length = 16 := by
  rw [list_eq_16 b h, mix_columns_eval]
  rfl

theorem sub_bytes_bytes (b : List Nat) : AllBytes (sub_bytes sbox_list b) := by
  intro x hx
  rcases List.mem_map.mp hx with ⟨y, _, rfl⟩
  exact nth_lt sbox_list sbox_list_bytes y

theorem add_round_key_bytes (ks : List Nat) (off : Nat) (b : List Nat) (hks : AllBytes ks)
    (hb : AllBytes b) : AllBytes (add_round_key ks off b) := by
  intro x hx
  rcases List.mem_map.mp hx with ⟨i, _, rfl⟩
  exact xor_lt_256 _ _ (nth_lt b hb i) (nth_lt ks hks (off + i))

theorem shift_rows_bytes (b : List Nat) (h16 : b.length = 16) (hb : AllBytes b) :
    AllBytes (shift_rows b) := by
  rw [list_eq_16 b h16, shift_rows_eval]
  intro x hx
  simp only [List.mem_cons, List.not_mem_nil, or_false] at hx
  rcases hx with rfl | rfl | rfl | rfl | rfl | rfl | rfl | rfl | rfl | rfl | rfl | rfl | rfl |
    rfl | rfl | rfl <;> exact nth_lt b hb _

theorem mix_columns_bytes (b : List Nat) (h16 : b.length = 16) (hb : AllBytes b) :
    AllBytes (mix_columns b) := by
  rw [list_eq_16 b h16, mix_columns_eval]
  intro x hx
  simp only [List.mem_cons, List.not_mem_nil, or_false] at hx
  rcases hx with rfl | rfl | rfl | rfl | rfl | rfl | rfl | rfl | rfl | rfl | rfl | rfl | rfl |
    rfl | rfl | rfl <;>
  · repeat' apply xor_lt_256
    all_goals
      first
        | exact rijndael_multiply_lt _ _
        | exact nth_lt b hb _

theorem ark_ark (ks : List Nat) (off : Nat) (b : List Nat) (h : b.length = 16) :
    add_round_key ks off (add_round_key ks off b) = b := by
  rw [list_eq_16 b h, add_round_key_eval, add_round_key_eval]
  simp only [Nat.xor_cancel_right]

theorem isr_sr (b : List Nat) (h : b.length = 16) :
    inv_shift_rows (shift_rows b) = b := by
  rw [list_eq_16 b h, shift_rows_eval, inv_shift_rows_eval]

theorem isb_sb (b : List Nat) (hb : AllBytes b) :
    inv_sub_bytes inverse_sbox_list (sub_bytes sbox_list b) = b := by
  unfold inv_sub_bytes sub_bytes
  rw [List.map_map]
  calc b.map ((fun x => nth inverse_sbox_list x) ∘ fun x => nth sbox_list x)
      = b.map id := List.map_congr_left (fun x hx => isbox_sbox x (hb x hx))
    _ = b := List.map_id b


theorem imc_mc (b : List Nat) (h16 : b.length = 16) (hb : AllBytes b) :
    inv_mix_columns (mix_columns b) = b := by
  rw [list_eq_16 b h16, mix_columns_eval, inv_mix_columns_eval]
  rw [
    imc_row0 (nth b 0) (nth b 1) (nth b 2) (nth b 3) (nth_lt b hb 0) (nth_lt b hb 1) (nth_lt b hb 2) (nth_lt b hb 3),
    imc_row1 (nth b 0) (nth b 1) (nth b 2) (nth b 3) (nth_lt b hb 0) (nth_lt b hb 1) (nth_lt b hb 2) (nth_lt b hb 3),
    imc_row2 (nth b 0) (nth b 1) (nth b 2) (nth b 3) (nth_lt b hb 0) (nth_lt b hb 1) (nth_lt b hb 2) (nth_lt b hb 3),
    imc_row3 (nth b 0) (nth b 1) (nth b 2) (nth b 3) (nth_lt b hb 0) (nth_lt b hb 1) (nth_lt b hb 2) (nth_lt b hb 3),
    imc_row0 (nth b 4) (nth b 5) (nth b 6) (nth b 7) (nth_lt b hb 4) (nth_lt b hb 5) (nth_lt b hb 6) (nth_lt b hb 7),
    imc_row1 (nth b 4) (nth b 5) (nth b 6) (nth b 7) (nth_lt b hb 4) (nth_lt b hb 5) (nth_lt b hb 6) (nth_lt b hb 7),
    imc_row2 (nth b 4) (nth b 5) (nth b 6) (nth b 7) (nth_lt b hb 4) (nth_lt b hb 5) (nth_lt b hb 6) (nth_lt b hb 7),
    imc_row3 (nth b 4) (nth b 5) (nth b 6) (nth b 7) (nth_lt b hb 4) (nth_lt b hb 5) (nth_lt b hb 6) (nth_lt b hb 7),
    imc_row0 (nth b 8) (nth b 9) (nth b 10) (nth b 11) (nth_lt b hb 8) (nth_lt b hb 9) (nth_lt b hb 10) (nth_lt b hb 11),
    imc_row1 (nth b 8) (nth b 9) (nth b 10) (nth b 11) (nth_lt b hb 8) (nth_lt b hb 9) (nth_lt b hb 10) (nth_lt b hb 11),
    imc_row2 (nth b 8) (nth b 9) (nth b 10) (nth b 11) (nth_lt b hb 8) (nth_lt b hb 9) (nth_lt b hb 10) (nth_lt b hb 11),
    imc_row3 (nth b 8) (nth b 9) (nth b 10) (nth b 11) (nth_lt b hb 8) (nth_lt b hb 9) (nth_lt b hb 10) (nth_lt b hb 11),
    imc_row0 (nth b 12) (nth b 13) (nth b 14) (nth b 15) (nth_lt b hb 12) (nth_lt b hb 13) (nth_lt b hb 14) (nth_lt b hb 15),
    imc_row1 (nth b 12) (nth b 13) (nth b 14) (nth b 15) (nth_lt b hb 12) (nth_lt b hb 13) (nth_lt b hb 14) (nth_lt b hb 15),
    imc_row2 (nth b 12) (nth b 13) (nth b 14) (nth b 15) (nth_lt b hb 12) (nth_lt b hb 13) (nth_lt b hb 14) (nth_lt b hb 15),
    imc_row3 (nth b 12) (nth b 13) (nth b 14) (nth b 15) (nth_lt b hb 12) (nth_lt b hb 13) (nth_lt b hb 14) (nth_lt b hb 15)]


theorem round_cancel (ks : List Nat) (off : Nat) (s : List Nat) (h16 : s.length = 16)
    (hs : AllBytes s) :
    inv_sub_bytes inverse_sbox_list (inv_shift_rows (inv_mix_columns (add_round_key ks off
      (add_round_key ks off (mix_columns (shift_rows (sub_bytes sbox_list s))))))) = s := by
  have l1 : (sub_bytes sbox_list s).length = 16 := by rw [sub_bytes_len, h16]
  have b1 : AllBytes (sub_bytes sbox_list s) := sub_bytes_bytes s
  have l2 : (shift_rows (sub_bytes sbox_list s)).length = 16 := shift_rows_len _ l1
  have b2 : AllBytes (shift_rows (sub_bytes sbox_list s)) := shift_rows_bytes _ l1 b1
  have l3 : (mix_columns (shift_rows (sub_bytes sbox_list s))).length = 16 := mix_columns_len _ l2
  rw [ark_ark ks off _ l3, imc_mc _ l2 b2, isr_sr _ l1, isb_sb s hs]


/-- Decrypting an encrypted 16-byte block with the same schedule and
the literal S-box tables gives the block back. -/
theorem roundtrip_core (ks b : List Nat) (hks : AllBytes ks) (h16 : b.length = 16)
    (hb : AllBytes b) :
    decrypt_block inverse_sbox_list ks (encrypt_block sbox_list ks b) = b := by
  have l0 : (add_round_key ks 0 b).length = 16 := add_round_key_len ks 0 b
  have b0 : AllBytes (add_round_key ks 0 b) := add_round_key_bytes ks 0 b hks hb
  have lsb0 : (sub_bytes sbox_list (add_round_key ks 0 b)).length = 16 := by rw [sub_bytes_len]; exact l0
  have lsr0 : (shift_rows (sub_bytes sbox_list (add_round_key ks 0 b))).length = 16 := shift_rows_len _ lsb0
  have l1 : ((add_round_key ks 16 (mix_columns (shift_rows (sub_bytes sbox_list (add_round_key ks 0 b))))) : List Nat).length = 16 := add_round_key_len ks 16 _
  have b1 : AllBytes (add_round_key ks 16 (mix_columns (shift_rows (sub_bytes sbox_list (add_round_key ks 0 b))))) := add_round_key_bytes ks 16 _ hks (mix_columns_bytes _ lsr0 (shift_rows_bytes _ lsb0 (sub_bytes_bytes _)))
  have lsb1 : (sub_bytes sbox_list (add_round_key ks 16 (mix_columns (shift_rows (sub_bytes sbox_list (add_round_key ks 0 b)))))).length = 16 := by rw [sub_bytes_len]; exact l1
  have lsr1 : (shift_rows (sub_bytes sbox_list (add_round_key ks 16 (mix_columns (shift_rows (sub_bytes sbox_list (add_round_key ks 0 b))))))).length = 16 := shift_rows_len _ lsb1
  have l2 : ((add_round_key ks 32 (mix_columns (shift_rows (sub_bytes sbox_list (add_round_key ks 16 (mix_columns (shift_rows (sub_bytes sbox_list (add_round_key ks 0 b))))))))) : List Nat).length = 16 := add_round_key_len ks 32 _
  have b2 : AllBytes (add_round_key ks 32 (mix_columns (shift_rows (sub_bytes sbox_list (add_round_key ks 16 (mix_columns (shift_rows (sub_bytes sbox_list (add_round_key ks 0 b))))))))) := add_round_key_bytes ks 32 _ hks (mix_columns_bytes _ lsr1 (shift_rows_bytes _ lsb1 (sub_bytes_bytes _)))
  have lsb2 : (sub_bytes sbox_list (add_round_key ks 32 (mix_columns (shift_rows (sub_bytes sbox_list (add_round_key ks 16 (mix_columns (shift_rows (sub_bytes sbox_list (add_round_key ks 0 b)))))))))).length = 16 := by rw [sub_bytes_len]; exact l2
  have lsr2 : (shift_rows (sub_bytes sbox_list (add_round_key ks 32 (mix_columns (shift_rows (sub_bytes sbox_list (add_round_key ks 16 (mix_columns (shift_rows (sub_bytes sbox_list (add_round_key ks 0 b))))))))))).length = 16 := shift_rows_len _ lsb2
  have l3 : ((add_round_key ks 48 (mix_columns (shift_rows (sub_bytes sbox_list (add_round_key ks 32 (mix_columns (shift_rows (sub_bytes sbox_list (add_round_key ks 16 (mix_columns (shift_rows (sub_bytes sbox_list (add_round_key ks 0 b))))))))))))) : List Nat).length = 16 := add_round_key_len ks 48 _
  have b3 : AllBytes (add_round_key ks 48 (mix_columns (shift_rows (sub_bytes sbox_list (add_round_key ks 32 (mix_columns (shift_rows (sub_bytes sbox_list (add_round_key ks 16 (mix_columns (shift_rows (sub_bytes sbox_list (add_round_key ks 0 b))))))))))))) := add_round_key_bytes ks 48 _ hks (mix_columns_bytes _ lsr2 (shift_rows_bytes _ lsb2 (sub_bytes_bytes _)))
  have lsb3 : (sub_bytes sbox_list (add_round_key ks 48 (mix_columns (shift_rows (sub_bytes sbox_list (add_round_key ks 32 (mix_columns (shift_rows (sub_bytes sbox_list (add_round_key ks 16 (mix_columns (shift_rows (sub_bytes sbox_list (add_round_key ks 0 b)))))))))))))).length = 16 := by rw [sub_bytes_len]; exact l3
  have lsr3 : (shift_rows (sub_bytes sbox_list (add_round_key ks 48 (mix_columns (shift_rows (sub_bytes sbox_list (add_round_key ks 32 (mix_columns (shift_rows (sub_bytes sbox_list (add_round_key ks 16 (mix_columns (shift_rows (sub_bytes sbox_list (add_round_key ks 0 b))))))))))))))).length = 16 := shift_rows_len _ lsb3
  have l4 : ((add_round_key ks 64 (mix_columns (shift_rows (sub_bytes sbox_list (add_round_key ks 48 (mix_columns (shift_rows (sub_bytes sbox_list (add_round_key ks 32 (mix_columns (shift_rows (sub_bytes sbox_list (add_round_key ks 16 (mix_columns (shift_rows (sub_bytes sbox_list (add_round_key ks 0 b))))))))))))))))) : List Nat).length = 16 := add_round_key_len ks 64 _
  have b4 : AllBytes (add_round_key ks 64 (mix_columns (shift_rows (sub_bytes sbox_list (add_round_key ks 48 (mix_columns (shift_rows (sub_bytes sbox_list (add_round_key ks 32 (mix_columns (shift_rows (sub_bytes sbox_list (add_round_key ks 16 (mix_columns (shift_rows (sub_bytes sbox_list (add_round_key ks 0 b))))))))))))))))) := add_round_key_bytes ks 64 _ hks (mix_columns_bytes _ lsr3 (shift_rows_bytes _ lsb3 (sub_bytes_bytes _)))
  have lsb4 : (sub_bytes sbox_list (add_round_key ks 64 (mix_columns (shift_rows (sub_bytes sbox_list (add_round_key ks 48 (mix_columns (shift_rows (sub_bytes sbox_list (add_round_key ks 32 (mix_columns (shift_rows (sub_bytes sbox_list (add_round_key ks 16 (mix_columns (shift_rows (sub_bytes sbox_list (add_round_key ks 0 b)))))))))))))))))).length = 16 := by rw [sub_bytes_len]; exact l4
  have lsr4 : (shift_rows (sub_bytes sbox_list (add_round_key ks 64 (mix_columns (shift_rows (sub_bytes sbox_list (add_round_key ks 48 (mix_columns (shift_rows (sub_bytes sbox_list (add_round_key ks 32 (mix_columns (shift_rows (sub_bytes sbox_list (add_round_key ks 16 (mix_columns (shift_rows (sub_bytes sbox_list (add_round_key ks 0 b))))))))))))))))))).length = 16 := shift_rows_len _ lsb4
  have l5 : ((add_round_key ks 80 (mix_columns (shift_rows (sub_bytes sbox_list (add_round_key ks 64 (mix_columns (shift_rows (sub_bytes sbox_list (add_round_key ks 48 (mix_columns (shift_rows (sub_bytes sbox_list (add_round_key ks 32 (mix_columns (shift_rows (sub_bytes sbox_list (add_round_key ks 16 (mix_columns (shift_rows (sub_bytes sbox_list (add_round_key ks 0 b))))))))))))))))))))) : List Nat).length = 16 := add_round_key_len ks 80 _
  have b5 : AllBytes (add_round_key ks 80 (mix_columns (shift_rows (sub_bytes sbox_list (add_round_key ks 64 (mix_columns (shift_rows (sub_bytes sbox_list (add_round_key ks 48 (mix_columns (shift_rows (sub_bytes sbox_list (add_round_key ks 32 (mix_columns (shift_rows (sub_bytes sbox_list (add_round_key ks 16 (mix_columns (shift_rows (sub_bytes sbox_list (add_round_key ks 0 b))))))))))))))))))))) := add_round_key_bytes ks 80 _ hks (mix_columns_bytes _ lsr4 (shift_rows_bytes _ lsb4 (sub_bytes_bytes _)))
  have lsb5 : (sub_bytes sbox_list (add_round_key ks 80 (mix_columns (shift_rows (sub_bytes sbox_list (add_round_key ks 64 (mix_columns (shift_rows (sub_bytes sbox_list (add_round_key ks 48 (mix_columns (shift_rows (sub_bytes sbox_list (add_round_key ks 32 (mix_columns (shift_rows (sub_bytes sbox_list (add_round_key ks 16 (mix_columns (shift_rows (sub_bytes sbox_list (add_round_key ks 0 b)))))))))))))))))))))).length = 16 := by rw [sub_bytes_len]; exact l5
  have lsr5 : (shift_rows (sub_bytes sbox_list (add_round_key ks 80 (mix_columns (shift_rows (sub_bytes sbox_list (add_round_key ks 64 (mix_columns (shift_rows (sub_bytes sbox_list (add_round_key ks 48 (mix_columns (shift_rows (sub_bytes sbox_list (add_round_key ks 32 (mix_columns (shift_rows (sub_bytes sbox_list (add_round_key ks 16 (mix_columns (shift_rows (sub_bytes sbox_list (add_round_key ks 0 b))))))))))))))))))))))).length = 16 := shift_rows_len _ lsb5
  have l6 : ((add_round_key ks 96 (mix_columns (shift_rows (sub_bytes sbox_list (add_round_key ks 80 (mix_columns (shift_rows (sub_bytes sbox_list (add_round_key ks 64 (mix_columns (shift_rows (sub_bytes sbox_list (add_round_key ks 48 (mix_columns (shift_rows (sub_bytes sbox_list (add_round_key ks 32 (mix_columns (shift_rows (sub_bytes sbox_list (add_round_key ks 16 (mix_columns (shift_rows (sub_bytes sbox_list (add_round_key ks 0 b))))))))))))))))))))))))) : List Nat).length = 16 := add_round_key_len ks 96 _
  have b6 : AllBytes (add_round_key ks 96 (mix_columns (shift_rows (sub_bytes sbox_list (add_round_key ks 80 (mix_columns (shift_rows (sub_bytes sbox_list (add_round_key ks 64 (mix_columns (shift_rows (sub_bytes sbox_list (add_round_key ks 48 (mix_columns (shift_rows (sub_bytes sbox_list (add_round_key ks 32 (mix_columns (shift_rows (sub_bytes sbox_list (add_round_key ks 16 (mix_columns (shift_rows (sub_bytes sbox_list (add_round_key ks 0 b))))))))))))))))))))))))) := add_round_key_bytes ks 96 _ hks (mix_columns_bytes _ lsr5 (shift_rows_bytes _ lsb5 (sub_bytes_bytes _)))
  have lsb6 : (sub_bytes sbox_list (add_round_key ks 96 (mix_columns (shift_rows (sub_bytes sbox_list (add_round_key ks 80 (mix_columns (shift_rows (sub_bytes sbox_list (add_round_key ks 64 (mix_columns (shift_rows (sub_bytes sbox_list (add_round_key ks 48 (mix_columns (shift_rows (sub_bytes sbox_list (add_round_key ks 32 (mix_columns (shift_rows (sub_bytes sbox_list (add_round_key ks 16 (mix_columns (shift_rows (sub_bytes sbox_list (add_round_key ks 0 b)))))))))))))))))))))))))).length = 16 := by rw [sub_bytes_len]; exact l6
  have lsr6 : (shift_rows (sub_bytes sbox_list (add_round_key ks 96 (mix_columns (shift_rows (sub_bytes sbox_list (add_round_key ks 80 (mix_columns (shift_rows (sub_bytes sbox_list (add_round_key ks 64 (mix_columns (shift_rows (sub_bytes sbox_list (add_round_key ks 48 (mix_columns (shift_rows (sub_bytes sbox_list (add_round_key ks 32 (mix_columns (shift_rows (sub_bytes sbox_list (add_round_key ks 16 (mix_columns (shift_rows (sub_bytes sbox_list (add_round_key ks 0 b))))))))))))))))))))))))))).length = 16 := shift_rows_len _ lsb6
  have l7 : ((add_round_key ks 112 (mix_columns (shift_rows (sub_bytes sbox_list (add_round_key ks 96 (mix_columns (shift_rows (sub_bytes sbox_list (add_round_key ks 80 (mix_columns (shift_rows (sub_bytes sbox_list (add_round_key ks 64 (mix_columns (shift_rows (sub_bytes sbox_list (add_round_key ks 48 (mix_columns (shift_rows (sub_bytes sbox_list (add_round_key ks 32 (mix_columns (shift_rows (sub_bytes sbox_list (add_round_key ks 16 (mix_columns (shift_rows (sub_bytes sbox_list (add_round_key ks 0 b))))))))))))))))))))))))))))) : List Nat).length = 16 := add_round_key_len ks 112 _
  have b7 : AllBytes (add_round_key ks 112 (mix_columns (shift_rows (sub_bytes sbox_list (add_round_key ks 96 (mix_columns (shift_rows (sub_bytes sbox_list (add_round_key ks 80 (mix_columns (shift_rows (sub_bytes sbox_list (add_round_key ks 64 (mix_columns (shift_rows (sub_bytes sbox_list (add_round_key ks 48 (mix_columns (shift_rows (sub_bytes sbox_list (add_round_key ks 32 (mix_columns (shift_rows (sub_bytes sbox_list (add_round_key ks 16 (mix_columns (shift_rows (sub_bytes sbox_list (add_round_key ks 0 b))))))))))))))))))))))))))))) := add_round_key_bytes ks 112 _ hks (mix_columns_bytes _ lsr6 (shift_rows_bytes _ lsb6 (sub_bytes_bytes _)))
  have lsb7 : (sub_bytes sbox_list (add_round_key ks 112 (mix_columns (shift_rows (sub_bytes sbox_list (add_round_key ks 96 (mix_columns (shift_rows (sub_bytes sbox_list (add_round_key ks 80 (mix_columns (shift_rows (sub_bytes sbox_list (add_round_key ks 64 (mix_columns (shift_rows (sub_bytes sbox_list (add_round_key ks 48 (mix_columns (shift_rows (sub_bytes sbox_list (add_round_key ks 32 (mix_columns (shift_rows (sub_bytes sbox_list (add_round_key ks 16 (mix_columns (shift_rows (sub_bytes sbox_list (add_round_key ks 0 b)))))))))))))))))))))))))))))).length = 16 := by rw [sub_bytes_len]; exact l7
  have lsr7 : (shift_rows (sub_bytes sbox_list (add_round_key ks 112 (mix_columns (shift_rows (sub_bytes sbox_list (add_round_key ks 96 (mix_columns (shift_rows (sub_bytes sbox_list (add_round_key ks 80 (mix_columns (shift_rows (sub_bytes sbox_list (add_round_key ks 64 (mix_columns (shift_rows (sub_bytes sbox_list (add_round_key ks 48 (mix_columns (shift_rows (sub_bytes sbox_list (add_round_key ks 32 (mix_columns (shift_rows (sub_bytes sbox_list (add_round_key ks 16 (mix_columns (shift_rows (sub_bytes sbox_list (add_round_key ks 0 b))))))))))))))))))))))))))))))).length = 16 := shift_rows_len _ lsb7
  have l8 : ((add_round_key ks 128 (mix_columns (shift_rows (sub_bytes sbox_list (add_round_key ks 112 (mix_columns (shift_rows (sub_bytes sbox_list (add_round_key ks 96 (mix_columns (shift_rows (sub_bytes sbox_list (add_round_key ks 80 (mix_columns (shift_rows (sub_bytes sbox_list (add_round_key ks 64 (mix_columns (shift_rows (sub_bytes sbox_list (add_round_key ks 48 (mix_columns (shift_rows (sub_bytes sbox_list (add_round_key ks 32 (mix_columns (shift_rows (sub_bytes sbox_list (add_round_key ks 16 (mix_columns (shift_rows (sub_bytes sbox_list (add_round_key ks 0 b))))))))))))))))))))))))))))))))) : List Nat).length = 16 := add_round_key_len ks 128 _
  have b8 : AllBytes (add_round_key ks 128 (mix_columns (shift_rows (sub_bytes sbox_list (add_round_key ks 112 (mix_columns (shift_rows (sub_bytes sbox_list (add_round_key ks 96 (mix_columns (shift_rows (sub_bytes sbox_list (add_round_key ks 80 (mix_columns (shift_rows (sub_bytes sbox_list (add_round_key ks 64 (mix_columns (shift_rows (sub_bytes sbox_list (add_round_key ks 48 (mix_columns (shift_rows (sub_bytes sbox_list (add_round_key ks 32 (mix_columns (shift_rows (sub_bytes sbox_list (add_round_key ks 16 (mix_columns (shift_rows (sub_bytes sbox_list (add_round_key ks 0 b))))))))))))))))))))))))))))))))) := add_round_key_bytes ks 128 _ hks (mix_columns_bytes _ lsr7 (shift_rows_bytes _ lsb7 (sub_bytes_bytes _)))
  have lsb8 : (sub_bytes sbox_list (add_round_key ks 128 (mix_columns (shift_rows (sub_bytes sbox_list (add_round_key ks 112 (mix_columns (shift_rows (sub_bytes sbox_list (add_round_key ks 96 (mix_columns (shift_rows (sub_bytes sbox_list (add_round_key ks 80 (mix_columns (shift_rows (sub_bytes sbox_list (add_round_key ks 64 (mix_columns (shift_rows (sub_bytes sbox_list (add_round_key ks 48 (mix_columns (shift_rows (sub_bytes sbox_list (add_round_key ks 32 (mix_columns (shift_rows (sub_bytes sbox_list (add_round_key ks 16 (mix_columns (shift_rows (sub_bytes sbox_list (add_round_key ks 0 b)))))))))))))))))))))))))))))))))).length = 16 := by rw [sub_bytes_len]; exact l8
  have lsr8 : (shift_rows (sub_bytes sbox_list (add_round_key ks 128 (mix_columns (shift_rows (sub_bytes sbox_list (add_round_key ks 112 (mix_columns (shift_rows (sub_bytes sbox_list (add_round_key ks 96 (mix_columns (shift_rows (sub_bytes sbox_list (add_round_key ks 80 (mix_columns (shift_rows (sub_bytes sbox_list (add_round_key ks 64 (mix_columns (shift_rows (sub_bytes sbox_list (add_round_key ks 48 (mix_columns (shift_rows (sub_bytes sbox_list (add_round_key ks 32 (mix_columns (shift_rows (sub_bytes sbox_list (add_round_key ks 16 (mix_columns (shift_rows (sub_bytes sbox_list (add_round_key ks 0 b))))))))))))))))))))))))))))))))))).length = 16 := shift_rows_len _ lsb8
  have l9 : ((add_round_key ks 144 (mix_columns (shift_rows (sub_bytes sbox_list (add_round_key ks 128 (mix_columns (shift_rows (sub_bytes sbox_list (add_round_key ks 112 (mix_columns (shift_rows (sub_bytes sbox_list (add_round_key ks 96 (mix_columns (shift_rows (sub_bytes sbox_list (add_round_key ks 80 (mix_columns (shift_rows (sub_bytes sbox_list (add_round_key ks 64 (mix_columns (shift_rows (sub_bytes sbox_list (add_round_key ks 48 (mix_columns (shift_rows (sub_bytes sbox_list (add_round_key ks 32 (mix_columns (shift_rows (sub_bytes sbox_list (add_round_key ks 16 (mix_columns (shift_rows (sub_bytes sbox_list (add_round_key ks 0 b))))))))))))))))))))))))))))))))))))) : List Nat).length = 16 := add_round_key_len ks 144 _
  have b9 : AllBytes (add_round_key ks 144 (mix_columns (shift_rows (sub_bytes sbox_list (add_round_key ks 128 (mix_columns (shift_rows (sub_bytes sbox_list (add_round_key ks 112 (mix_columns (shift_rows (sub_bytes sbox_list (add_round_key ks 96 (mix_columns (shift_rows (sub_bytes sbox_list (add_round_key ks 80 (mix_columns (shift_rows (sub_bytes sbox_list (add_round_key ks 64 (mix_columns (shift_rows (sub_bytes sbox_list (add_round_key ks 48 (mix_columns (shift_rows (sub_bytes sbox_list (add_round_key ks 32 (mix_columns (shift_rows (sub_bytes sbox_list (add_round_key ks 16 (mix_columns (shift_rows (sub_bytes sbox_list (add_round_key ks 0 b))))))))))))))))))))))))))))))))))))) := add_round_key_bytes ks 144 _ hks (mix_columns_bytes _ lsr8 (shift_rows_bytes _ lsb8 (sub_bytes_bytes _)))
  have lsb9 : (sub_bytes sbox_list (add_round_key ks 144 (mix_columns (shift_rows (sub_bytes sbox_list (add_round_key ks 128 (mix_columns (shift_rows (sub_bytes sbox_list (add_round_key ks 112 (mix_columns (shift_rows (sub_bytes sbox_list (add_round_key ks 96 (mix_columns (shift_rows (sub_bytes sbox_list (add_round_key ks 80 (mix_columns (shift_rows (sub_bytes sbox_list (add_round_key ks 64 (mix_columns (shift_rows (sub_bytes sbox_list (add_round_key ks 48 (mix_columns (shift_rows (sub_bytes sbox_list (add_round_key ks 32 (mix_columns (shift_rows (sub_bytes sbox_list (add_round_key ks 16 (mix_columns (shift_rows (sub_bytes sbox_list (add_round_key ks 0 b)))))))))))))))))))))))))))))))))))))).length = 16 := by rw [sub_bytes_len]; exact l9
  have lsr9 : (shift_rows (sub_bytes sbox_list (add_round_key ks 144 (mix_columns (shift_rows (sub_bytes sbox_list (add_round_key ks 128 (mix_columns (shift_rows (sub_bytes sbox_list (add_round_key ks 112 (mix_columns (shift_rows (sub_bytes sbox_list (add_round_key ks 96 (mix_columns (shift_rows (sub_bytes sbox_list (add_round_key ks 80 (mix_columns (shift_rows (sub_bytes sbox_list (add_round_key ks 64 (mix_columns (shift_rows (sub_bytes sbox_list (add_round_key ks 48 (mix_columns (shift_rows (sub_bytes sbox_list (add_round_key ks 32 (mix_columns (shift_rows (sub_bytes sbox_list (add_round_key ks 16 (mix_columns (shift_rows (sub_bytes sbox_list (add_round_key ks 0 b))))))))))))))))))))))))))))))))))))))).length = 16 := shift_rows_len _ lsb9
  rw [show encrypt_block sbox_list ks b = (add_round_key ks 160 (shift_rows (sub_bytes sbox_list (add_round_key ks 144 (mix_columns (shift_rows (sub_bytes sbox_list (add_round_key ks 128 (mix_columns (shift_rows (sub_bytes sbox_list (add_round_key ks 112 (mix_columns (shift_rows (sub_bytes sbox_list (add_round_key ks 96 (mix_columns (shift_rows (sub_bytes sbox_list (add_round_key ks 80 (mix_columns (shift_rows (sub_bytes sbox_list (add_round_key ks 64 (mix_columns (shift_rows (sub_bytes sbox_list (add_round_key ks 48 (mix_columns (shift_rows (sub_bytes sbox_list (add_round_key ks 32 (mix_columns (shift_rows (sub_bytes sbox_list (add_round_key ks 16 (mix_columns (shift_rows (sub_bytes sbox_list (add_round_key ks 0 b)))))))))))))))))))))))))))))))))))))))) from rfl]
  have d0 : ∀ y, dec_round inverse_sbox_list ks y 0 =
      inv_sub_bytes inverse_sbox_list (inv_shift_rows (add_round_key ks 160 y)) :=
    fun y => rfl
  have d1 : ∀ y, dec_round inverse_sbox_list ks y 1 =
      inv_sub_bytes inverse_sbox_list (inv_shift_rows (inv_mix_columns
        (add_round_key ks 144 y))) := fun y => rfl
  have d2 : ∀ y, dec_round inverse_sbox_list ks y 2 =
      inv_sub_bytes inverse_sbox_list (inv_shift_rows (inv_mix_columns
        (add_round_key ks 128 y))) := fun y => rfl
  have d3 : ∀ y, dec_round inverse_sbox_list ks y 3 =
      inv_sub_bytes inverse_sbox_list (inv_shift_rows (inv_mix_columns
        (add_round_key ks 112 y))) := fun y => rfl
  have d4 : ∀ y, dec_round inverse_sbox_list ks y 4 =
      inv_sub_bytes inverse_sbox_list (inv_shift_rows (inv_mix_columns
        (add_round_key ks 96 y))) := fun y => rfl
  have d5 : ∀ y, dec_round inverse_sbox_list ks y 5 =
      inv_sub_bytes inverse_sbox_list (inv_shift_rows (inv_mix_columns
        (add_round_key ks 80 y))) := fun y => rfl
  have d6 : ∀ y, dec_round inverse_sbox_list ks y 6 =
      inv_sub_bytes inverse_sbox_list (inv_shift_rows (inv_mix_columns
        (add_round_key ks 64 y))) := fun y => rfl
  have d7 : ∀ y, dec_round inverse_sbox_list ks y 7 =
      inv_sub_bytes inverse_sbox_list (inv_shift_rows (inv_mix_columns
        (add_round_key ks 48 y))) := fun y => rfl
  have d8 : ∀ y, dec_round inverse_sbox_list ks y 8 =
      inv_sub_bytes inverse_sbox_list (inv_shift_rows (inv_mix_columns
        (add_round_key ks 32 y))) := fun y => rfl
  have d9 : ∀ y, dec_round inverse_sbox_list ks y 9 =
      inv_sub_bytes inverse_sbox_list (inv_shift_rows (inv_mix_columns
        (add_round_key ks 16 y))) := fun y => rfl
  unfold decrypt_block
  rw [show List.range 10 = [0, 1, 2, 3, 4, 5, 6, 7, 8, 9] from rfl]
  simp only [List.foldl_cons, List.foldl_nil]
  rw [d0, d1, d2, d3, d4, d5, d6, d7, d8, d9]
  rw [ark_ark ks 160 _ lsr9]
  rw [isr_sr _ lsb9]
  rw [isb_sb _ b9]
  rw [round_cancel ks 144 _ l8 b8]
  rw [round_cancel ks 128 _ l7 b7]
  rw [round_cancel ks 112 _ l6 b6]
  rw [round_cancel ks 96 _ l5 b5]
  rw [round_cancel ks 80 _ l4 b4]
  rw [round_cancel ks 64 _ l3 b3]
  rw [round_cancel ks 48 _ l2 b2]
  rw [round_cancel ks 32 _ l1 b1]
  rw [round_cancel ks 16 _ l0 b0]
  rw [ark_ark ks 0 b h16]

/-! ### The decryption sequence (claim C3's amended form) -/

theorem decrypt_block_eq_sequence (isbt ks block : List Nat) :
    decrypt_block isbt ks block = decrypt_block_sequence isbt ks block := by
  have hf : dec_round isbt ks = (fun bl i =>
      let round := i + 1
      let bl := add_round_key ks ((11 - round) * 16) bl
      let bl := if round ≠ 1 then inv_mix_columns bl else bl
      inv_sub_bytes isbt (inv_shift_rows bl)) := by
    funext bl i
    show inv_sub_bytes isbt (inv_shift_rows
        (if i + 1 ≠ 1 then inv_mix_columns (add_round_key ks (160 - 16 * (i + 1 - 1)) bl)
         else add_round_key ks (160 - 16 * (i + 1 - 1)) bl)) =
      inv_sub_bytes isbt (inv_shift_rows
        (if i + 1 ≠ 1 then inv_mix_columns (add_round_key ks ((11 - (i + 1)) * 16) bl)
         else add_round_key ks ((11 - (i + 1)) * 16) bl))
    rw [show 160 - 16 * (i + 1 - 1) = (11 - (i + 1)) * 16 from by omega]
  unfold decrypt_block decrypt_block_sequence
  rw [hf]

/-! ### Key-schedule loop: step forms, length, stability -/

theorem nth_append_lt (l l' : List Nat) (j : Nat) (hj : j < l.length) :
    nth (l ++ l') j = nth l j := by
  induction l generalizing j with
  | nil => exact absurd hj (Nat.not_lt_zero j)
  | cons a l ih =>
    cases j with
    | zero => rfl
    | succ j => exact ih j (Nat.lt_of_succ_lt_succ hj)

theorem nth_append_ge (l l' : List Nat) (j : Nat) :
    nth (l ++ l') (l.length + j) = nth l' j := by
  induction l with
  | nil =>
    rw [show ([] : List Nat).length + j = j from Nat.zero_add j]
    rfl
  | cons a l ih =>
    have h : (a :: l).length + j = (l.length + j) + 1 := by
      simp only [List.length_cons]; omega
    rw [h]
    exact ih

theorem ksWord_eval (ks : List Nat) (i : Nat) :
    ksWord ks i = [nth ks (4 * i), nth ks (4 * i + 1), nth ks (4 * i + 2), nth ks (4 * i + 3)] :=
  rfl

theorem wordXor_eval (u0 u1 u2 u3 v0 v1 v2 v3 : Nat) :
    wordXor [u0, u1, u2, u3] [v0, v1, v2, v3] =
      [u0 ^^^ v0, u1 ^^^ v1, u2 ^^^ v2, u3 ^^^ v3] := rfl

theorem subWord_rot_eval (sbt : List Nat) (w0 w1 w2 w3 : Nat) :
    subWord sbt (lcs_4byte [w0, w1, w2, w3] 1) =
      [nth sbt w1, nth sbt w2, nth sbt w3, nth sbt w0] := rfl

theorem ks_step_eq_key (sbt key X : List Nat) (i : Nat) (h1 : i < 4) :
    ks_step sbt key X i =
      X ++ [nth key (4 * i), nth key (4 * i + 1), nth key (4 * i + 2), nth key (4 * i + 3)] := by
  unfold ks_step
  rw [if_pos h1]

theorem ks_step_eq_a (sbt key X : List Nat) (i : Nat) (h1 : ¬ i < 4) (h2 : i % 4 = 0) :
    ks_step sbt key X i = X ++
      [nth X (4 * (i - 4)) ^^^ nth sbt (nth X (4 * (i - 1) + 1)) ^^^ round_constant (i / 4),
       nth X (4 * (i - 4) + 1) ^^^ nth sbt (nth X (4 * (i - 1) + 2)) ^^^ 0,
       nth X (4 * (i - 4) + 2) ^^^ nth sbt (nth X (4 * (i - 1) + 3)) ^^^ 0,
       nth X (4 * (i - 4) + 3) ^^^ nth sbt (nth X (4 * (i - 1))) ^^^ 0] := by
  simp only [ks_step, if_neg h1, if_pos h2]
  rfl

theorem ks_step_eq_b (sbt key X : List Nat) (i : Nat) (h1 : ¬ i < 4) (h2 : ¬ i % 4 = 0) :
    ks_step sbt key X i = X ++
      [nth X (4 * (i - 1)) ^^^ nth X (4 * (i - 4)),
       nth X (4 * (i - 1) + 1) ^^^ nth X (4 * (i - 4) + 1),
       nth X (4 * (i - 1) + 2) ^^^ nth X (4 * (i - 4) + 2),
       nth X (4 * (i - 1) + 3) ^^^ nth X (4 * (i - 4) + 3)] := by
  simp only [ks_step, if_neg h1, if_neg h2]
  rfl

theorem ks_step_len (sbt key X : List Nat) (i : Nat) :
    (ks_step sbt key X i).length = X.length + 4 := by
  by_cases h1 : i < 4
  · rw [ks_step_eq_key sbt key X i h1]; simp
  · by_cases h2 : i % 4 = 0
    · rw [ks_step_eq_a sbt key X i h1 h2]; simp
    · rw [ks_step_eq_b sbt key X i h1 h2]; simp

theorem ksUpTo_succ (sbt key : List Nat) (n : Nat) :
    ksUpTo sbt key (n + 1) = ks_step sbt key (ksUpTo sbt key n) n := by
  unfold ksUpTo
  rw [List.range_succ, List.foldl_append]
  rfl

theorem ksUpTo_len (sbt key : List Nat) (n : Nat) :
    (ksUpTo sbt key n).length = 4 * n := by
  induction n with
  | zero => rfl
  | succ n ih => rw [ksUpTo_succ, ks_step_len, ih]; omega

theorem nth_ks_step_stable (sbt key X : List Nat) (i j : Nat) (hj : j < X.length) :
    nth (ks_step sbt key X i) j = nth X j := by
  by_cases h1 : i < 4
  · rw [ks_step_eq_key sbt key X i h1]; exact nth_append_lt X _ j hj
  · by_cases h2 : i % 4 = 0
    · rw [ks_step_eq_a sbt key X i h1 h2]; exact nth_append_lt X _ j hj
    · rw [ks_step_eq_b sbt key X i h1 h2]; exact nth_append_lt X _ j hj

theorem nth_ksUpTo_stable (sbt key : List Nat) (m : Nat) :
    ∀ n, m ≤ n → ∀ j, j < 4 * m → nth (ksUpTo sbt key n) j = nth (ksUpTo sbt key m) j := by
  intro n
  induction n with
  | zero =>
    intro h j hj
    have hm : m = 0 := by omega
    subst hm; rfl
  | succ n ih =>
    intro h j hj
    rcases Nat.lt_or_ge m (n + 1) with hlt | hge
    · rw [ksUpTo_succ]
      rw [nth_ks_step_stable sbt key _ n j (by rw [ksUpTo_len]; omega)]
      exact ih (by omega) j hj
    · have hm : m = n + 1 := by omega
      subst hm; rfl

theorem make_key_schedule_len (sbt key : List Nat) :
    (make_key_schedule sbt key).length = 176 := by
  show (ksUpTo sbt key 44).length = 176
  rw [ksUpTo_len]

theorem ksUpTo_four (sbt key : List Nat) :
    ksUpTo sbt key 4 = [nth key 0, nth key 1, nth key 2, nth key 3,
      nth key 4, nth key 5, nth key 6, nth key 7,
      nth key 8, nth key 9, nth key 10, nth key 11,
      nth key 12, nth key 13, nth key 14, nth key 15] := rfl

theorem key_first_sixteen (sbt key : List Nat) :
    ∀ j, j < 16 → nth (make_key_schedule sbt key) j = nth key j := by
  intro j hj
  have h1 : nth (make_key_schedule sbt key) j = nth (ksUpTo sbt key 4) j := by
    show nth (ksUpTo sbt key 44) j = _
    exact nth_ksUpTo_stable sbt key 4 44 (by omega) j (by omega)
  rw [h1, ksUpTo_four]
  interval_cases j <;> rfl

theorem ksWord_key (sbt key : List Nat) :
    ∀ w, w < 4 → ksWord (make_key_schedule sbt key) w = ksWord key w := by
  intro w hw
  unfold ksWord
  rw [key_first_sixteen sbt key (4 * w) (by omega),
      key_first_sixteen sbt key (4 * w + 1) (by omega),
      key_first_sixteen sbt key (4 * w + 2) (by omega),
      key_first_sixteen sbt key (4 * w + 3) (by omega)]

/-! ### The key-expansion word recurrence -/

theorem ks_word_recurrence (sbt key : List Nat) :
    ∀ i, 4 ≤ i → i < 44 →
    ksWord (make_key_schedule sbt key) i =
      if i % 4 = 0 then
        wordXor (wordXor (ksWord (make_key_schedule sbt key) (i - 4))
            (subWord sbt (lcs_4byte (ksWord (make_key_schedule sbt key) (i - 1)) 1)))
          [round_constant (i / 4), 0, 0, 0]
      else
        wordXor (ksWord (make_key_schedule sbt key) (i - 4))
          (ksWord (make_key_schedule sbt key) (i - 1)) := by
  intro i h4 h44
  have hKS : ∀ j, j < 4 * (i + 1) →
      nth (make_key_schedule sbt key) j = nth (ksUpTo sbt key (i + 1)) j := by
    intro j hj
    show nth (ksUpTo sbt key 44) j = _
    exact nth_ksUpTo_stable sbt key (i + 1) 44 (by omega) j hj
  have hb : ∀ j, j < 4 * i →
      nth (ksUpTo sbt key i) j = nth (make_key_schedule sbt key) j := by
    intro j hj
    show _ = nth (ksUpTo sbt key 44) j
    exact (nth_ksUpTo_stable sbt key i 44 (by omega) j hj).symm
  have happ : ∀ (w : List Nat) (j : Nat),
      nth (ksUpTo sbt key i ++ w) (4 * i + j) = nth w j := by
    intro w j
    have h := nth_append_ge (ksUpTo sbt key i) w j
    rw [ksUpTo_len] at h
    exact h
  have hstep : ksUpTo sbt key (i + 1) = ks_step sbt key (ksUpTo sbt key i) i :=
    ksUpTo_succ sbt key i
  have h1 : ¬ i < 4 := by omega
  by_cases hmod : i % 4 = 0
  · rw [if_pos hmod]
    have hval := ks_step_eq_a sbt key (ksUpTo sbt key i) i h1 hmod
    have e0 : nth (make_key_schedule sbt key) (4 * i) =
        nth (ksUpTo sbt key i) (4 * (i - 4)) ^^^
          nth sbt (nth (ksUpTo sbt key i) (4 * (i - 1) + 1)) ^^^ round_constant (i / 4) := by
      rw [hKS (4 * i) (by omega), hstep, hval]
      exact happ _ 0
    have e1 : nth (make_key_schedule sbt key) (4 * i + 1) =
        nth (ksUpTo sbt key i) (4 * (i - 4) + 1) ^^^
          nth sbt (nth (ksUpTo sbt key i) (4 * (i - 1) + 2)) ^^^ 0 := by
      rw [hKS (4 * i + 1) (by omega), hstep, hval]
      exact happ _ 1
    have e2 : nth (make_key_schedule sbt key) (4 * i + 2) =
        nth (ksUpTo sbt key i) (4 * (i - 4) + 2) ^^^
          nth sbt (nth (ksUpTo sbt key i) (4 * (i - 1) + 3)) ^^^ 0 := by
      rw [hKS (4 * i + 2) (by omega), hstep, hval]
      exact happ _ 2
    have e3 : nth (make_key_schedule sbt key) (4 * i + 3) =
        nth (ksUpTo sbt key i) (4 * (i - 4) + 3) ^^^
          nth sbt (nth (ksUpTo sbt key i) (4 * (i - 1))) ^^^ 0 := by
      rw [hKS (4 * i + 3) (by omega), hstep, hval]
      exact happ _ 3
    rw [ksWord_eval (make_key_schedule sbt key) i]
    rw [e0, e1, e2, e3]
    rw [hb (4 * (i - 4)) (by omega), hb (4 * (i - 4) + 1) (by omega),
        hb (4 * (i - 4) + 2) (by omega), hb (4 * (i - 4) + 3) (by omega),
        hb (4 * (i - 1)) (by omega), hb (4 * (i - 1) + 1) (by omega),
        hb (4 * (i - 1) + 2) (by omega), hb (4 * (i - 1) + 3) (by omega)]
    rw [ksWord_eval (make_key_schedule sbt key) (i - 4),
        ksWord_eval (make_key_schedule sbt key) (i - 1),
        subWord_rot_eval, wordXor_eval, wordXor_eval]
  · rw [if_neg hmod]
    have hval := ks_step_eq_b sbt key (ksUpTo sbt key i) i h1 hmod
    have e0 : nth (make_key_schedule sbt key) (4 * i) =
        nth (ksUpTo sbt key i) (4 * (i - 1)) ^^^ nth (ksUpTo sbt key i) (4 * (i - 4)) := by
      rw [hKS (4 * i) (by omega), hstep, hval]
      exact happ _ 0
    have e1 : nth (make_key_schedule sbt key) (4 * i + 1) =
        nth (ksUpTo sbt key i) (4 * (i - 1) + 1) ^^^
          nth (ksUpTo sbt key i) (4 * (i - 4) + 1) := by
      rw [hKS (4 * i + 1) (by omega), hstep, hval]
      exact happ _ 1
    have e2 : nth (make_key_schedule sbt key) (4 * i + 2) =
        nth (ksUpTo sbt key i) (4 * (i - 1) + 2) ^^^
          nth (ksUpTo sbt key i) (4 * (i - 4) + 2) := by
      rw [hKS (4 * i + 2) (by omega), hstep, hval]
      exact happ _ 2
    have e3 : nth (make_key_schedule sbt key) (4 * i + 3) =
        nth (ksUpTo sbt key i) (4 * (i - 1) + 3) ^^^
          nth (ksUpTo sbt key i) (4 * (i - 4) + 3) := by
      rw [hKS (4 * i + 3) (by omega), hstep, hval]
      exact happ _ 3
    rw [ksWord_eval (make_key_schedule sbt key) i]
    rw [e0, e1, e2, e3]
    rw [hb (4 * (i - 1)) (by omega), hb (4 * (i - 1) + 1) (by omega),
        hb (4 * (i - 1) + 2) (by omega), hb (4 * (i - 1) + 3) (by omega),
        hb (4 * (i - 4)) (by omega), hb (4 * (i - 4) + 1) (by omega),
        hb (4 * (i - 4) + 2) (by omega), hb (4 * (i - 4) + 3) (by omega)]
    rw [Nat.xor_comm (nth (make_key_schedule sbt key) (4 * (i - 1)))
          (nth (make_key_schedule sbt key) (4 * (i - 4))),
        Nat.xor_comm (nth (make_key_schedule sbt key) (4 * (i - 1) + 1))
          (nth (make_key_schedule sbt key) (4 * (i - 4) + 1)),
        Nat.xor_comm (nth (make_key_schedule sbt key) (4 * (i - 1) + 2))
          (nth (make_key_schedule sbt key) (4 * (i - 4) + 2)),
        Nat.xor_comm (nth (make_key_schedule sbt key) (4 * (i - 1) + 3))
          (nth (make_key_schedule sbt key) (4 * (i - 4) + 3))]
    rw [ksWord_eval (make_key_schedule sbt key) (i - 4),
        ksWord_eval (make_key_schedule sbt key) (i - 1), wordXor_eval]

/-! ### Schedule bytes stay below 256 -/

theorem round_constant_lt : ∀ n, round_constant n < 256 := by
  intro n
  induction n with
  | zero => decide
  | succ n ih =>
    cases n with
    | zero => decide
    | succ m =>
      show (if round_constant (m + 1) < 128 then 2 * round_constant (m + 1)
            else (2 * round_constant (m + 1) - 256) ^^^ 0x1b) < 256
      split
      · omega
      · exact xor_lt_256 _ _ (by omega) (by omega)

theorem allBytes_append (l l' : List Nat) (h : AllBytes l) (h' : AllBytes l') :
    AllBytes (l ++ l') := by
  intro x hx
  rcases List.mem_append.mp hx with hm | hm
  · exact h x hm
  · exact h' x hm

theorem allBytes_word (a b c d : Nat) (ha : a < 256) (hb : b < 256) (hc : c < 256)
    (hd : d < 256) : AllBytes [a, b, c, d] := by
  intro x hx
  simp only [List.mem_cons, List.not_mem_nil, or_false] at hx
  rcases hx with rfl | rfl | rfl | rfl <;> assumption

theorem ks_step_bytes (key X : List Nat) (hkey : AllBytes key) (hX : AllBytes X) (i : Nat) :
    AllBytes (ks_step sbox_list key X i) := by
  by_cases h1 : i < 4
  · rw [ks_step_eq_key sbox_list key X i h1]
    exact allBytes_append _ _ hX (allBytes_word _ _ _ _ (nth_lt key hkey _)
      (nth_lt key hkey _) (nth_lt key hkey _) (nth_lt key hkey _))
  · by_cases h2 : i % 4 = 0
    · rw [ks_step_eq_a sbox_list key X i h1 h2]
      refine allBytes_append _ _ hX (allBytes_word _ _ _ _ ?_ ?_ ?_ ?_)
      · exact xor_lt_256 _ _ (xor_lt_256 _ _ (nth_lt X hX _)
          (nth_lt sbox_list sbox_list_bytes _)) (round_constant_lt _)
      · exact xor_lt_256 _ _ (xor_lt_256 _ _ (nth_lt X hX _)
          (nth_lt sbox_list sbox_list_bytes _)) (by omega)
      · exact xor_lt_256 _ _ (xor_lt_256 _ _ (nth_lt X hX _)
          (nth_lt sbox_list sbox_list_bytes _)) (by omega)
      · exact xor_lt_256 _ _ (xor_lt_256 _ _ (nth_lt X hX _)
          (nth_lt sbox_list sbox_list_bytes _)) (by omega)
    · rw [ks_step_eq_b sbox_list key X i h1 h2]
      refine allBytes_append _ _ hX (allBytes_word _ _ _ _ ?_ ?_ ?_ ?_) <;>
        exact xor_lt_256 _ _ (nth_lt X hX _) (nth_lt X hX _)

theorem make_key_schedule_bytes (key : List Nat) (hkey : AllBytes key) :
    AllBytes (make_key_schedule sbox_list key) := by
  have main : ∀ (l : List Nat) (X : List Nat), AllBytes X →
      AllBytes (l.foldl (ks_step sbox_list key) X) := by
    intro l
    induction l with
    | nil => intro X hX; exact hX
    | cons a l ih => intro X hX; exact ih _ (ks_step_bytes key X hkey hX a)
  exact main (List.range 44) [] (fun x hx => absurd hx (List.not_mem_nil x))

/-! ### Round constants: recursion agrees with the forward iteration -/

theorem round_constant_forward : ∀ r, 2 ≤ r → r ≤ 10 → round_constant r = rc_forward r := by
  intro r h2 h10
  interval_cases r <;> rfl

/-! ### The multiplier accumulator stays below 256 (claim C10) -/

theorem clmul_lt (a b : Nat) (ha : a < 256) : clmul a b < 2 ^ 15 := by
  have main : ∀ (l : List Nat), (∀ i ∈ l, i < 8) → ∀ r, r < 2 ^ 15 →
      l.foldl (fun result i => cond (b.testBit i) (result ^^^ (a <<< i)) result) r < 2 ^ 15 := by
    intro l
    induction l with
    | nil => intro _ r hr; exact hr
    | cons i l ih =>
      intro hmem r hr
      simp only [List.foldl_cons]
      apply ih (fun j hj => hmem j (List.mem_cons_of_mem i hj))
      cases hbit : b.testBit i
      · exact hr
      · have hi : i < 8 := hmem i (List.mem_cons_self i l)
        show r ^^^ (a <<< i) < 2 ^ 15
        apply Nat.xor_lt_two_pow hr
        rw [Nat.shiftLeft_eq]
        calc a * 2 ^ i ≤ 255 * 2 ^ 7 :=
              Nat.mul_le_mul (by omega) (Nat.pow_le_pow_right (by omega) (by omega))
          _ < 2 ^ 15 := by omega
  exact main (List.range 8) (fun i hi => List.mem_range.mp hi) 0 (by omega)

theorem lt_of_high_bit_false (x i : Nat) (hx : x < 2 ^ (i + 1))
    (hbit : x.testBit i = false) : x < 2 ^ i := by
  have hpos : 0 < 2 ^ i := Nat.two_pow_pos i
  have hdiv : x / 2 ^ i < 2 := by
    apply Nat.div_lt_of_lt_mul
    calc x < 2 ^ (i + 1) := hx
      _ = 2 ^ i * 2 := pow_succ 2 i
  have hmod : x / 2 ^ i % 2 = 0 := by
    rw [Nat.testBit_to_div_mod] at hbit
    simp only [decide_eq_false_iff_not] at hbit
    omega
  have h0 : x / 2 ^ i = 0 := by
    generalize hdd : x / 2 ^ i = d at hdiv hmod
    omega
  exact (Nat.div_eq_zero_iff hpos).mp h0

theorem redstep_lt (i r : Nat) (h8 : 8 ≤ i) (hr : r < 2 ^ (i + 1)) :
    redstep i r < 2 ^ i := by
  unfold redstep
  cases hbit : r.testBit i
  · show r < 2 ^ i
    exact lt_of_high_bit_false r i hr hbit
  · show r ^^^ (0x11b <<< (i - 8)) < 2 ^ i
    have hc : (0x11b <<< (i - 8)) < 2 ^ (i + 1) := by
      rw [Nat.shiftLeft_eq]
      calc (0x11b : Nat) * 2 ^ (i - 8) < 2 ^ 9 * 2 ^ (i - 8) :=
            Nat.mul_lt_mul_of_lt_of_le (by omega) (Nat.le_refl _) (Nat.pos_pow_of_pos _ (by omega))
        _ = 2 ^ (9 + (i - 8)) := (pow_add 2 9 (i - 8)).symm
        _ ≤ 2 ^ (i + 1) := Nat.pow_le_pow_right (by omega) (by omega)
    have hxlt : r ^^^ (0x11b <<< (i - 8)) < 2 ^ (i + 1) := Nat.xor_lt_two_pow hr hc
    have hbit2 : (r ^^^ (0x11b <<< (i - 8))).testBit i = false := by
      rw [Nat.testBit_xor, hbit]
      have hcb : (0x11b <<< (i - 8)).testBit i = true := by
        rw [Nat.testBit_shiftLeft, show i - (i - 8) = 8 from by omega,
            decide_eq_true (show i - 8 ≤ i from by omega)]
        rfl
      rw [hcb]
      rfl
    exact lt_of_high_bit_false _ i hxlt hbit2

theorem rijndael_multiply_acc_lt (a b : Nat) (ha : a < 256) :
    rijndael_multiply_acc a b < 256 := by
  have h := clmul_lt a b ha
  have hred : rijndael_reduce (clmul a b) =
      redstep 8 (redstep 9 (redstep 10 (redstep 11 (redstep 12 (redstep 13
        (redstep 14 (redstep 15 (clmul a b)))))))) := rfl
  show rijndael_reduce (clmul a b) < 256
  rw [hred]
  exact redstep_lt 8 _ (by omega) (redstep_lt 9 _ (by omega) (redstep_lt 10 _ (by omega)
    (redstep_lt 11 _ (by omega) (redstep_lt 12 _ (by omega) (redstep_lt 13 _ (by omega)
      (redstep_lt 14 _ (by omega) (redstep_lt 15 _ (by omega) (by
        have h2 : (2 : Nat) ^ 15 ≤ 2 ^ 16 := by omega
        omega))))))))

/-! ### Helper facts for the claim theorems -/

theorem inv_mul_all : ((List.range 256).all fun x =>
    (x == 0) || (rijndael_multiply_arith x (tbl inv254N x) == 1)) = true := by decide

theorem sbox_pair_fst : make_sbox_array.1 = sbox_list := by rw [make_sbox_array_eq]

theorem sbox_pair_snd : make_sbox_array.2 = inverse_sbox_list := by rw [make_sbox_array_eq]

/-! ### The claims -/

/-- Claim C1: for every 16-byte key and every 16-byte block (bytes, that is,
values below 256), decrypting the result of encrypting the block — both with
the key schedule produced by make_key_schedule from the key and with the
S-box tables produced by make_sbox_array — returns the block. -/
theorem claim_C1 (key block : List Nat) (hk1 : key.length = 16) (hk2 : AllBytes key)
    (hb1 : block.length = 16) (hb2 : AllBytes block) :
    decrypt_block make_sbox_array.2 (make_key_schedule make_sbox_array.1 key)
      (encrypt_block make_sbox_array.1 (make_key_schedule make_sbox_array.1 key) block) =
      block := by
  rw [sbox_pair_fst, sbox_pair_snd]
  exact roundtrip_core (make_key_schedule sbox_list key) block
    (make_key_schedule_bytes key hk2) hb1 hb2

/-- Witness for claim C1 at the FIPS-197 appendix C.1 key and plaintext. -/
theorem claim_C1_witness :
    decrypt_block make_sbox_array.2 (make_key_schedule make_sbox_array.1 fipsKey)
      (encrypt_block make_sbox_array.1 (make_key_schedule make_sbox_array.1 fipsKey)
        fipsPlain) = fipsPlain :=
  claim_C1 fipsKey fipsPlain (by rfl) (by decide) (by rfl) (by decide)

/-- Claim C2: with the key schedule built from the key
000102030405060708090a0b0c0d0e0f, encrypt_block maps the plaintext
00112233445566778899aabbccddeeff to the ciphertext
69c4e0d86a7b0430d8cdb78070b4c55a, and decrypt_block maps that ciphertext
back to the plaintext. -/
theorem claim_C2 :
    encrypt_block make_sbox_array.1 (make_key_schedule make_sbox_array.1 fipsKey)
        fipsPlain = fipsCipher ∧
      decrypt_block make_sbox_array.2 (make_key_schedule make_sbox_array.1 fipsKey)
        fipsCipher = fipsPlain := by
  rw [sbox_pair_fst, sbox_pair_snd, fips_ks_eq]
  exact ⟨fips_enc_eval, fips_dec_eval⟩

/-- Claim C3, amended: decrypt_block computes, for round = 1..10 in order,
AddRoundKey with round key 11 - round (round keys 10 down to 1), then
InverseMixColumns for every round except round 1, then InverseShiftRows and
InverseSubBytes, finishing with a final AddRoundKey using round key 0: the
sequence written out in decrypt_block_sequence.  The order the specification
claims (a separate initial AddRoundKey with round key 10, per-round
AddRoundKey with round key 10 - round, InverseMixColumns for every round
except round 10) is refuted by the counterexample. -/
theorem claim_C3 (isbt ks block : List Nat) :
    decrypt_block isbt ks block = decrypt_block_sequence isbt ks block :=
  decrypt_block_eq_sequence isbt ks block

/-- Counterexample to claim C3 as stated: at the all-zero key and all-zero
block, the sequence decrypt_block computes and the claimed sequence
(decrypt_block_claimed, written from the specification) give different
results. -/
theorem claim_C3_counterexample :
    decrypt_block make_sbox_array.2 (make_key_schedule make_sbox_array.1 zeroKey)
        zeroBlock ≠
      decrypt_block_claimed make_sbox_array.2 (make_key_schedule make_sbox_array.1 zeroKey)
        zeroBlock := by
  rw [sbox_pair_fst, sbox_pair_snd, zero_ks_eq, zero_dec_eval, zero_clm_eval]
  decide

/-- Claim C4, amended: encrypt_block and decrypt_block are pure functions of
the block and the key schedule with deterministic results, but encrypt_block
is not free of I/O: it prints exactly the 16 ciphertext bytes it returns
(encrypt_block_stdout), while decrypt_block prints nothing
(decrypt_block_stdout is empty).  The no-I/O part of the claim as stated is
refuted by the counterexample. -/
theorem claim_C4 :
    (∀ sbt ks block : List Nat,
        encrypt_block_stdout sbt ks block = encrypt_block sbt ks block) ∧
      ∀ isbt ks block : List Nat, decrypt_block_stdout isbt ks block = [] :=
  ⟨fun _ _ _ => rfl, fun _ _ _ => rfl⟩

/-- Counterexample to claim C4 as stated: encrypt_block writes bytes to
standard output (at the FIPS-197 key and plaintext, its output is the
ciphertext, not nothing). -/
theorem claim_C4_counterexample :
    encrypt_block_stdout make_sbox_array.1 (make_key_schedule make_sbox_array.1 fipsKey)
      fipsPlain ≠ [] := by
  rw [sbox_pair_fst, fips_ks_eq,
      show encrypt_block_stdout sbox_list fips_ks fipsPlain = fipsCipher from fips_enc_eval]
  decide

/-- Claim C5: after make_sbox_array runs, sbox byte 0x00 is 0x63 and byte
0x01 is 0x7c, inverse_sbox inverts sbox on every byte, the 256 sbox entries
are pairwise distinct, and sbox also inverts inverse_sbox on every byte, so
inverse_sbox is the exact inverse permutation of sbox. -/
theorem claim_C5 :
    nth make_sbox_array.1 0x00 = 0x63 ∧ nth make_sbox_array.1 0x01 = 0x7c ∧
      (∀ x, x < 256 → nth make_sbox_array.2 (nth make_sbox_array.1 x) = x) ∧
      make_sbox_array.1.Nodup ∧
      ∀ y, y < 256 → nth make_sbox_array.1 (nth make_sbox_array.2 y) = y := by
  rw [sbox_pair_fst, sbox_pair_snd]
  exact ⟨by decide, by decide, by decide, by decide, by decide⟩

/-- Witness for claim C5: the inversion equations at the bytes 0x53 and
0x63. -/
theorem claim_C5_witness :
    nth make_sbox_array.2 (nth make_sbox_array.1 0x53) = 0x53 ∧
      nth make_sbox_array.1 (nth make_sbox_array.2 0x63) = 0x63 :=
  ⟨claim_C5.2.2.1 0x53 (by decide), claim_C5.2.2.2.2 0x63 (by decide)⟩

/-- Claim C6: make_key_schedule produces a 176-byte schedule of 44 words
W[0..43]; W[0..3] are the four words of the input key verbatim, and for
every i from 4 to 43, W[i] = W[i-4] XOR SubWord(RotWord(W[i-1])) XOR
(RoundConstant(i/4), 0, 0, 0) when i mod 4 = 0, and W[i] = W[i-4] XOR W[i-1]
otherwise.  The schedule is built here as a pure function of the key bytes
alone (the C++ global array is written at every byte before being read), so
two calls with the same key give identical schedules and round key 0 equals
the input key. -/
theorem claim_C6 (key : List Nat) :
    (make_key_schedule make_sbox_array.1 key).length = 176 ∧
      (∀ w, w < 4 → ksWord (make_key_schedule make_sbox_array.1 key) w = ksWord key w) ∧
      ∀ i, 4 ≤ i → i < 44 →
        ksWord (make_key_schedule make_sbox_array.1 key) i =
          if i % 4 = 0 then
            wordXor (wordXor (ksWord (make_key_schedule make_sbox_array.1 key) (i - 4))
                (subWord make_sbox_array.1
                  (lcs_4byte (ksWord (make_key_schedule make_sbox_array.1 key) (i - 1)) 1)))
              [round_constant (i / 4), 0, 0, 0]
          else
            wordXor (ksWord (make_key_schedule make_sbox_array.1 key) (i - 4))
              (ksWord (make_key_schedule make_sbox_array.1 key) (i - 1)) :=
  ⟨make_key_schedule_len make_sbox_array.1 key, ksWord_key make_sbox_array.1 key,
    ks_word_recurrence make_sbox_array.1 key⟩

/-- Witness for claim C6 at the FIPS-197 key: word 0 is the first key word,
and word 5 is the XOR of words 1 and 4. -/
theorem claim_C6_witness :
    ksWord (make_key_schedule make_sbox_array.1 fipsKey) 0 = ksWord fipsKey 0 ∧
      ksWord (make_key_schedule make_sbox_array.1 fipsKey) 5 =
        wordXor (ksWord (make_key_schedule make_sbox_array.1 fipsKey) 1)
          (ksWord (make_key_schedule make_sbox_array.1 fipsKey) 4) := by
  constructor
  · exact (claim_C6 fipsKey).2.1 0 (by decide)
  · have h := (claim_C6 fipsKey).2.2 5 (by decide) (by decide)
    rw [if_neg (by decide)] at h
    exact h

/-- Claim C7: for every byte x other than 0, the field product of x and
rijndael_inverse x is 1, and rijndael_inverse 0 = 0 (the 254-fold
multiplication loop applied to 0 yields 0). -/
theorem claim_C7 :
    (∀ x, x < 256 → x ≠ 0 → rijndael_multiply x (rijndael_inverse x) = 1) ∧
      rijndael_inverse 0 = 0 := by
  constructor
  · intro x hx hnz
    rw [rijndael_inverse_table x hx, rijndael_multiply_eq_arith]
    have h := all_range_lt inv_mul_all hx
    rw [Bool.or_eq_true, beq_iff_eq, beq_iff_eq] at h
    rcases h with h | h
    · exact absurd h hnz
    · exact h
  · rw [rijndael_inverse_table 0 (by omega)]
    decide

/-- Witness for claim C7 at x = 2: the inverse of 2 multiplies with 2 to 1. -/
theorem claim_C7_witness :
    rijndael_multiply 2 (rijndael_inverse 2) = 1 :=
  claim_C7.1 2 (by decide) (by decide)

/-- Claim C8: rijndael_multiply is commutative on bytes, and multiplying any
value by 0 gives 0. -/
theorem claim_C8 :
    (∀ a b : Nat, a < 256 → b < 256 → rijndael_multiply a b = rijndael_multiply b a) ∧
      ∀ a : Nat, rijndael_multiply a 0 = 0 :=
  ⟨fun a b ha hb => rijndael_multiply_comm_bytes a b ha hb,
   fun a => rijndael_multiply_zero_right a⟩

/-- Witness for claim C8 at the bytes 0x57 and 0x83. -/
theorem claim_C8_witness :
    rijndael_multiply 0x57 0x83 = rijndael_multiply 0x83 0x57 :=
  claim_C8.1 0x57 0x83 (by decide) (by decide)

/-- Claim C9: round_constant 1 = 1, and for r = 2..10 the recursive
round_constant agrees with the explicit forward doubling iteration
rc_forward (doubling, with XOR 0x1b applied after a byte overflow). -/
theorem claim_C9 :
    round_constant 1 = 1 ∧ rc_forward 1 = 1 ∧
      ∀ r, 2 ≤ r → r ≤ 10 → round_constant r = rc_forward r := by
  exact ⟨rfl, rfl, round_constant_forward⟩

/-- Witness for claim C9 at r = 10. -/
theorem claim_C9_witness : round_constant 10 = rc_forward 10 :=
  claim_C9.2.2 10 (by decide) (by decide)

/-- Claim C10: for byte inputs, after the reduction loop of
rijndael_multiply the 16-bit accumulator has bits 8..15 all zero, so the
narrowing of the accumulator to the 8-bit return type discards only zero
bits and the returned byte equals the full accumulator. -/
theorem claim_C10 (a b : Nat) (ha : a < 256) (hb : b < 256) :
    (∀ i, 8 ≤ i → i ≤ 15 → (rijndael_multiply_acc a b).testBit i = false) ∧
      rijndael_multiply a b = rijndael_multiply_acc a b := by
  have hacc : rijndael_multiply_acc a b < 256 := rijndael_multiply_acc_lt a b ha
  constructor
  · intro i h8 h15
    apply Nat.testBit_lt_two_pow
    calc rijndael_multiply_acc a b < 256 := hacc
      _ = 2 ^ 8 := rfl
      _ ≤ 2 ^ i := Nat.pow_le_pow_right (by omega) h8
  · exact Nat.mod_eq_of_lt (by omega)

/-- Witness for claim C10 at the bytes 0x57 and 0x83. -/
theorem claim_C10_witness :
    (rijndael_multiply_acc 0x57 0x83).testBit 8 = false ∧
      rijndael_multiply 0x57 0x83 = rijndael_multiply_acc 0x57 0x83 :=
  ⟨(claim_C10 0x57 0x83 (by decide) (by decide)).1 8 (by decide) (by decide),
   (claim_C10 0x57 0x83 (by decide) (by decide)).2⟩
